import Mathlib

/-!
# A shallow embedding of the tiny8 AVR-like CPU core

This file embeds the instruction-dispatch core of the `tiny8` emulator
(`src/tiny8/cpu.py` and `src/tiny8/memory.py`) into Lean and proves the
specification claims about it.

Conventions of the embedding:
* Python machine integers are modelled as `Nat`/`Int`; the Python mask
  `x & 0xFF` on a non-negative value is written `x % 256` (the two agree on
  non-negative integers), and on a possibly-negative Python int it is
  written `(x % 256).toNat` (Python's `%` on a positive modulus is
  Euclidean, exactly Lean's `Int.emod`).
* Python exceptions are modelled with `Except Err`; a raised exception is
  `.error e` and propagates through `do`-notation exactly as in Python.
* Python list indexing (which admits negative indices wrapping from the
  end) is modelled by `pyGet`/`pySet`.
* Mutation of the `CPU`/`Memory` objects is modelled by explicit state
  passing: each handler maps the pre-state to an `Except Err` post-state.
-/

namespace Tiny8

/-- Python exceptions raised by the tiny8 core. -/
inductive Err where
  | indexError
  | keyError
  | valueError
  | notImplementedError
  | typeError
  deriving DecidableEq, Repr

/-- Python `v & 0xFF` on an arbitrary (possibly negative) int. -/
def mask8 (v : Int) : Nat := (v % 256).toNat

/-- Python `v & 0xFFFF` on an arbitrary (possibly negative) int. -/
def mask16 (v : Int) : Nat := (v % 65536).toNat

/-- Python list read `xs[i]`: non-negative indices are direct, negative
indices in `[-len, -1]` wrap from the end, anything else raises
`IndexError`. -/
def pyGet (xs : List Nat) (i : Int) : Except Err Nat :=
  if 0 ≤ i then
    if i < xs.length then .ok (xs.getD i.toNat 0) else .error .indexError
  else
    if 0 ≤ i + xs.length then .ok (xs.getD (i + xs.length).toNat 0)
    else .error .indexError

/-- Python list write `xs[i] = v` with the same index semantics as `pyGet`. -/
def pySet (xs : List Nat) (i : Int) (v : Nat) : Except Err (List Nat) :=
  if 0 ≤ i then
    if i < xs.length then .ok (xs.set i.toNat v) else .error .indexError
  else
    if 0 ≤ i + xs.length then .ok (xs.set (i + xs.length).toNat v)
    else .error .indexError

/-- The memory model of `src/tiny8/memory.py`: fixed-size RAM and ROM with
change logs. -/
structure Memory where
  ram_size : Nat
  rom_size : Nat
  ram : List Nat
  rom : List Nat
  ram_changes : List (Nat × Nat × Nat × Nat)
  rom_changes : List (Nat × Nat × Nat × Nat)
  deriving Repr, DecidableEq

/-- `Memory(ram_size, rom_size)` constructor. -/
def Memory.init (ram_size : Nat := 2048) (rom_size : Nat := 2048) : Memory :=
  { ram_size := ram_size
    rom_size := rom_size
    ram := List.replicate ram_size 0
    rom := List.replicate rom_size 0
    ram_changes := []
    rom_changes := [] }

/-- `Memory.read_ram`: bounds-checked RAM read. -/
def Memory.read_ram (m : Memory) (addr : Int) : Except Err Nat :=
  if addr < 0 ∨ m.ram_size ≤ addr then .error .indexError
  else .ok (m.ram.getD addr.toNat 0)

/-- `Memory.write_ram`: bounds-checked RAM write, masking to 8 bits and
logging the change only when the stored byte actually changes. -/
def Memory.write_ram (m : Memory) (addr : Int) (value : Int) (cycle : Nat) :
    Except Err Memory :=
  if addr < 0 ∨ m.ram_size ≤ addr then .error .indexError
  else
    let old := m.ram.getD addr.toNat 0
    let nv := mask8 value
    let m' := { m with ram := m.ram.set addr.toNat nv }
    if old ≠ nv then
      .ok { m' with ram_changes := m.ram_changes ++ [(addr.toNat, old, nv, cycle)] }
    else .ok m'

/-- `Memory.load_rom`: bulk ROM load; raises `ValueError` when the image is
larger than the configured ROM, otherwise overwrites from index 0 and logs
the changed bytes. -/
def Memory.load_rom (m : Memory) (data : List Int) : Except Err Memory :=
  if m.rom_size < data.length then .error .valueError
  else
    .ok (data.enum.foldl
      (fun acc p =>
        let i := p.1
        let old := acc.rom.getD i 0
        let nv := mask8 p.2
        let acc' := { acc with rom := acc.rom.set i nv }
        if old ≠ nv then
          { acc' with rom_changes := acc.rom_changes ++ [(i, old, nv, 0)] }
        else acc')
      m)

/-- `Memory.read_rom`: bounds-checked ROM read. -/
def Memory.read_rom (m : Memory) (addr : Int) : Except Err Nat :=
  if addr < 0 ∨ m.rom_size ≤ addr then .error .indexError
  else .ok (m.rom.getD addr.toNat 0)

/-! ## SREG flags -/

def SREG_I : Nat := 7
def SREG_T : Nat := 6
def SREG_H : Nat := 5
def SREG_S : Nat := 4
def SREG_V : Nat := 3
def SREG_N : Nat := 2
def SREG_Z : Nat := 1
def SREG_C : Nat := 0

/-- Set bit `k` of `x` — Python `x | (1 << k)` — written via a bit test so
that the kernel can evaluate it (`Nat.lor` is not kernel-reducible);
`setBit_eq_lor` proves the equivalence with the bitwise form. -/
def setBit (x k : Nat) : Nat :=
  if (x >>> k) % 2 = 1 then x else x + (1 <<< k)

/-- Clear bit `k` of `x` — Python `x & ~(1 << k)` (which on a non-negative
int is `Nat.ldiff x (1 <<< k)`); `clearBit_eq_ldiff` proves the
equivalence. -/
def clearBit (x k : Nat) : Nat :=
  if (x >>> k) % 2 = 1 then x - (1 <<< k) else x

/-- `CPU.set_flag` on the raw SREG byte: `sreg |= 1 << bit` or
`sreg &= ~(1 << bit)`. -/
def set_flag (s : Nat) (bit : Nat) (value : Bool) : Nat :=
  if value then setBit s bit else clearBit s bit

/-- `CPU.get_flag` on the raw SREG byte: `bool((sreg >> bit) & 1)`. -/
def get_flag (s : Nat) (bit : Nat) : Bool :=
  (s >>> bit) % 2 != 0

/-- `CPU._set_flags_add` (flags for ADD/ADC) as a pure function of the old
SREG byte and the operands. -/
def setFlagsAdd (s : Nat) (a b carry_in : Nat) (result : Nat) : Nat :=
  let r := result % 256
  let c := (result >>> 8) % 2
  let h := ((a % 16 + b % 16 + carry_in) >>> 4) % 2
  let n := (r >>> 7) % 2
  -- Python `((~(a ^ b) & 0xFF) & (a ^ r) & 0x80) != 0`: bit 7 of `a` agrees
  -- with bit 7 of `b` and differs from bit 7 of `r`; `addV_cond_iff` proves
  -- this form equal to the bitwise one.
  let v := if (a >>> 7) % 2 = (b >>> 7) % 2 ∧ (a >>> 7) % 2 ≠ (r >>> 7) % 2 then 1 else 0
  -- Python `n ^ v` on single bits: equals `(n + v) % 2` (`bit_xor_eq`)
  let sb := (n + v) % 2
  let z := if r = 0 then 1 else 0
  set_flag (set_flag (set_flag (set_flag (set_flag (set_flag
    s SREG_C (c != 0)) SREG_H (h != 0)) SREG_N (n != 0))
    SREG_V (v != 0)) SREG_S (sb != 0)) SREG_Z (z != 0)

/-- `CPU._set_flags_sub` (flags for SUB/CP/CPI/NEG/SBC) as a pure function. -/
def setFlagsSub (s : Nat) (a b borrow_in : Nat) (result : Int) : Nat :=
  let r := mask8 result
  let c := if (a : Int) - b - borrow_in < 0 then 1 else 0
  let h := if (a % 16 : Int) - (b % 16 : Int) - borrow_in < 0 then 1 else 0
  let n := (r >>> 7) % 2
  -- Python `(((a ^ b) & (a ^ r)) & 0x80) != 0`: bit 7 of `a` differs from
  -- bit 7 of `b` and from bit 7 of `r`; `subV_cond_iff` proves the
  -- equivalence.
  let v := if (a >>> 7) % 2 ≠ (b >>> 7) % 2 ∧ (a >>> 7) % 2 ≠ (r >>> 7) % 2 then 1 else 0
  -- Python `n ^ v` on single bits: equals `(n + v) % 2` (`bit_xor_eq`)
  let sb := (n + v) % 2
  let z := if r = 0 then 1 else 0
  set_flag (set_flag (set_flag (set_flag (set_flag (set_flag
    s SREG_C (c != 0)) SREG_H (h != 0)) SREG_N (n != 0))
    SREG_V (v != 0)) SREG_S (sb != 0)) SREG_Z (z != 0)

/-- `CPU._set_flags_logical` (flags for AND/OR/EOR/TST and immediates). -/
def setFlagsLogical (s : Nat) (result : Nat) : Nat :=
  let r := result % 256
  let n := (r >>> 7) % 2
  let z := if r = 0 then 1 else 0
  let sb := n  -- v is 0, so s = n ^ 0 = n
  set_flag (set_flag (set_flag (set_flag (set_flag (set_flag
    s SREG_C false) SREG_V false) SREG_N (n != 0))
    SREG_S (sb != 0)) SREG_Z (z != 0)) SREG_H false

/-- `CPU._set_flags_inc`. -/
def setFlagsInc (s : Nat) (old new : Nat) : Nat :=
  let n := (new >>> 7) % 2
  let v := if old = 0x7F then 1 else 0
  let z := if new = 0 then 1 else 0
  -- Python `n ^ v` on single bits: equals `(n + v) % 2` (`bit_xor_eq`)
  let sb := (n + v) % 2
  set_flag (set_flag (set_flag (set_flag
    s SREG_N (n != 0)) SREG_V (v != 0)) SREG_S (sb != 0)) SREG_Z (z != 0)

/-- `CPU._set_flags_dec`. -/
def setFlagsDec (s : Nat) (old new : Nat) : Nat :=
  let n := (new >>> 7) % 2
  let v := if old = 0x80 then 1 else 0
  let z := if new = 0 then 1 else 0
  -- Python `n ^ v` on single bits: equals `(n + v) % 2` (`bit_xor_eq`)
  let sb := (n + v) % 2
  set_flag (set_flag (set_flag (set_flag
    s SREG_N (n != 0)) SREG_V (v != 0)) SREG_S (sb != 0)) SREG_Z (z != 0)

/-- `CPU._set_flags_add16` (ADIW). -/
def setFlagsAdd16 (s : Nat) (a b carry_in : Nat) (result : Nat) : Nat :=
  let _ := carry_in
  let r := result % 65536
  let c := (result >>> 16) % 2
  let n := (r >>> 15) % 2
  -- Python `((~(a ^ b) & 0xFFFF) & (a ^ r) & 0x8000) != 0`, as bit-15
  -- agreement/disagreement; `addV16_cond_iff` proves the equivalence.
  let v := if (a >>> 15) % 2 = (b >>> 15) % 2 ∧ (a >>> 15) % 2 ≠ (r >>> 15) % 2 then 1 else 0
  -- Python `n ^ v` on single bits: equals `(n + v) % 2` (`bit_xor_eq`)
  let sb := (n + v) % 2
  let z := if r = 0 then 1 else 0
  set_flag (set_flag (set_flag (set_flag (set_flag (set_flag
    s SREG_C (c != 0)) SREG_N (n != 0)) SREG_V (v != 0))
    SREG_S (sb != 0)) SREG_Z (z != 0)) SREG_H false

/-- `CPU._set_flags_sub16` (SBIW). -/
def setFlagsSub16 (s : Nat) (a b borrow_in : Nat) (result : Int) : Nat :=
  let r := mask16 result
  let c := if (a : Int) - b - borrow_in < 0 then 1 else 0
  let n := (r >>> 15) % 2
  -- Python `(((a ^ b) & (a ^ r)) & 0x8000) != 0`, as bit-15 disagreement;
  -- `subV16_cond_iff` proves the equivalence.
  let v := if (a >>> 15) % 2 ≠ (b >>> 15) % 2 ∧ (a >>> 15) % 2 ≠ (r >>> 15) % 2 then 1 else 0
  -- Python `n ^ v` on single bits: equals `(n + v) % 2` (`bit_xor_eq`)
  let sb := (n + v) % 2
  let z := if r = 0 then 1 else 0
  set_flag (set_flag (set_flag (set_flag (set_flag (set_flag
    s SREG_C (c != 0)) SREG_N (n != 0)) SREG_V (v != 0))
    SREG_S (sb != 0)) SREG_Z (z != 0)) SREG_H false

/-! ## CPU state -/

/-- An operand of an assembled instruction: a tagged register reference
`("reg", n)`, a plain integer literal, or a label string. -/
inductive Operand where
  | reg (n : Int)
  | num (n : Int)
  | lab (s : String)
  deriving DecidableEq, Repr

/-- A program entry `(mnemonic, operands)`. -/
abbrev Instr := String × List Operand

/-- A decoded operand as passed to a handler: a plain int or a string. -/
inductive Val where
  | int (n : Int)
  | str (s : String)
  deriving DecidableEq, Repr

/-- One entry of `step_trace` (the dict built by `CPU.step`). -/
structure StepRec where
  step : Nat
  pc : Int
  instr : String
  regs : List Nat
  mem : List (Nat × Nat)
  sreg : Nat
  sp : Int
  source_line : Int
  deriving DecidableEq, Repr

/-- The CPU state of `src/tiny8/cpu.py` (the fields the core reads or
writes; display-only fields such as `source_lines` are omitted). -/
structure CPU where
  mem : Memory
  regs : List Nat
  pc : Int
  sp : Int
  sreg : Nat
  step_count : Nat
  reg_trace : List (Nat × Int × Nat)
  mem_trace : List (Nat × Int × Nat)
  step_trace : List StepRec
  program : List Instr
  labels : List (String × Int)
  pc_to_line : List (Int × Int)
  running : Bool
  deriving Repr, DecidableEq

/-- `CPU.__init__`. -/
def CPU.init (m : Memory := Memory.init) : CPU :=
  { mem := m
    regs := List.replicate 32 0
    pc := 0
    sp := (m.ram_size : Int) - 1
    sreg := 0
    step_count := 0
    reg_trace := []
    mem_trace := []
    step_trace := []
    program := []
    labels := []
    pc_to_line := []
    running := false }

/-- `CPU.set_flag` acting on the whole state. -/
def CPU.setFlag (c : CPU) (bit : Nat) (v : Bool) : CPU :=
  { c with sreg := set_flag c.sreg bit v }

/-- `CPU.get_flag` acting on the whole state. -/
def CPU.getFlag (c : CPU) (bit : Nat) : Bool :=
  get_flag c.sreg bit

/-- `CPU.read_reg`: `self.regs[r] & 0xFF` with Python list indexing. -/
def CPU.read_reg (c : CPU) (r : Int) : Except Err Nat := do
  let v ← pyGet c.regs r
  .ok (v % 256)

/-- `CPU.write_reg`: mask to 8 bits, store, and log a trace entry only when
the stored value actually changes. -/
def CPU.write_reg (c : CPU) (r : Int) (val : Int) : Except Err CPU := do
  let newv := mask8 val
  let old ← pyGet c.regs r
  if old ≠ newv then do
    let rs ← pySet c.regs r newv
    .ok { c with regs := rs, reg_trace := c.reg_trace ++ [(c.step_count, r, newv)] }
  else .ok c

/-- `CPU.read_ram`: delegates to `Memory`. -/
def CPU.read_ram (c : CPU) (addr : Int) : Except Err Nat :=
  c.mem.read_ram addr

/-- `CPU.write_ram`: delegates to `Memory` and appends to the CPU-level
`mem_trace`. -/
def CPU.write_ram (c : CPU) (addr : Int) (val : Int) : Except Err CPU := do
  let m ← c.mem.write_ram addr val c.step_count
  .ok { c with mem := m, mem_trace := c.mem_trace ++ [(c.step_count, addr, mask8 val)] }

/-! ## Instruction handlers -/

def CPU.op_nop (c : CPU) : Except Err CPU := .ok c

def CPU.op_ldi (c : CPU) (reg_idx imm : Int) : Except Err CPU :=
  c.write_reg reg_idx imm

def CPU.op_mov (c : CPU) (rd rr : Int) : Except Err CPU := do
  let v ← c.read_reg rr
  c.write_reg rd v

def CPU.op_add (c : CPU) (rd rr : Int) : Except Err CPU := do
  let a ← c.read_reg rd
  let b ← c.read_reg rr
  let res := a + b
  let c1 ← c.write_reg rd (res % 256)
  .ok { c1 with sreg := setFlagsAdd c1.sreg a b 0 res }

def CPU.op_and (c : CPU) (rd rr : Int) : Except Err CPU := do
  let a ← c.read_reg rd
  let b ← c.read_reg rr
  let res := a &&& b
  let c1 ← c.write_reg rd res
  .ok { c1 with sreg := setFlagsLogical c1.sreg res }

def CPU.op_or (c : CPU) (rd rr : Int) : Except Err CPU := do
  let a ← c.read_reg rd
  let b ← c.read_reg rr
  let res := a ||| b
  let c1 ← c.write_reg rd res
  .ok { c1 with sreg := setFlagsLogical c1.sreg res }

def CPU.op_eor (c : CPU) (rd rr : Int) : Except Err CPU := do
  let a ← c.read_reg rd
  let b ← c.read_reg rr
  let res := a ^^^ b
  let c1 ← c.write_reg rd res
  .ok { c1 with sreg := setFlagsLogical c1.sreg res }

def CPU.op_sub (c : CPU) (rd rr : Int) : Except Err CPU := do
  let a ← c.read_reg rd
  let b ← c.read_reg rr
  let res_full : Int := (a : Int) - b
  let c1 ← c.write_reg rd (mask8 res_full)
  .ok { c1 with sreg := setFlagsSub c1.sreg a b 0 res_full }

def CPU.op_inc (c : CPU) (rd : Int) : Except Err CPU := do
  let old ← c.read_reg rd
  let new := (old + 1) % 256
  let c1 ← c.write_reg rd new
  .ok { c1 with sreg := setFlagsInc c1.sreg old new }

def CPU.op_dec (c : CPU) (rd : Int) : Except Err CPU := do
  let old ← c.read_reg rd
  let new := mask8 ((old : Int) - 1)
  let c1 ← c.write_reg rd new
  .ok { c1 with sreg := setFlagsDec c1.sreg old new }

def CPU.op_mul (c : CPU) (rd rr : Int) : Except Err CPU := do
  let a ← c.read_reg rd
  let b ← c.read_reg rr
  let prod := a * b
  let low := prod % 256
  let high := (prod >>> 8) % 256
  let c1 ← c.write_reg rd low
  let c2 ← if rd + 1 < 32 then c1.write_reg (rd + 1) high else .ok c1
  .ok (((c2.setFlag SREG_Z (prod == 0)).setFlag SREG_C (high != 0)).setFlag SREG_H false)

def CPU.op_adc (c : CPU) (rd rr : Int) : Except Err CPU := do
  let a ← c.read_reg rd
  let b ← c.read_reg rr
  let carry_in := if c.getFlag SREG_C then 1 else 0
  let res := a + b + carry_in
  let c1 ← c.write_reg rd (res % 256)
  .ok { c1 with sreg := setFlagsAdd c1.sreg a b carry_in res }

def CPU.op_clr (c : CPU) (rd : Int) : Except Err CPU := do
  let c1 ← c.write_reg rd 0
  .ok ((((((c1.setFlag SREG_N false).setFlag SREG_V false).setFlag SREG_S false).setFlag
    SREG_Z true).setFlag SREG_C false).setFlag SREG_H false)

def CPU.op_ser (c : CPU) (rd : Int) : Except Err CPU := do
  let c1 ← c.write_reg rd 0xFF
  .ok ((((((c1.setFlag SREG_N true).setFlag SREG_V false).setFlag SREG_S true).setFlag
    SREG_Z false).setFlag SREG_C false).setFlag SREG_H false)

def CPU.op_div (c : CPU) (rd rr : Int) : Except Err CPU := do
  let a ← c.read_reg rd
  let b ← c.read_reg rr
  if b = 0 then do
    let c1 ← c.write_reg rd 0
    .ok ((c1.setFlag SREG_C true).setFlag SREG_Z true)
  else do
    let q := a / b
    let r := a % b
    let c1 ← c.write_reg rd q
    let c2 ← if rd + 1 < 32 then c1.write_reg (rd + 1) r else .ok c1
    .ok ((((c2.setFlag SREG_Z (q == 0)).setFlag SREG_C false).setFlag
      SREG_H false).setFlag SREG_V false)

def CPU.op_in (c : CPU) (rd port : Int) : Except Err CPU := do
  let val ← c.read_ram port
  c.write_reg rd val

def CPU.op_out (c : CPU) (port rr : Int) : Except Err CPU := do
  let val ← c.read_reg rr
  c.write_ram port val

/-- `CPU.op_jmp`: a string operand is looked up in the label table
(raising `KeyError` when absent), an int operand is used directly; either
way the handler stores `target - 1` so the post-step `+1` lands on target. -/
def CPU.op_jmp (c : CPU) (label : Val) : Except Err CPU :=
  match label with
  | .str s =>
    match c.labels.lookup s with
    | none => .error .keyError
    | some t => .ok { c with pc := t - 1 }
  | .int t => .ok { c with pc := t - 1 }

def CPU.op_cpi (c : CPU) (rd imm : Int) : Except Err CPU := do
  let a ← c.read_reg rd
  let b := mask8 imm
  let res : Int := (a : Int) - b
  .ok { c with sreg := setFlagsSub c.sreg a b 0 res }

def CPU.op_cp (c : CPU) (rd rr : Int) : Except Err CPU := do
  let a ← c.read_reg rd
  let b ← c.read_reg rr
  let res : Int := (a : Int) - b
  .ok { c with sreg := setFlagsSub c.sreg a b 0 res }

def CPU.op_lsl (c : CPU) (rd : Int) : Except Err CPU := do
  let v ← c.read_reg rd
  let carry := (v >>> 7) % 2
  let nv := (v <<< 1) % 256
  let c1 ← c.write_reg rd nv
  let n := (nv >>> 7) % 2
  -- Python `n ^ carry` on single bits
  let vflag := (n + carry) % 2
  .ok ((((((c1.setFlag SREG_C (carry != 0)).setFlag SREG_N (n != 0)).setFlag
    SREG_V (vflag != 0)).setFlag SREG_S (((n + vflag) % 2) != 0)).setFlag
    SREG_Z (nv == 0)).setFlag SREG_H false)

def CPU.op_lsr (c : CPU) (rd : Int) : Except Err CPU := do
  let v ← c.read_reg rd
  let carry := v % 2
  let nv := (v >>> 1) % 256
  let c1 ← c.write_reg rd nv
  .ok ((((((c1.setFlag SREG_C (carry != 0)).setFlag SREG_N false).setFlag
    SREG_V (carry != 0)).setFlag SREG_S (carry != 0)).setFlag
    SREG_Z (nv == 0)).setFlag SREG_H false)

def CPU.op_rol (c : CPU) (rd : Int) : Except Err CPU := do
  let v ← c.read_reg rd
  let carry_in := if c.getFlag SREG_C then 1 else 0
  let carry_out := (v >>> 7) % 2
  -- Python `((v << 1) & 0xFF) | carry_in`: the left part is even and
  -- `carry_in` is a single bit, so the or is addition (`lor_bit0_eq_add`)
  let nv := ((v <<< 1) % 256) + carry_in
  let c1 ← c.write_reg rd nv
  .ok ((((((c1.setFlag SREG_C (carry_out != 0)).setFlag SREG_N (((nv >>> 7) % 2) != 0)).setFlag
    SREG_Z (nv == 0)).setFlag SREG_V false).setFlag
    SREG_S (((nv >>> 7) % 2) != 0)).setFlag SREG_H false)

def CPU.op_ror (c : CPU) (rd : Int) : Except Err CPU := do
  let v ← c.read_reg rd
  let carry_in := if c.getFlag SREG_C then 1 else 0
  let carry_out := v % 2
  -- Python `(v >> 1) | (carry_in << 7)`: `v < 256` so the parts are
  -- disjoint and the or is addition (`shiftLeft_or_eq_add`)
  let nv := (carry_in <<< 7) + (v >>> 1)
  let c1 ← c.write_reg rd nv
  .ok ((((((c1.setFlag SREG_C (carry_out != 0)).setFlag SREG_N (((nv >>> 7) % 2) != 0)).setFlag
    SREG_Z (nv == 0)).setFlag SREG_V false).setFlag
    SREG_S (((nv >>> 7) % 2) != 0)).setFlag SREG_H false)

def CPU.op_com (c : CPU) (rd : Int) : Except Err CPU := do
  let v ← c.read_reg rd
  -- `(~v) & 0xFF` on a non-negative int is `255 - (v % 256)`
  let nv := 255 - (v % 256)
  let c1 ← c.write_reg rd nv
  let n := (nv >>> 7) % 2
  .ok ((((((c1.setFlag SREG_N (n != 0)).setFlag SREG_V false).setFlag
    SREG_S (n != 0)).setFlag SREG_Z (nv == 0)).setFlag
    SREG_C true).setFlag SREG_H false)

def CPU.op_neg (c : CPU) (rd : Int) : Except Err CPU := do
  let a ← c.read_reg rd
  let res_full : Int := 0 - (a : Int)
  let c1 ← c.write_reg rd (mask8 res_full)
  .ok { c1 with sreg := setFlagsSub c1.sreg 0 a 0 res_full }

def CPU.op_swap (c : CPU) (rd : Int) : Except Err CPU := do
  let v ← c.read_reg rd
  -- Python `((v & 0x0F) << 4) | ((v >> 4) & 0x0F)`: disjoint nibbles, the
  -- or is addition (`shiftLeft_or_eq_add`)
  let nv := ((v % 16) <<< 4) + ((v >>> 4) % 16)
  c.write_reg rd nv

def CPU.op_tst (c : CPU) (rd : Int) : Except Err CPU := do
  let v ← c.read_reg rd
  let res := v &&& v
  .ok { c with sreg := setFlagsLogical c.sreg res }

def CPU.op_andi (c : CPU) (rd imm : Int) : Except Err CPU := do
  let a ← c.read_reg rd
  let res := a &&& mask8 imm
  let c1 ← c.write_reg rd res
  .ok { c1 with sreg := setFlagsLogical c1.sreg res }

def CPU.op_ori (c : CPU) (rd imm : Int) : Except Err CPU := do
  let a ← c.read_reg rd
  let res := a ||| mask8 imm
  let c1 ← c.write_reg rd res
  .ok { c1 with sreg := setFlagsLogical c1.sreg res }

def CPU.op_eori (c : CPU) (rd imm : Int) : Except Err CPU := do
  let a ← c.read_reg rd
  let res := a ^^^ mask8 imm
  let c1 ← c.write_reg rd res
  .ok { c1 with sreg := setFlagsLogical c1.sreg res }

def CPU.op_subi (c : CPU) (rd imm : Int) : Except Err CPU := do
  let a ← c.read_reg rd
  let b := mask8 imm
  let res_full : Int := (a : Int) - b
  let c1 ← c.write_reg rd (mask8 res_full)
  .ok { c1 with sreg := setFlagsSub c1.sreg a b 0 res_full }

def CPU.op_sbc (c : CPU) (rd rr : Int) : Except Err CPU := do
  let a ← c.read_reg rd
  let b ← c.read_reg rr
  let borrow_in : Nat := if c.getFlag SREG_C then 1 else 0
  let res_full : Int := (a : Int) - b - borrow_in
  let c1 ← c.write_reg rd (mask8 res_full)
  .ok { c1 with sreg := setFlagsSub c1.sreg a b borrow_in res_full }

def CPU.op_sbci (c : CPU) (rd imm : Int) : Except Err CPU := do
  let a ← c.read_reg rd
  let b := mask8 imm
  let borrow_in : Nat := if c.getFlag SREG_C then 1 else 0
  let res_full : Int := (a : Int) - b - borrow_in
  let c1 ← c.write_reg rd (mask8 res_full)
  .ok { c1 with sreg := setFlagsSub c1.sreg a b borrow_in res_full }

def CPU.op_sei (c : CPU) : Except Err CPU := .ok (c.setFlag SREG_I true)

def CPU.op_cli (c : CPU) : Except Err CPU := .ok (c.setFlag SREG_I false)

def CPU.op_cpse (c : CPU) (rd rr : Int) : Except Err CPU := do
  let a ← c.read_reg rd
  let b ← c.read_reg rr
  let c1 := { c with sreg := setFlagsSub c.sreg a b 0 ((a : Int) - b) }
  if a = b then .ok { c1 with pc := c1.pc + 1 } else .ok c1

def CPU.op_sbrs (c : CPU) (rd bit : Int) : Except Err CPU := do
  let v ← c.read_reg rd
  -- Python `bit & 7` is `bit mod 8` (also for negative ints)
  if (v >>> (bit % 8).toNat) % 2 = 1 then .ok { c with pc := c.pc + 1 } else .ok c

def CPU.op_sbrc (c : CPU) (rd bit : Int) : Except Err CPU := do
  let v ← c.read_reg rd
  if (v >>> (bit % 8).toNat) % 2 = 0 then .ok { c with pc := c.pc + 1 } else .ok c

def CPU.op_sbis (c : CPU) (io_addr bit : Int) : Except Err CPU := do
  let v ← c.read_ram io_addr
  if (v >>> (bit % 8).toNat) % 2 = 1 then .ok { c with pc := c.pc + 1 } else .ok c

def CPU.op_sbic (c : CPU) (io_addr bit : Int) : Except Err CPU := do
  let v ← c.read_ram io_addr
  if (v >>> (bit % 8).toNat) % 2 = 0 then .ok { c with pc := c.pc + 1 } else .ok c

def CPU.op_sbiw (c : CPU) (rd_word_low imm_word : Int) : Except Err CPU := do
  let lo ← c.read_reg rd_word_low
  let hi ← if rd_word_low + 1 < 32 then c.read_reg (rd_word_low + 1) else .ok 0
  -- Python `(hi << 8) | lo`: `lo < 256`, disjoint or is addition
  let word := (hi <<< 8) + lo
  let new := mask16 ((word : Int) - mask16 imm_word)
  let new_lo := new % 256
  let new_hi := (new >>> 8) % 256
  let c1 ← c.write_reg rd_word_low new_lo
  let c2 ← if rd_word_low + 1 < 32 then c1.write_reg (rd_word_low + 1) new_hi else .ok c1
  .ok { c2 with sreg := setFlagsSub16 c2.sreg word (mask16 imm_word) 0 ((word : Int) - mask16 imm_word) }

def CPU.op_adiw (c : CPU) (rd_word_low imm_word : Int) : Except Err CPU := do
  let lo ← c.read_reg rd_word_low
  let hi ← if rd_word_low + 1 < 32 then c.read_reg (rd_word_low + 1) else .ok 0
  -- Python `(hi << 8) | lo`: `lo < 256`, disjoint or is addition
  let word := (hi <<< 8) + lo
  let new := (word + mask16 imm_word) % 65536
  let new_lo := new % 256
  let new_hi := (new >>> 8) % 256
  let c1 ← c.write_reg rd_word_low new_lo
  let c2 ← if rd_word_low + 1 < 32 then c1.write_reg (rd_word_low + 1) new_hi else .ok c1
  .ok { c2 with sreg := setFlagsAdd16 c2.sreg word (mask16 imm_word) 0 (word + mask16 imm_word) }

/-- `CPU.op_rjmp`: an int operand is a relative offset added directly to
`pc`; a string operand falls back to `op_jmp`. -/
def CPU.op_rjmp (c : CPU) (label : Val) : Except Err CPU :=
  match label with
  | .int k => .ok { c with pc := c.pc + k }
  | .str _ => c.op_jmp label

/-- `CPU.op_rcall`: push the return address (high byte then low byte, each
push decrementing `sp`), then for an int operand set `pc = pc + k - 1`, for
a string operand fall back to `op_jmp`. -/
def CPU.op_rcall (c : CPU) (label : Val) : Except Err CPU := do
  let ret := c.pc + 1
  -- Python `(ret >> 8) & 0xFF`: arithmetic shift is floor division by 256
  let c1 ← c.write_ram c.sp (mask8 (Int.fdiv ret 256))
  let c1 := { c1 with sp := c1.sp - 1 }
  let c2 ← c1.write_ram c1.sp (mask8 ret)
  let c2 := { c2 with sp := c2.sp - 1 }
  match label with
  | .int k => .ok { c2 with pc := (c2.pc + k) - 1 }
  | .str _ => c2.op_jmp label

def CPU.op_sbi (c : CPU) (io_addr bit : Int) : Except Err CPU := do
  let val ← c.read_ram io_addr
  -- Python `val | (1 << (bit & 7))`
  let nval := setBit val (bit % 8).toNat
  c.write_ram io_addr nval

def CPU.op_cbi (c : CPU) (io_addr bit : Int) : Except Err CPU := do
  let val ← c.read_ram io_addr
  -- Python `val & ~(1 << (bit & 7))`
  let nval := clearBit val (bit % 8).toNat
  c.write_ram io_addr nval

def CPU.op_ld (c : CPU) (rd addr_reg : Int) : Except Err CPU := do
  let addr ← c.read_reg addr_reg
  let val ← c.read_ram addr
  c.write_reg rd val

def CPU.op_st (c : CPU) (addr_reg rr : Int) : Except Err CPU := do
  let addr ← c.read_reg addr_reg
  let val ← c.read_reg rr
  c.write_ram addr val

def CPU.op_brne (c : CPU) (label : Val) : Except Err CPU :=
  if c.getFlag SREG_Z then .ok c else c.op_jmp label

def CPU.op_breq (c : CPU) (label : Val) : Except Err CPU :=
  if c.getFlag SREG_Z then c.op_jmp label else .ok c

def CPU.op_brcs (c : CPU) (label : Val) : Except Err CPU :=
  if c.getFlag SREG_C then c.op_jmp label else .ok c

def CPU.op_brcc (c : CPU) (label : Val) : Except Err CPU :=
  if c.getFlag SREG_C then .ok c else c.op_jmp label

def CPU.op_brge (c : CPU) (label : Val) : Except Err CPU :=
  if c.getFlag SREG_S then .ok c else c.op_jmp label

def CPU.op_brlt (c : CPU) (label : Val) : Except Err CPU :=
  if c.getFlag SREG_S then c.op_jmp label else .ok c

def CPU.op_brmi (c : CPU) (label : Val) : Except Err CPU :=
  if c.getFlag SREG_N then c.op_jmp label else .ok c

def CPU.op_brpl (c : CPU) (label : Val) : Except Err CPU :=
  if c.getFlag SREG_N then .ok c else c.op_jmp label

/-- `CPU.op_push`: write the register value to RAM at `sp`, then decrement
`sp`. -/
def CPU.op_push (c : CPU) (rr : Int) : Except Err CPU := do
  let val ← c.read_reg rr
  let c1 ← c.write_ram c.sp val
  .ok { c1 with sp := c1.sp - 1 }

/-- `CPU.op_pop`: increment `sp`, then read RAM at the new `sp` into the
register. -/
def CPU.op_pop (c : CPU) (rd : Int) : Except Err CPU := do
  let c1 := { c with sp := c.sp + 1 }
  let val ← c1.read_ram c1.sp
  c1.write_reg rd val

def CPU.op_call (c : CPU) (label : Val) : Except Err CPU := do
  let ret := c.pc + 1
  let c1 ← c.write_ram c.sp (mask8 (Int.fdiv ret 256))
  let c1 := { c1 with sp := c1.sp - 1 }
  let c2 ← c1.write_ram c1.sp (mask8 ret)
  let c2 := { c2 with sp := c2.sp - 1 }
  c2.op_jmp label

def CPU.op_ret (c : CPU) : Except Err CPU := do
  let c1 := { c with sp := c.sp + 1 }
  let low ← c1.read_ram c1.sp
  let c2 := { c1 with sp := c1.sp + 1 }
  let high ← c2.read_ram c2.sp
  -- Python `(high << 8) | low`: `low < 256`, disjoint or is addition
  let ret : Nat := (high <<< 8) + low
  .ok { c2 with pc := (ret : Int) - 1 }

def CPU.op_reti (c : CPU) : Except Err CPU := do
  let c1 := { c with sp := c.sp + 1 }
  let low ← c1.read_ram c1.sp
  let c2 := { c1 with sp := c1.sp + 1 }
  let high ← c2.read_ram c2.sp
  -- Python `(high << 8) | low`: `low < 256`, disjoint or is addition
  let ret : Nat := (high <<< 8) + low
  .ok { (c2.setFlag SREG_I true) with pc := (ret : Int) - 1 }

/-! ## Dispatch and the fetch-decode-execute step -/

/-- ASCII lower-casing of one character (Python `str.lower` restricted to
ASCII, which covers every mnemonic; written structurally so the kernel can
evaluate it). -/
def lowerChar (ch : Char) : Char :=
  if 65 <= ch.toNat ∧ ch.toNat <= 90 then Char.ofNat (ch.toNat + 32) else ch

/-- ASCII upper-casing of one character (Python `str.upper` on ASCII). -/
def upperChar (ch : Char) : Char :=
  if 97 <= ch.toNat ∧ ch.toNat <= 122 then Char.ofNat (ch.toNat - 32) else ch

/-- `instr.lower()` on ASCII mnemonics. -/
def strLower (s : String) : String := ⟨s.data.map lowerChar⟩

/-- `instr.upper()` on ASCII mnemonics. -/
def strUpper (s : String) : String := ⟨s.data.map upperChar⟩

/-- The mnemonics for which an `op_<mnemonic>` handler exists on `CPU`. -/
def knownMnemonics : List String :=
  ["nop", "ldi", "mov", "add", "and", "or", "eor", "sub", "inc", "dec", "mul",
   "adc", "clr", "ser", "div", "in", "out", "jmp", "cpi", "cp", "lsl", "lsr",
   "rol", "ror", "com", "neg", "swap", "tst", "andi", "ori", "eori", "subi",
   "sbc", "sbci", "sei", "cli", "cpse", "sbrs", "sbrc", "sbis", "sbic",
   "sbiw", "adiw", "rjmp", "rcall", "sbi", "cbi", "ld", "st", "brne", "breq",
   "brcs", "brcc", "brge", "brlt", "brmi", "brpl", "push", "pop", "call",
   "ret", "reti"]

/-- Decode an operand for the handler call: register markers become plain
ints, other operands pass through. -/
def decodeOp : Operand → Val
  | .reg n => .int n
  | .num n => .int n
  | .lab s => .str s

/-- `fmt_op` inside `CPU.step`: textual rendering of one operand. -/
def fmtOp : Operand → String
  | .reg n => "R" ++ toString n
  | .num n => toString n
  | .lab s => s

/-- Invoke the handler for a (lower-cased) mnemonic on decoded operands.
A call whose operand count or shapes do not fit the handler's signature
raises `TypeError`, as the Python call would. -/
def runHandler (c : CPU) (name : String) (vs : List Val) : Except Err CPU :=
  if name = "nop" then
    match vs with
    | [] => c.op_nop
    | _ => .error .typeError
    else if name = "ldi" then
      match vs with
      | [.int r, .int k] => c.op_ldi r k
      | _ => .error .typeError
    else if name = "mov" then
      match vs with
      | [.int rd, .int rr] => c.op_mov rd rr
      | _ => .error .typeError
    else if name = "add" then
      match vs with
      | [.int rd, .int rr] => c.op_add rd rr
      | _ => .error .typeError
    else if name = "and" then
      match vs with
      | [.int rd, .int rr] => c.op_and rd rr
      | _ => .error .typeError
    else if name = "or" then
      match vs with
      | [.int rd, .int rr] => c.op_or rd rr
      | _ => .error .typeError
    else if name = "eor" then
      match vs with
      | [.int rd, .int rr] => c.op_eor rd rr
      | _ => .error .typeError
    else if name = "sub" then
      match vs with
      | [.int rd, .int rr] => c.op_sub rd rr
      | _ => .error .typeError
    else if name = "inc" then
      match vs with
      | [.int rd] => c.op_inc rd
      | _ => .error .typeError
    else if name = "dec" then
      match vs with
      | [.int rd] => c.op_dec rd
      | _ => .error .typeError
    else if name = "mul" then
      match vs with
      | [.int rd, .int rr] => c.op_mul rd rr
      | _ => .error .typeError
    else if name = "adc" then
      match vs with
      | [.int rd, .int rr] => c.op_adc rd rr
      | _ => .error .typeError
    else if name = "clr" then
      match vs with
      | [.int rd] => c.op_clr rd
      | _ => .error .typeError
    else if name = "ser" then
      match vs with
      | [.int rd] => c.op_ser rd
      | _ => .error .typeError
    else if name = "div" then
      match vs with
      | [.int rd, .int rr] => c.op_div rd rr
      | _ => .error .typeError
    else if name = "in" then
      match vs with
      | [.int rd, .int port] => c.op_in rd port
      | _ => .error .typeError
    else if name = "out" then
      match vs with
      | [.int port, .int rr] => c.op_out port rr
      | _ => .error .typeError
    else if name = "jmp" then
      match vs with
      | [v] => c.op_jmp v
      | _ => .error .typeError
    else if name = "cpi" then
      match vs with
      | [.int rd, .int k] => c.op_cpi rd k
      | _ => .error .typeError
    else if name = "cp" then
      match vs with
      | [.int rd, .int rr] => c.op_cp rd rr
      | _ => .error .typeError
    else if name = "lsl" then
      match vs with
      | [.int rd] => c.op_lsl rd
      | _ => .error .typeError
    else if name = "lsr" then
      match vs with
      | [.int rd] => c.op_lsr rd
      | _ => .error .typeError
    else if name = "rol" then
      match vs with
      | [.int rd] => c.op_rol rd
      | _ => .error .typeError
    else if name = "ror" then
      match vs with
      | [.int rd] => c.op_ror rd
      | _ => .error .typeError
    else if name = "com" then
      match vs with
      | [.int rd] => c.op_com rd
      | _ => .error .typeError
    else if name = "neg" then
      match vs with
      | [.int rd] => c.op_neg rd
      | _ => .error .typeError
    else if name = "swap" then
      match vs with
      | [.int rd] => c.op_swap rd
      | _ => .error .typeError
    else if name = "tst" then
      match vs with
      | [.int rd] => c.op_tst rd
      | _ => .error .typeError
    else if name = "andi" then
      match vs with
      | [.int rd, .int k] => c.op_andi rd k
      | _ => .error .typeError
    else if name = "ori" then
      match vs with
      | [.int rd, .int k] => c.op_ori rd k
      | _ => .error .typeError
    else if name = "eori" then
      match vs with
      | [.int rd, .int k] => c.op_eori rd k
      | _ => .error .typeError
    else if name = "subi" then
      match vs with
      | [.int rd, .int k] => c.op_subi rd k
      | _ => .error .typeError
    else if name = "sbc" then
      match vs with
      | [.int rd, .int rr] => c.op_sbc rd rr
      | _ => .error .typeError
    else if name = "sbci" then
      match vs with
      | [.int rd, .int k] => c.op_sbci rd k
      | _ => .error .typeError
    else if name = "sei" then
      match vs with
      | [] => c.op_sei
      | _ => .error .typeError
    else if name = "cli" then
      match vs with
      | [] => c.op_cli
      | _ => .error .typeError
    else if name = "cpse" then
      match vs with
      | [.int rd, .int rr] => c.op_cpse rd rr
      | _ => .error .typeError
    else if name = "sbrs" then
      match vs with
      | [.int rd, .int b] => c.op_sbrs rd b
      | _ => .error .typeError
    else if name = "sbrc" then
      match vs with
      | [.int rd, .int b] => c.op_sbrc rd b
      | _ => .error .typeError
    else if name = "sbis" then
      match vs with
      | [.int a, .int b] => c.op_sbis a b
      | _ => .error .typeError
    else if name = "sbic" then
      match vs with
      | [.int a, .int b] => c.op_sbic a b
      | _ => .error .typeError
    else if name = "sbiw" then
      match vs with
      | [.int rd, .int k] => c.op_sbiw rd k
      | _ => .error .typeError
    else if name = "adiw" then
      match vs with
      | [.int rd, .int k] => c.op_adiw rd k
      | _ => .error .typeError
    else if name = "rjmp" then
      match vs with
      | [v] => c.op_rjmp v
      | _ => .error .typeError
    else if name = "rcall" then
      match vs with
      | [v] => c.op_rcall v
      | _ => .error .typeError
    else if name = "sbi" then
      match vs with
      | [.int a, .int b] => c.op_sbi a b
      | _ => .error .typeError
    else if name = "cbi" then
      match vs with
      | [.int a, .int b] => c.op_cbi a b
      | _ => .error .typeError
    else if name = "ld" then
      match vs with
      | [.int rd, .int ar] => c.op_ld rd ar
      | _ => .error .typeError
    else if name = "st" then
      match vs with
      | [.int ar, .int rr] => c.op_st ar rr
      | _ => .error .typeError
    else if name = "brne" then
      match vs with
      | [v] => c.op_brne v
      | _ => .error .typeError
    else if name = "breq" then
      match vs with
      | [v] => c.op_breq v
      | _ => .error .typeError
    else if name = "brcs" then
      match vs with
      | [v] => c.op_brcs v
      | _ => .error .typeError
    else if name = "brcc" then
      match vs with
      | [v] => c.op_brcc v
      | _ => .error .typeError
    else if name = "brge" then
      match vs with
      | [v] => c.op_brge v
      | _ => .error .typeError
    else if name = "brlt" then
      match vs with
      | [v] => c.op_brlt v
      | _ => .error .typeError
    else if name = "brmi" then
      match vs with
      | [v] => c.op_brmi v
      | _ => .error .typeError
    else if name = "brpl" then
      match vs with
      | [v] => c.op_brpl v
      | _ => .error .typeError
    else if name = "push" then
      match vs with
      | [.int rr] => c.op_push rr
      | _ => .error .typeError
    else if name = "pop" then
      match vs with
      | [.int rd] => c.op_pop rd
      | _ => .error .typeError
    else if name = "call" then
      match vs with
      | [v] => c.op_call v
      | _ => .error .typeError
    else if name = "ret" then
      match vs with
      | [] => c.op_ret
      | _ => .error .typeError
    else if name = "reti" then
      match vs with
      | [] => c.op_reti
      | _ => .error .typeError
  else .error .typeError

/-- Execute the instruction at `pc`: unknown mnemonic raises
`NotImplementedError`, otherwise the decoded operands are passed to the
matching handler. -/
def CPU.runInstr (c : CPU) (i : Instr) : Except Err CPU :=
  if knownMnemonics.contains (strLower i.1) then
    runHandler c (strLower i.1) (i.2.map decodeOp)
  else .error .notImplementedError

/-- The pre-execution sparse snapshot of all non-zero RAM addresses taken
by `CPU.step`. -/
def CPU.memSnapshot (c : CPU) : List (Nat × Nat) :=
  (List.range c.mem.ram_size).filterMap
    (fun i => let v := c.mem.ram.getD i 0; if v ≠ 0 then some (i, v) else none)

/-- The textual rendering of an instruction built by `CPU.step`:
`f"{instr.upper()} {ops_text}".strip()` — the stripped trailing space
appears exactly when the operand list is empty. -/
def instrText (i : Instr) : String :=
  if i.2.isEmpty then strUpper i.1
  else strUpper i.1 ++ " " ++ String.intercalate ", " (i.2.map fmtOp)

/-- `CPU.step`: one fetch-decode-execute step. Returns the new state and
the `executed` boolean; a fatal error inside the handler propagates. -/
def CPU.step (c : CPU) : Except Err (CPU × Bool) :=
  if c.pc < 0 ∨ (c.program.length : Int) ≤ c.pc then
    .ok ({ c with running := false }, false)
  else
    let i := c.program.getD c.pc.toNat ("nop", [])
    let regs_snapshot := c.regs
    let mem_snapshot := c.memSnapshot
    match c.runInstr i with
    | .error e => .error e
    | .ok c1 =>
      let sc := c1.step_count + 1
      let source_line := (c1.pc_to_line.lookup c1.pc).getD (-1)
      let entry : StepRec :=
        { step := sc
          pc := c1.pc
          instr := instrText i
          regs := regs_snapshot
          mem := mem_snapshot
          sreg := c1.sreg
          sp := c1.sp
          source_line := source_line }
      .ok ({ c1 with
              step_count := sc
              step_trace := c1.step_trace ++ [entry]
              pc := c1.pc + 1 }, true)

/-! ## Basic lemmas about the embedding's building blocks -/

@[simp] theorem ok_bind {α β : Type} (a : α) (f : α → Except Err β) :
    (Except.ok a >>= f) = f a := rfl

@[simp] theorem error_bind {α β : Type} (e : Err) (f : α → Except Err β) :
    ((Except.error e : Except Err α) >>= f) = .error e := rfl

instance {ε α : Type} [DecidableEq ε] [DecidableEq α] : DecidableEq (Except ε α) :=
  fun a b =>
    match a, b with
    | .ok x, .ok y =>
      if h : x = y then isTrue (by rw [h])
      else isFalse (fun hh => h (Except.ok.inj hh))
    | .error x, .error y =>
      if h : x = y then isTrue (by rw [h])
      else isFalse (fun hh => h (Except.error.inj hh))
    | .ok _, .error _ => isFalse (fun hh => Except.noConfusion hh)
    | .error _, .ok _ => isFalse (fun hh => Except.noConfusion hh)

@[simp] theorem setFlag_regs (c : CPU) (b : Nat) (v : Bool) :
    (c.setFlag b v).regs = c.regs := rfl

@[simp] theorem setFlag_sreg (c : CPU) (b : Nat) (v : Bool) :
    (c.setFlag b v).sreg = set_flag c.sreg b v := rfl

@[simp] theorem setFlag_pc (c : CPU) (b : Nat) (v : Bool) :
    (c.setFlag b v).pc = c.pc := rfl

@[simp] theorem setFlag_sp (c : CPU) (b : Nat) (v : Bool) :
    (c.setFlag b v).sp = c.sp := rfl

@[simp] theorem setFlag_mem (c : CPU) (b : Nat) (v : Bool) :
    (c.setFlag b v).mem = c.mem := rfl

@[simp] theorem setFlag_step_count (c : CPU) (b : Nat) (v : Bool) :
    (c.setFlag b v).step_count = c.step_count := rfl

@[simp] theorem setFlag_step_trace (c : CPU) (b : Nat) (v : Bool) :
    (c.setFlag b v).step_trace = c.step_trace := rfl

@[simp] theorem setFlag_program (c : CPU) (b : Nat) (v : Bool) :
    (c.setFlag b v).program = c.program := rfl

@[simp] theorem setFlag_pc_to_line (c : CPU) (b : Nat) (v : Bool) :
    (c.setFlag b v).pc_to_line = c.pc_to_line := rfl

@[simp] theorem setFlag_labels (c : CPU) (b : Nat) (v : Bool) :
    (c.setFlag b v).labels = c.labels := rfl

theorem get_flag_eq_testBit (s b : Nat) : get_flag s b = s.testBit b := by
  unfold get_flag Nat.testBit
  rw [Nat.one_and_eq_mod_two]

theorem testBit_eq_mod (x k : Nat) : x.testBit k = decide ((x >>> k) % 2 = 1) := by
  rw [Nat.testBit_to_div_mod, Nat.shiftRight_eq_div_pow]

/-- Setting an unset bit is addition of the corresponding power of two. -/
theorem lor_one_shiftLeft {x k : Nat} (h : (x >>> k) % 2 ≠ 1) :
    x ||| (1 <<< k) = x + (1 <<< k) := by
  rw [Nat.one_shiftLeft]
  have hbit : x.testBit k = false := by
    rw [testBit_eq_mod]
    simp only [decide_eq_false_iff_not]
    omega
  have hpos : 0 < 2 ^ (k + 1) := Nat.two_pow_pos _
  have hdecomp : 2 ^ (k + 1) * (x / 2 ^ (k + 1)) + x % 2 ^ (k + 1) = x :=
    Nat.div_add_mod x (2 ^ (k + 1))
  set hi := x / 2 ^ (k + 1) with hhi
  set lo := x % 2 ^ (k + 1) with hlo
  have hlo_lt : lo < 2 ^ (k + 1) := Nat.mod_lt _ hpos
  have hbit_lo : lo.testBit k = false := by
    rw [hlo, Nat.testBit_mod_two_pow]
    simp [hbit]
  have hpow : 2 ^ (k + 1) = 2 * 2 ^ k := by
    rw [Nat.pow_succ]
    ring
  have hlo2 : lo < 2 ^ k := by
    by_contra hge
    push_neg at hge
    have hdiv : lo / 2 ^ k = 1 := Nat.div_eq_of_lt_le (by omega) (by omega)
    have : lo.testBit k = true := by
      rw [Nat.testBit_to_div_mod, hdiv]
      decide
    rw [hbit_lo] at this
    exact Bool.noConfusion this
  calc x ||| 2 ^ k
      = (2 ^ (k + 1) * hi + lo) ||| 2 ^ k := by rw [hdecomp]
    _ = (2 ^ (k + 1) * hi ||| lo) ||| 2 ^ k := by rw [← Nat.mul_add_lt_is_or hlo_lt]
    _ = 2 ^ (k + 1) * hi ||| (lo ||| 2 ^ k) := Nat.or_assoc _ _ _
    _ = 2 ^ (k + 1) * hi ||| (2 ^ k + lo) := by
        rw [Nat.or_comm lo]
        congr 1
        have h1 : 2 ^ k * 1 + lo = 2 ^ k * 1 ||| lo := Nat.mul_add_lt_is_or hlo2 1
        simpa using h1.symm
    _ = 2 ^ (k + 1) * hi + (2 ^ k + lo) :=
        (Nat.mul_add_lt_is_or (by omega) hi).symm
    _ = x + 2 ^ k := by omega

/-- `setBit` agrees with the Python bitwise form `x | (1 << k)`. -/
theorem setBit_eq_lor (x k : Nat) : setBit x k = x ||| (1 <<< k) := by
  unfold setBit
  by_cases h : (x >>> k) % 2 = 1
  · rw [if_pos h]
    apply Nat.eq_of_testBit_eq
    intro i
    rw [Nat.testBit_or]
    by_cases hik : k = i
    · subst hik
      have hb : x.testBit k = true := by
        rw [testBit_eq_mod]
        simp only [decide_eq_true_eq]
        omega
      simp [hb, Nat.one_shiftLeft, Nat.testBit_two_pow_self]
    · simp [Nat.one_shiftLeft, Nat.testBit_two_pow_of_ne hik]
  · rw [if_neg h, lor_one_shiftLeft h]

/-- `clearBit` agrees with the Python bitwise form `x & ~(1 << k)`,
i.e. `Nat.ldiff x (1 <<< k)` for non-negative ints. -/
theorem clearBit_eq_ldiff (x k : Nat) : clearBit x k = x.ldiff (1 <<< k) := by
  unfold clearBit
  have hjoin : x.ldiff (1 <<< k) ||| (1 <<< k) = x ||| (1 <<< k) := by
    apply Nat.eq_of_testBit_eq
    intro i
    rw [Nat.testBit_or, Nat.testBit_or, Nat.testBit_ldiff]
    by_cases hik : k = i
    · subst hik
      simp [Nat.one_shiftLeft, Nat.testBit_two_pow_self]
    · simp [Nat.one_shiftLeft, Nat.testBit_two_pow_of_ne hik]
  have hclear : (x.ldiff (1 <<< k)).testBit k = false := by
    rw [Nat.testBit_ldiff]
    simp [Nat.one_shiftLeft, Nat.testBit_two_pow_self]
  have hclear' : (x.ldiff (1 <<< k) >>> k) % 2 ≠ 1 := by
    rw [testBit_eq_mod] at hclear
    simp only [decide_eq_false_iff_not] at hclear
    omega
  by_cases h : (x >>> k) % 2 = 1
  · rw [if_pos h]
    have hxb : x.testBit k = true := by
      rw [testBit_eq_mod]
      simp only [decide_eq_true_eq]
      omega
    have hx : x ||| (1 <<< k) = x := by
      apply Nat.eq_of_testBit_eq
      intro i
      rw [Nat.testBit_or]
      by_cases hik : k = i
      · subst hik
        simp [hxb, Nat.one_shiftLeft, Nat.testBit_two_pow_self]
      · simp [Nat.one_shiftLeft, Nat.testBit_two_pow_of_ne hik]
    have := lor_one_shiftLeft hclear'
    omega
  · rw [if_neg h]
    apply Nat.eq_of_testBit_eq
    intro i
    rw [Nat.testBit_ldiff]
    by_cases hik : k = i
    · subst hik
      have hb : x.testBit k = false := by
        rw [testBit_eq_mod]
        simp only [decide_eq_false_iff_not]
        omega
      simp [hb, Nat.one_shiftLeft, Nat.testBit_two_pow_self]
    · simp [Nat.one_shiftLeft, Nat.testBit_two_pow_of_ne hik]

/-- `set_flag` agrees with the Python bitwise forms `s |= 1 << bit` and
`s &= ~(1 << bit)`. -/
theorem set_flag_eq_bitwise (s b : Nat) (v : Bool) :
    set_flag s b v = if v then s ||| (1 <<< b) else s.ldiff (1 <<< b) := by
  cases v <;> simp [set_flag, setBit_eq_lor, clearBit_eq_ldiff]

/-- A disjoint or (low part below the shift) is addition. -/
theorem shiftLeft_or_eq_add {a b k : Nat} (h : b < 2 ^ k) :
    (a <<< k) ||| b = (a <<< k) + b := by
  rw [Nat.shiftLeft_eq, Nat.mul_comm]
  exact (Nat.mul_add_lt_is_or h a).symm

/-- Or-ing a single bit into an even number is addition. -/
theorem lor_bit0_eq_add {x c : Nat} (hx : x % 2 = 0) (hc : c ≤ 1) :
    x ||| c = x + c := by
  match c, hc with
  | 0, _ => simp
  | 1, _ =>
    have h0 : (x >>> 0) % 2 ≠ 1 := by simpa using hx
    simpa using lor_one_shiftLeft h0

/-- Single-bit xor is addition mod 2. -/
theorem bit_xor_eq {n v : Nat} (hn : n ≤ 1) (hv : v ≤ 1) :
    (n + v) % 2 = n ^^^ v := by
  interval_cases n <;> interval_cases v <;> decide

/-- Bit `i` of the `w`-bit complement `(2^w - 1) - (x mod 2^w)` (Python
`~x & ((1 << w) - 1)`) is the negation of bit `i` of `x`, for `i < w`. -/
theorem inv_mask_testBit (x w i : Nat) (hi : i < w) :
    ((2 ^ w - 1) - (x % 2 ^ w)).testBit i = !(x.testBit i) := by
  have hlt : x % 2 ^ w < 2 ^ w := Nat.mod_lt _ (Nat.two_pow_pos w)
  have heq : (2 ^ w - 1) - (x % 2 ^ w) = 2 ^ w - ((x % 2 ^ w) + 1) := by omega
  rw [heq, Nat.testBit_two_pow_sub_succ hlt, Nat.testBit_mod_two_pow]
  simp [hi]

/-- The signed-overflow condition of `_set_flags_add`, as written in the
embedding (top-bit agreement/disagreement), is equivalent to the Python
bitwise formula `((~(a ^ b) & mask) & (a ^ r) & topbit) != 0`. -/
theorem addV_cond_iff_gen (w a b r : Nat) (hw : 0 < w) :
    ((a >>> (w - 1)) % 2 = (b >>> (w - 1)) % 2 ∧
      (a >>> (w - 1)) % 2 ≠ (r >>> (w - 1)) % 2) ↔
      (((2 ^ w - 1) - ((a ^^^ b) % 2 ^ w)) &&& (a ^^^ r) &&& 2 ^ (w - 1)) ≠ 0 := by
  set t := w - 1 with ht
  have key : (((2 ^ w - 1) - ((a ^^^ b) % 2 ^ w)) &&& (a ^^^ r)).testBit t =
      (!((a ^^^ b).testBit t) && ((a ^^^ r).testBit t)) := by
    rw [Nat.testBit_and, inv_mask_testBit _ w t (by omega)]
  have hfin : ((((2 ^ w - 1) - ((a ^^^ b) % 2 ^ w)) &&& (a ^^^ r) &&& 2 ^ t) ≠ 0) ↔
      ((!((a ^^^ b).testBit t) && ((a ^^^ r).testBit t)) = true) := by
    rw [Nat.and_two_pow, key]
    cases hB : (!((a ^^^ b).testBit t) && ((a ^^^ r).testBit t)) <;>
      simp [hB, Nat.pos_iff_ne_zero.mp (Nat.two_pow_pos t)]
  rw [hfin, Nat.testBit_xor, Nat.testBit_xor, testBit_eq_mod, testBit_eq_mod,
    testBit_eq_mod]
  rcases Nat.mod_two_eq_zero_or_one (a >>> t) with h1 | h1 <;>
    rcases Nat.mod_two_eq_zero_or_one (b >>> t) with h2 | h2 <;>
      rcases Nat.mod_two_eq_zero_or_one (r >>> t) with h3 | h3 <;>
        simp [h1, h2, h3]

/-- The signed-overflow condition of `_set_flags_sub` (top-bit
disagreement with both operands) is equivalent to the Python bitwise
formula `(((a ^ b) & (a ^ r)) & topbit) != 0`. -/
theorem subV_cond_iff_gen (w a b r : Nat) (hw : 0 < w) :
    ((a >>> (w - 1)) % 2 ≠ (b >>> (w - 1)) % 2 ∧
      (a >>> (w - 1)) % 2 ≠ (r >>> (w - 1)) % 2) ↔
      ((a ^^^ b) &&& (a ^^^ r) &&& 2 ^ (w - 1)) ≠ 0 := by
  set t := w - 1 with ht
  have hfin : (((a ^^^ b) &&& (a ^^^ r) &&& 2 ^ t) ≠ 0) ↔
      ((((a ^^^ b).testBit t) && ((a ^^^ r).testBit t)) = true) := by
    rw [Nat.and_two_pow, Nat.testBit_and]
    cases hB : (((a ^^^ b).testBit t) && ((a ^^^ r).testBit t)) <;>
      simp [hB, Nat.pos_iff_ne_zero.mp (Nat.two_pow_pos t)]
  rw [hfin, Nat.testBit_xor, Nat.testBit_xor, testBit_eq_mod, testBit_eq_mod,
    testBit_eq_mod]
  rcases Nat.mod_two_eq_zero_or_one (a >>> t) with h1 | h1 <;>
    rcases Nat.mod_two_eq_zero_or_one (b >>> t) with h2 | h2 <;>
      rcases Nat.mod_two_eq_zero_or_one (r >>> t) with h3 | h3 <;>
        simp [h1, h2, h3]

/-- 8-bit instance with the literal constants of `_set_flags_add`. -/
theorem addV_cond_iff (a b r : Nat) :
    ((a >>> 7) % 2 = (b >>> 7) % 2 ∧ (a >>> 7) % 2 ≠ (r >>> 7) % 2) ↔
      ((255 - ((a ^^^ b) % 256)) &&& (a ^^^ r) &&& 0x80) ≠ 0 := by
  have h := addV_cond_iff_gen 8 a b r (by norm_num)
  norm_num at h
  exact h

/-- 8-bit instance with the literal constants of `_set_flags_sub`. -/
theorem subV_cond_iff (a b r : Nat) :
    ((a >>> 7) % 2 ≠ (b >>> 7) % 2 ∧ (a >>> 7) % 2 ≠ (r >>> 7) % 2) ↔
      ((a ^^^ b) &&& (a ^^^ r) &&& 0x80) ≠ 0 := by
  have h := subV_cond_iff_gen 8 a b r (by norm_num)
  norm_num at h
  exact h

/-- 16-bit instance with the literal constants of `_set_flags_add16`. -/
theorem addV16_cond_iff (a b r : Nat) :
    ((a >>> 15) % 2 = (b >>> 15) % 2 ∧ (a >>> 15) % 2 ≠ (r >>> 15) % 2) ↔
      ((65535 - ((a ^^^ b) % 65536)) &&& (a ^^^ r) &&& 0x8000) ≠ 0 := by
  have h := addV_cond_iff_gen 16 a b r (by norm_num)
  norm_num at h
  exact h

/-- 16-bit instance with the literal constants of `_set_flags_sub16`. -/
theorem subV16_cond_iff (a b r : Nat) :
    ((a >>> 15) % 2 ≠ (b >>> 15) % 2 ∧ (a >>> 15) % 2 ≠ (r >>> 15) % 2) ↔
      ((a ^^^ b) &&& (a ^^^ r) &&& 0x8000) ≠ 0 := by
  have h := subV_cond_iff_gen 16 a b r (by norm_num)
  norm_num at h
  exact h

theorem get_flag_set_flag_self (s b : Nat) (v : Bool) :
    get_flag (set_flag s b v) b = v := by
  rw [set_flag_eq_bitwise]
  cases v <;>
    simp [get_flag_eq_testBit, Nat.testBit_ldiff, Nat.one_shiftLeft,
      Nat.testBit_two_pow_self]

theorem get_flag_set_flag_ne (s : Nat) {b b' : Nat} (h : b ≠ b') (v : Bool) :
    get_flag (set_flag s b v) b' = get_flag s b' := by
  rw [set_flag_eq_bitwise]
  cases v <;>
    simp [get_flag_eq_testBit, Nat.testBit_ldiff, Nat.one_shiftLeft,
      Nat.testBit_two_pow_of_ne h]

theorem pyGet_valid (xs : List Nat) (i : Int) (h0 : 0 ≤ i) (h : i < xs.length) :
    pyGet xs i = .ok (xs.getD i.toNat 0) := by
  simp [pyGet, h0, h]

theorem pySet_valid (xs : List Nat) (i : Int) (v : Nat) (h0 : 0 ≤ i)
    (h : i < xs.length) : pySet xs i v = .ok (xs.set i.toNat v) := by
  simp [pySet, h0, h]

theorem read_reg_valid (c : CPU) (r : Int) (h0 : 0 ≤ r) (h : r < c.regs.length) :
    c.read_reg r = .ok (c.regs.getD r.toNat 0 % 256) := by
  simp [CPU.read_reg, pyGet_valid c.regs r h0 h]

theorem write_reg_valid (c : CPU) (r : Int) (val : Int) (h0 : 0 ≤ r)
    (h : r < c.regs.length) :
    c.write_reg r val =
      if c.regs.getD r.toNat 0 = mask8 val then .ok c
      else .ok { c with regs := c.regs.set r.toNat (mask8 val),
                        reg_trace := c.reg_trace ++ [(c.step_count, r, mask8 val)] } := by
  rw [CPU.write_reg, pyGet_valid c.regs r h0 h]
  by_cases hv : c.regs.getD r.toNat 0 = mask8 val <;>
    simp [hv, pySet_valid c.regs r (mask8 val) h0 h]

/-- Helper: out-of-range `pc` makes `step` report "not running". -/
theorem step_out_of_range (c : CPU)
    (h : c.pc < 0 ∨ (c.program.length : Int) ≤ c.pc) :
    c.step = .ok ({ c with running := false }, false) := by
  unfold CPU.step
  rw [if_pos h]

theorem getD_set_self (xs : List Nat) (i v : Nat) (h : i < xs.length) :
    (xs.set i v).getD i 0 = v := by
  simp [List.getD_eq_getElem?_getD, List.getElem?_set_self h]

theorem getD_set_ne (xs : List Nat) {i j : Nat} (v : Nat) (h : i ≠ j) :
    (xs.set i v).getD j 0 = xs.getD j 0 := by
  simp [List.getD_eq_getElem?_getD, List.getElem?_set_ne h]

/-! ## Concrete states used by witnesses and counterexamples (a small
4-byte RAM keeps kernel evaluation cheap; nothing in the claims depends on
the default size). -/

def memW : Memory := Memory.init 4 4

def cpuC7 : CPU := { CPU.init memW with regs := (List.replicate 32 0).set 31 7 }

def cpuC8 : CPU := { CPU.init memW with sp := -1 }

def cpuC8pop : CPU := { CPU.init memW with sp := 3 }

def cpuC2 : CPU := { CPU.init memW with regs := (List.replicate 32 0).set 16 10 }

/-! ## Claim C10 -/

/-- Claim C10: memory operations are atomic on error — an out-of-range
`write_ram` raises `IndexError` before any mutation (so the caller's RAM
and `ram_changes` are unchanged), and an oversized `load_rom` raises
`ValueError` before any byte is stored (the size check precedes the load
loop). In the state-passing embedding this is exactly: the operation
returns `.error` (carrying no new state). -/
theorem mem_error_atomicity :
    (∀ (m : Memory) (addr value : Int) (cycle : Nat),
       addr < 0 ∨ (m.ram_size : Int) ≤ addr →
       m.write_ram addr value cycle = .error .indexError) ∧
    (∀ (m : Memory) (data : List Int),
       m.rom_size < data.length → m.load_rom data = .error .valueError) := by
  constructor
  · intro m addr value cycle h
    unfold Memory.write_ram
    rw [if_pos h]
  · intro m data h
    unfold Memory.load_rom
    rw [if_pos h]

/-- Witness for C10 at concrete inputs. -/
theorem mem_error_atomicity_witness :
    memW.write_ram 4 7 0 = .error .indexError ∧
    memW.load_rom [1, 2, 3, 4, 5] = .error .valueError :=
  ⟨mem_error_atomicity.1 memW 4 7 0 (by decide),
   mem_error_atomicity.2 memW [1, 2, 3, 4, 5] (by decide)⟩

/-! ## Claim C7 -/

/-- Claim C7 is false as stated: a negative register index in `[-32, -1]`
does *not* fail — Python list indexing wraps it from the end. With
register 31 holding 7, `read_reg(-1)` succeeds and returns 7 (and the
corresponding `write_reg` succeeds too), contradicting "negative indices
fail the same way as indices >= 32". -/
theorem reg_index_counterexample :
    cpuC7.read_reg (-1) = .ok 7 ∧
    cpuC7.write_reg (-1) 9 =
      .ok { cpuC7 with regs := (List.replicate 32 0).set 31 9,
                       reg_trace := [(0, -1, 9)] } := by
  constructor <;> decide

/-- Claim C7 (amended): register indices `r ≥ 32` or `r < -32` make
`read_reg`/`write_reg` fail immediately with `IndexError` (propagating to
the caller, no value returned or stored); but a negative index in
`[-32, -1]` aliases register `r + 32` (Python list wrap-around) and
succeeds, and `0 ≤ r < 32` is an ordinary access. -/
theorem reg_index_bounds (c : CPU) (r v : Int) (h32 : c.regs.length = 32) :
    ((32 : Int) ≤ r ∨ r < -32 →
       c.read_reg r = .error .indexError ∧ c.write_reg r v = .error .indexError) ∧
    (-32 ≤ r → r < 0 →
       c.read_reg r = .ok (c.regs.getD (r + 32).toNat 0 % 256)) ∧
    (0 ≤ r → r < 32 →
       c.read_reg r = .ok (c.regs.getD r.toNat 0 % 256)) := by
  refine ⟨?_, ?_, ?_⟩
  · intro h
    have hg : pyGet c.regs r = .error .indexError := by
      unfold pyGet
      rcases h with h | h
      · rw [if_pos (by omega), if_neg (by rw [h32]; push_cast; omega)]
      · rw [if_neg (by omega), if_neg (by rw [h32]; push_cast; omega)]
    exact ⟨by simp [CPU.read_reg, hg], by simp [CPU.write_reg, hg]⟩
  · intro h1 h2
    have hg : pyGet c.regs r = .ok (c.regs.getD (r + 32).toNat 0) := by
      unfold pyGet
      rw [if_neg (by omega), if_pos (by rw [h32]; push_cast; omega), h32]
      norm_num
    simp [CPU.read_reg, hg]
  · intro h1 h2
    exact read_reg_valid c r h1 (by rw [h32]; exact_mod_cast h2)

/-- Witness for the amended C7 at a concrete out-of-range index. -/
theorem reg_index_bounds_witness :
    cpuC7.read_reg 32 = .error .indexError ∧
    cpuC7.write_reg 32 5 = .error .indexError :=
  (reg_index_bounds cpuC7 32 5 (by decide)).1 (by decide)

/-! ## Claim C8 -/

/-- Claim C8 is false as stated: executing PUSH while `sp` has moved below
RAM (here `sp = -1`) raises the fatal `IndexError` from the RAM bounds
check — it is not an in-band sentinel state. Likewise POP with `sp` at the
top of RAM reads past the end and raises. -/
theorem stack_wraparound_counterexample :
    cpuC8.op_push 0 = .error .indexError ∧
    cpuC8pop.op_pop 0 = .error .indexError := by
  constructor <;> decide

/-- Claim C8 (amended): a `pc` outside the program range is handled
in-band (`step` reports not running, no error), and the `sp`
increment/decrement itself is never checked; but a PUSH or POP whose RAM
access lands outside `[0, ram_size)` raises the fatal out-of-range
`IndexError`, exactly like any other out-of-range memory address. -/
theorem stack_pc_wraparound (c : CPU) (r : Int) :
    (c.pc < 0 ∨ (c.program.length : Int) ≤ c.pc →
       c.step = .ok ({ c with running := false }, false)) ∧
    (0 ≤ r → r < c.regs.length →
       (c.sp < 0 ∨ (c.mem.ram_size : Int) ≤ c.sp) →
       c.op_push r = .error .indexError) ∧
    ((c.sp + 1 < 0 ∨ (c.mem.ram_size : Int) ≤ c.sp + 1) →
       c.op_pop r = .error .indexError) := by
  refine ⟨step_out_of_range c, ?_, ?_⟩
  · intro h0 hr hsp
    unfold CPU.op_push
    rw [read_reg_valid c r h0 hr, ok_bind]
    simp [CPU.write_ram, Memory.write_ram, hsp]
  · intro hsp
    unfold CPU.op_pop
    simp only [CPU.read_ram, Memory.read_ram]
    rw [if_pos hsp]
    rfl

/-- Witness for the amended C8 at concrete states. -/
theorem stack_pc_wraparound_witness :
    cpuC8.step = .ok ({ cpuC8 with running := false }, false) ∧
    cpuC8.op_push 5 = .error .indexError ∧
    cpuC8pop.op_pop 5 = .error .indexError :=
  ⟨(stack_pc_wraparound cpuC8 5).1 (by decide),
   (stack_pc_wraparound cpuC8 5).2.1 (by decide) (by decide) (by decide),
   (stack_pc_wraparound cpuC8pop 5).2.2 (by decide)⟩

/-! ## Claim C2 -/

/-- Claim C2: DIV with a zero divisor raises no error, writes 0 into `rd`,
sets the C and Z flags, leaves register `rd+1` untouched, and performs no
further flag updates — every bit of SREG other than C and Z keeps its
prior value. -/
theorem div_by_zero_sentinel (c : CPU) (rd rr : Int)
    (hrd0 : 0 ≤ rd) (hrd : rd < 32) (hrr0 : 0 ≤ rr) (hrr : rr < 32)
    (h32 : c.regs.length = 32) (hz : c.regs.getD rr.toNat 0 = 0) :
    ∃ c', c.op_div rd rr = .ok c' ∧
      c'.read_reg rd = .ok 0 ∧
      get_flag c'.sreg SREG_C = true ∧
      get_flag c'.sreg SREG_Z = true ∧
      (∀ b, b ≠ SREG_C → b ≠ SREG_Z → get_flag c'.sreg b = get_flag c.sreg b) ∧
      pyGet c'.regs (rd + 1) = pyGet c.regs (rd + 1) := by
  have hrdlen : rd < (c.regs.length : Int) := by rw [h32]; exact_mod_cast hrd
  have hrrlen : rr < (c.regs.length : Int) := by rw [h32]; exact_mod_cast hrr
  unfold CPU.op_div
  rw [read_reg_valid c rd hrd0 hrdlen, ok_bind, read_reg_valid c rr hrr0 hrrlen,
    ok_bind, hz]
  norm_num
  rw [write_reg_valid c rd 0 hrd0 hrdlen]
  have hm0 : mask8 0 = 0 := by decide
  rw [hm0]
  have hflag : ∀ s, ∀ b, b ≠ SREG_C → b ≠ SREG_Z →
      get_flag (set_flag (set_flag s SREG_C true) SREG_Z true) b = get_flag s b := by
    intro s b h1 h2
    rw [get_flag_set_flag_ne _ (Ne.symm h2), get_flag_set_flag_ne _ (Ne.symm h1)]
  by_cases h0 : c.regs.getD rd.toNat 0 = 0
  · rw [if_pos h0]
    refine ⟨_, rfl, ?_, ?_, ?_, ?_, ?_⟩
    · rw [read_reg_valid _ rd hrd0 (by simp only [setFlag_regs]; exact hrdlen)]
      simp only [setFlag_regs, h0]
    · simp only [setFlag_sreg]
      rw [get_flag_set_flag_ne _ (by decide), get_flag_set_flag_self]
    · simp only [setFlag_sreg]
      rw [get_flag_set_flag_self]
    · intro b h1 h2
      simp only [setFlag_sreg]
      exact hflag c.sreg b h1 h2
    · simp only [setFlag_regs]
  · rw [if_neg h0]
    refine ⟨_, rfl, ?_, ?_, ?_, ?_, ?_⟩
    · rw [read_reg_valid _ rd hrd0
        (by simp only [setFlag_regs, List.length_set]; exact hrdlen)]
      simp only [setFlag_regs]
      rw [getD_set_self _ _ _ (by omega)]
    · simp only [setFlag_sreg]
      rw [get_flag_set_flag_ne _ (by decide), get_flag_set_flag_self]
    · simp only [setFlag_sreg]
      rw [get_flag_set_flag_self]
    · intro b h1 h2
      simp only [setFlag_sreg]
      exact hflag c.sreg b h1 h2
    · simp only [setFlag_regs]
      unfold pyGet
      rw [List.length_set, h32]
      rw [getD_set_ne _ _ (show rd.toNat ≠ (rd + 1).toNat by omega),
        getD_set_ne _ _ (show rd.toNat ≠ (rd + 1 + ((32 : Nat) : Int)).toNat by omega)]

/-- Witness for C2: `LDI R16,10; DIV R16,R17` with `R17 = 0`. -/
theorem div_by_zero_sentinel_witness :
    ∃ c', cpuC2.op_div 16 17 = .ok c' ∧
      c'.read_reg 16 = .ok 0 ∧
      get_flag c'.sreg SREG_C = true ∧
      get_flag c'.sreg SREG_Z = true ∧
      (∀ b, b ≠ SREG_C → b ≠ SREG_Z → get_flag c'.sreg b = get_flag cpuC2.sreg b) ∧
      pyGet c'.regs (16 + 1) = pyGet cpuC2.regs (16 + 1) :=
  div_by_zero_sentinel cpuC2 16 17 (by decide) (by decide) (by decide) (by decide)
    (by decide) (by decide)

/-! ## Claim C4 -/

theorem mask8_coe (n : Nat) : mask8 (n : Int) = n % 256 := by
  simp only [mask8]
  omega

theorem mask8_lt (v : Int) : mask8 v < 256 := by
  simp only [mask8]
  omega

theorem mask8_coe_mod (n : Nat) : mask8 ((n : Int) % 256) = n % 256 := by
  simp only [mask8]
  omega

/-- Characterization of `op_add` on valid register indices. -/
theorem op_add_spec (c : CPU) (rd rr : Int) (h0 : 0 ≤ rd)
    (h1 : rd < (c.regs.length : Int)) (h2 : 0 ≤ rr)
    (h3 : rr < (c.regs.length : Int)) :
    ∃ c1, c.op_add rd rr = .ok c1 ∧
      c1.regs.length = c.regs.length ∧
      c1.regs.getD rd.toNat 0 =
        (c.regs.getD rd.toNat 0 % 256 + c.regs.getD rr.toNat 0 % 256) % 256 ∧
      (∀ j : Nat, j ≠ rd.toNat → c1.regs.getD j 0 = c.regs.getD j 0) ∧
      c1.sreg = setFlagsAdd c.sreg (c.regs.getD rd.toNat 0 % 256)
        (c.regs.getD rr.toNat 0 % 256) 0
        (c.regs.getD rd.toNat 0 % 256 + c.regs.getD rr.toNat 0 % 256) := by
  simp only [CPU.op_add]
  rw [read_reg_valid c rd h0 h1, ok_bind, read_reg_valid c rr h2 h3, ok_bind,
    write_reg_valid c rd _ h0 h1, mask8_coe_mod]
  set a := c.regs.getD rd.toNat 0 % 256 with ha
  set b := c.regs.getD rr.toNat 0 % 256 with hb
  by_cases hcase : c.regs.getD rd.toNat 0 = (a + b) % 256
  · rw [if_pos hcase, ok_bind]
    exact ⟨_, rfl, rfl, by rw [← hcase], fun j _ => rfl, rfl⟩
  · rw [if_neg hcase, ok_bind]
    refine ⟨_, rfl, by simp, ?_, ?_, rfl⟩
    · show (c.regs.set rd.toNat ((a + b) % 256)).getD rd.toNat 0 = (a + b) % 256
      exact getD_set_self _ _ _ (by omega)
    · intro j hj
      show (c.regs.set rd.toNat ((a + b) % 256)).getD j 0 = c.regs.getD j 0
      exact getD_set_ne _ _ (fun hh => hj hh.symm)

/-- Characterization of `op_sub` on valid register indices. -/
theorem op_sub_spec (c : CPU) (rd rr : Int) (h0 : 0 ≤ rd)
    (h1 : rd < (c.regs.length : Int)) (h2 : 0 ≤ rr)
    (h3 : rr < (c.regs.length : Int)) :
    ∃ c2, c.op_sub rd rr = .ok c2 ∧
      c2.regs.length = c.regs.length ∧
      c2.regs.getD rd.toNat 0 =
        mask8 ((c.regs.getD rd.toNat 0 % 256 : Nat) -
          (c.regs.getD rr.toNat 0 % 256 : Nat) : Int) ∧
      (∀ j : Nat, j ≠ rd.toNat → c2.regs.getD j 0 = c.regs.getD j 0) ∧
      c2.sreg = setFlagsSub c.sreg (c.regs.getD rd.toNat 0 % 256)
        (c.regs.getD rr.toNat 0 % 256) 0
        ((c.regs.getD rd.toNat 0 % 256 : Nat) -
          (c.regs.getD rr.toNat 0 % 256 : Nat) : Int) := by
  simp only [CPU.op_sub]
  rw [read_reg_valid c rd h0 h1, ok_bind, read_reg_valid c rr h2 h3, ok_bind,
    write_reg_valid c rd _ h0 h1, mask8_coe]
  set a := c.regs.getD rd.toNat 0 % 256 with ha
  set b := c.regs.getD rr.toNat 0 % 256 with hb
  have hm : mask8 ((a : Int) - b) % 256 = mask8 ((a : Int) - b) := by
    have := mask8_lt ((a : Int) - b)
    omega
  rw [hm]
  by_cases hcase : c.regs.getD rd.toNat 0 = mask8 ((a : Int) - b)
  · rw [if_pos hcase, ok_bind]
    exact ⟨_, rfl, rfl, by rw [← hcase], fun j _ => rfl, rfl⟩
  · rw [if_neg hcase, ok_bind]
    refine ⟨_, rfl, by simp, ?_, ?_, rfl⟩
    · show (c.regs.set rd.toNat (mask8 ((a : Int) - b))).getD rd.toNat 0 =
        mask8 ((a : Int) - b)
      exact getD_set_self _ _ _ (by omega)
    · intro j hj
      show (c.regs.set rd.toNat (mask8 ((a : Int) - b))).getD j 0 = c.regs.getD j 0
      exact getD_set_ne _ _ (fun hh => hj hh.symm)

/-- The C flag written by `_set_flags_sub` does not depend on the prior SREG. -/
theorem getC_setFlagsSub (s a b bo : Nat) (r : Int) :
    get_flag (setFlagsSub s a b bo r) SREG_C =
      ((if (a : Int) - b - bo < 0 then (1 : Nat) else 0) != 0) := by
  have hZ : SREG_Z ≠ SREG_C := by decide
  have hS : SREG_S ≠ SREG_C := by decide
  have hV : SREG_V ≠ SREG_C := by decide
  have hN : SREG_N ≠ SREG_C := by decide
  have hH : SREG_H ≠ SREG_C := by decide
  simp only [setFlagsSub]
  rw [get_flag_set_flag_ne _ hZ, get_flag_set_flag_ne _ hS,
    get_flag_set_flag_ne _ hV, get_flag_set_flag_ne _ hN,
    get_flag_set_flag_ne _ hH, get_flag_set_flag_self]

/-- The Z flag written by `_set_flags_sub` does not depend on the prior SREG. -/
theorem getZ_setFlagsSub (s a b bo : Nat) (r : Int) :
    get_flag (setFlagsSub s a b bo r) SREG_Z =
      ((if mask8 r = 0 then (1 : Nat) else 0) != 0) := by
  simp only [setFlagsSub]
  rw [get_flag_set_flag_self]

/-- The N flag written by `_set_flags_sub` does not depend on the prior SREG. -/
theorem getN_setFlagsSub (s a b bo : Nat) (r : Int) :
    get_flag (setFlagsSub s a b bo r) SREG_N = ((mask8 r >>> 7) % 2 != 0) := by
  have hZ : SREG_Z ≠ SREG_N := by decide
  have hS : SREG_S ≠ SREG_N := by decide
  have hV : SREG_V ≠ SREG_N := by decide
  simp only [setFlagsSub]
  rw [get_flag_set_flag_ne _ hZ, get_flag_set_flag_ne _ hS,
    get_flag_set_flag_ne _ hV, get_flag_set_flag_self]

def cpuC4 : CPU :=
  { CPU.init memW with regs := ((List.replicate 32 0).set 0 1).set 1 1 }

def seqC4 : CPU :=
  match cpuC4.op_add 0 1 >>= fun c1 => c1.op_sub 0 1 with
  | .ok c => c
  | .error _ => cpuC4

def dirC4 : CPU :=
  match cpuC4.op_sub 0 1 with
  | .ok c => c
  | .error _ => cpuC4

/-- Claim C4 is false as stated: at a = b = 1 (registers R0 = R1 = 1),
`ADD R0,R1` followed by `SUB R0,R1` restores R0 = 1 but leaves Z = 0,
while a direct `SUB R0,R1` on the unmodified CPU produces Z = 1 — the
flags of the round-trip SUB do not match those of a direct `SUB a,b`. -/
theorem add_sub_flag_counterexample :
    (cpuC4.op_add 0 1 >>= fun c1 => c1.op_sub 0 1) = .ok seqC4 ∧
    cpuC4.op_sub 0 1 = .ok dirC4 ∧
    seqC4.regs.getD 0 0 = 1 ∧
    get_flag seqC4.sreg SREG_Z = false ∧
    get_flag dirC4.sreg SREG_Z = true := by
  refine ⟨by decide, by decide, by decide, by decide, by decide⟩

/-- Claim C4 (amended): for all 8-bit a, b, `ADD rd,rr` followed by
`SUB rd,rr` returns register rd to a; and the C, Z and N flags after that
SUB equal the flags a direct SUB of the *post-ADD* register value
`(a+b) mod 256` by b would have produced on an unmodified CPU started from
the same initial flags (the comparison with a direct `SUB a,b` in the
original claim fails, e.g. at a = b = 1). -/
theorem add_sub_roundtrip (c : CPU) (rd rr : Int) (a b : Nat)
    (hrd0 : 0 ≤ rd) (hrd : rd < 32) (hrr0 : 0 ≤ rr) (hrr : rr < 32)
    (hne : rd ≠ rr) (h32 : c.regs.length = 32)
    (ha : c.regs.getD rd.toNat 0 % 256 = a)
    (hb : c.regs.getD rr.toNat 0 % 256 = b) :
    ∃ c1 c2 c3,
      c.op_add rd rr = .ok c1 ∧
      c1.op_sub rd rr = .ok c2 ∧
      ({ c with regs := c.regs.set rd.toNat ((a + b) % 256) } : CPU).op_sub rd rr
        = .ok c3 ∧
      c2.regs.getD rd.toNat 0 = a ∧
      get_flag c2.sreg SREG_C = get_flag c3.sreg SREG_C ∧
      get_flag c2.sreg SREG_Z = get_flag c3.sreg SREG_Z ∧
      get_flag c2.sreg SREG_N = get_flag c3.sreg SREG_N := by
  have hlrd : rd < (c.regs.length : Int) := by rw [h32]; exact_mod_cast hrd
  have hlrr : rr < (c.regs.length : Int) := by rw [h32]; exact_mod_cast hrr
  have hnetoNat : rr.toNat ≠ rd.toNat := by omega
  obtain ⟨c1, hc1, hl1, hrd1, hoth1, hs1⟩ := op_add_spec c rd rr hrd0 hlrd hrr0 hlrr
  rw [ha, hb] at hrd1 hs1
  have hrr1 : c1.regs.getD rr.toNat 0 = c.regs.getD rr.toNat 0 := hoth1 rr.toNat hnetoNat
  obtain ⟨c2, hc2, hl2, hrd2, hoth2, hs2⟩ := op_sub_spec c1 rd rr hrd0
    (by rw [hl1]; exact hlrd) hrr0 (by rw [hl1]; exact hlrr)
  rw [hrd1, hrr1, hb] at hrd2 hs2
  have hmm : (a + b) % 256 % 256 = (a + b) % 256 := by omega
  rw [hmm] at hrd2 hs2
  -- the direct SUB on the CPU holding the post-ADD value with original flags
  set cD : CPU := { c with regs := c.regs.set rd.toNat ((a + b) % 256) } with hcD
  have hlD : cD.regs.length = c.regs.length := by rw [hcD]; simp
  obtain ⟨c3, hc3, hl3, hrd3, hoth3, hs3⟩ := op_sub_spec cD rd rr hrd0
    (by rw [hlD]; exact hlrd) hrr0 (by rw [hlD]; exact hlrr)
  have hDrd : cD.regs.getD rd.toNat 0 = (a + b) % 256 := by
    rw [hcD]
    exact getD_set_self _ _ _ (by omega)
  have hDrr : cD.regs.getD rr.toNat 0 = c.regs.getD rr.toNat 0 := by
    rw [hcD]
    exact getD_set_ne _ _ (fun hh => hnetoNat hh.symm)
  rw [hDrd, hDrr, hb, hmm] at hs3
  refine ⟨c1, c2, c3, hc1, hc2, hc3, ?_, ?_, ?_, ?_⟩
  · -- the register round-trips back to a
    rw [hrd2]
    have halt : a < 256 := by omega
    simp only [mask8]
    omega
  · rw [hs2, hs3, getC_setFlagsSub, getC_setFlagsSub]
  · rw [hs2, hs3, getZ_setFlagsSub, getZ_setFlagsSub]
  · rw [hs2, hs3, getN_setFlagsSub, getN_setFlagsSub]

/-- Witness for the amended C4 at a = b = 1. -/
theorem add_sub_roundtrip_witness :
    ∃ c1 c2 c3,
      cpuC4.op_add 0 1 = .ok c1 ∧
      c1.op_sub 0 1 = .ok c2 ∧
      ({ cpuC4 with
          regs := cpuC4.regs.set (0 : Int).toNat (((1 + 1) % 256)) } : CPU).op_sub 0 1
        = .ok c3 ∧
      c2.regs.getD (0 : Int).toNat 0 = 1 ∧
      get_flag c2.sreg SREG_C = get_flag c3.sreg SREG_C ∧
      get_flag c2.sreg SREG_Z = get_flag c3.sreg SREG_Z ∧
      get_flag c2.sreg SREG_N = get_flag c3.sreg SREG_N :=
  add_sub_roundtrip cpuC4 0 1 1 1 (by decide) (by decide) (by decide) (by decide)
    (by decide) (by decide) (by decide) (by decide)

/-! ## Claim C3 -/

/-- Success characterization of `CPU.write_ram` at a valid address. -/
theorem write_ram_ok (c : CPU) (addr val : Int) (h0 : 0 ≤ addr)
    (h1 : addr < (c.mem.ram_size : Int)) :
    ∃ c2, c.write_ram addr val = .ok c2 ∧ c2.pc = c.pc ∧ c2.sp = c.sp ∧
      c2.regs = c.regs ∧ c2.sreg = c.sreg ∧
      c2.mem.ram_size = c.mem.ram_size ∧
      c2.step_count = c.step_count ∧ c2.step_trace = c.step_trace ∧
      c2.pc_to_line = c.pc_to_line ∧ c2.program = c.program ∧
      c2.labels = c.labels ∧
      c2.mem.ram = c.mem.ram.set addr.toNat (mask8 val) := by
  unfold CPU.write_ram Memory.write_ram
  rw [if_neg (by omega)]
  by_cases h : c.mem.ram.getD addr.toNat 0 ≠ mask8 val
  · rw [if_pos h]
    exact ⟨_, rfl, rfl, rfl, rfl, rfl, rfl, rfl, rfl, rfl, rfl, rfl, rfl⟩
  · rw [if_neg h]
    exact ⟨_, rfl, rfl, rfl, rfl, rfl, rfl, rfl, rfl, rfl, rfl, rfl, rfl⟩

/-- What `CPU.step` produces once the handler has succeeded: the `executed`
boolean is true, the trace gains exactly the record built from the
pre-state snapshots and the post-handler SREG/sp, and `pc` is the
post-handler `pc` plus one. -/
theorem step_ok_of_runInstr (c c1 : CPU)
    (h0 : 0 ≤ c.pc) (hlt : c.pc < c.program.length)
    (hrun : c.runInstr (c.program.getD c.pc.toNat ("nop", [])) = .ok c1) :
    c.step = .ok ({ c1 with
      step_count := c1.step_count + 1
      step_trace := c1.step_trace ++ [{
        step := c1.step_count + 1
        pc := c1.pc
        instr := instrText (c.program.getD c.pc.toNat ("nop", []))
        regs := c.regs
        mem := c.memSnapshot
        sreg := c1.sreg
        sp := c1.sp
        source_line := (c1.pc_to_line.lookup c1.pc).getD (-1) }]
      pc := c1.pc + 1 }, true) := by
  simp only [CPU.step, CPU.memSnapshot, instrText]
  rw [if_neg (by simp only [not_or, not_lt, not_le]; constructor <;> omega)]
  rw [hrun]

def cpuC3 : CPU := { CPU.init memW with program := [("rjmp", [Operand.num 1])] }

/-- The program counter after one `step`, or -1000 on a fatal error. -/
def pcAfterStep (c : CPU) : Int :=
  match c.step with
  | .ok (c', _) => c'.pc
  | .error _ => -1000

set_option maxHeartbeats 1600000 in
/-- Claim C3 is false as stated for RJMP: executing `RJMP 1` at pc = 0
leaves the post-step pc at 2 = 0 + 1 + 1, not at 0 + 1 — `op_rjmp` adds
the offset to `pc` without the `- 1` adjustment, so the uniform post-step
`+1` overshoots the claimed target `p + k` by one. -/
theorem rjmp_offset_counterexample :
    pcAfterStep cpuC3 = 2 ∧ ¬ pcAfterStep cpuC3 = 0 + 1 := by
  constructor <;> decide

set_option maxHeartbeats 1600000 in
/-- Claim C3 (amended): with an integer operand `k`, RCALL at pc = p lands
the post-step pc exactly at `p + k` (the handler stores `target - 1`, and
pushes the return address, decrementing `sp` by 2); but RJMP adds `k`
directly to `pc` without the `- 1` adjustment, so its post-step pc is
`p + k + 1`. -/
theorem rjmp_rcall_relative (c : CPU) (k : Int)
    (h0 : 0 ≤ c.pc) (hlt : c.pc < c.program.length) :
    (c.program.getD c.pc.toNat ("nop", []) = ("rjmp", [Operand.num k]) →
      ∃ c', c.step = .ok (c', true) ∧ c'.pc = c.pc + k + 1) ∧
    (c.program.getD c.pc.toNat ("nop", []) = ("rcall", [Operand.num k]) →
      1 ≤ c.sp → c.sp < (c.mem.ram_size : Int) →
      ∃ c', c.step = .ok (c', true) ∧ c'.pc = c.pc + k ∧ c'.sp = c.sp - 2) := by
  constructor
  · intro heq
    have hrun : c.runInstr (c.program.getD c.pc.toNat ("nop", [])) =
        .ok { c with pc := c.pc + k } := by
      rw [heq]
      simp only [CPU.runInstr]
      rw [if_pos (by decide)]
      rfl
    refine ⟨_, step_ok_of_runInstr c _ h0 hlt hrun, rfl⟩
  · intro heq hsp1 hsp2
    obtain ⟨c2, hw1, hpc2, hsp2', hregs2, hsreg2, hrs2, hsc2, hst2, hpl2, hpr2,
      hlb2, hram2⟩ := write_ram_ok c c.sp (mask8 (Int.fdiv (c.pc + 1) 256))
      (by omega) (by omega)
    have hrun : ∃ cR, c.runInstr (c.program.getD c.pc.toNat ("nop", [])) =
        .ok cR ∧ cR.pc = (c.pc + k) - 1 ∧ cR.sp = c.sp - 2 := by
      rw [heq]
      simp only [CPU.runInstr]
      rw [if_pos (by decide)]
      show ∃ cR, c.op_rcall (Val.int k) = .ok cR ∧
        cR.pc = (c.pc + k) - 1 ∧ cR.sp = c.sp - 2
      simp only [CPU.op_rcall]
      rw [hw1, ok_bind]
      obtain ⟨c3, hw2, hpc3, hsp3, hregs3, hsreg3, hrs3, hsc3, hst3, hpl3, hpr3,
        hlb3, hram3⟩ := write_ram_ok { c2 with sp := c2.sp - 1 }
        ({ c2 with sp := c2.sp - 1 } : CPU).sp (mask8 (c.pc + 1))
        (by simp only; omega) (by simp only; omega)
      rw [hw2, ok_bind]
      refine ⟨_, rfl, ?_, ?_⟩
      · simp only [hpc3, hpc2]
      · simp only [hsp3]
        simp only at hsp3 ⊢
        omega
    obtain ⟨cR, hrunR, hpcR, hspR⟩ := hrun
    refine ⟨_, step_ok_of_runInstr c _ h0 hlt hrunR, ?_, ?_⟩
    · simp only [hpcR]
      omega
    · simp only [hspR]

def cpuC3b : CPU := { CPU.init memW with program := [("rcall", [Operand.num 1])] }

/-- Witness for the amended C3: `RJMP 1` at pc 0 lands at 2, `RCALL 1` at
pc 0 lands at 1 with sp decremented by 2. -/
theorem rjmp_rcall_relative_witness :
    (∃ c', cpuC3.step = .ok (c', true) ∧ c'.pc = 0 + 1 + 1) ∧
    (∃ c', cpuC3b.step = .ok (c', true) ∧ c'.pc = 0 + 1 ∧ c'.sp = 3 - 2) :=
  ⟨(rjmp_rcall_relative cpuC3 1 (by decide) (by decide)).1 (by decide),
   (rjmp_rcall_relative cpuC3b 1 (by decide) (by decide)).2 (by decide)
     (by decide) (by decide)⟩

/-! ## Frame preservation: no instruction handler touches the step
counter, the step trace, the program, or the pc-to-line map.

The pure flag-arithmetic functions are made irreducible inside this
section only, so that unification does not attempt to evaluate them on
symbolic states. -/

section FrameSec

attribute [local irreducible] set_flag setBit clearBit get_flag mask8 mask16
attribute [local irreducible] setFlagsAdd setFlagsSub setFlagsLogical
attribute [local irreducible] setFlagsInc setFlagsDec setFlagsAdd16 setFlagsSub16

def Frame (c c' : CPU) : Prop :=
  c'.step_count = c.step_count ∧ c'.step_trace = c.step_trace ∧
  c'.program = c.program ∧ c'.pc_to_line = c.pc_to_line

/-- `m` can only succeed with a state frame-equivalent to `c`. -/
def FrameOk (c : CPU) (m : Except Err CPU) : Prop :=
  ∀ c', m = .ok c' → Frame c c'

theorem frame_rfl (c : CPU) : Frame c c := ⟨rfl, rfl, rfl, rfl⟩

theorem frame_trans {a b c'' : CPU} (h1 : Frame a b) (h2 : Frame b c'') :
    Frame a c'' := by
  obtain ⟨x1, x2, x3, x4⟩ := h1
  obtain ⟨y1, y2, y3, y4⟩ := h2
  exact ⟨y1.trans x1, y2.trans x2, y3.trans x3, y4.trans x4⟩

theorem frameOk_error (c : CPU) (e : Err) : FrameOk c (.error e) :=
  fun _ h => Except.noConfusion h

theorem frameOk_ok {c c1 : CPU} (h : Frame c c1) : FrameOk c (.ok c1) :=
  fun _ hh => (Except.ok.inj hh) ▸ h

theorem frameOk_bind {β : Type} {c : CPU} (x : Except Err β)
    {k : β → Except Err CPU} (h : ∀ v, FrameOk c (k v)) :
    FrameOk c (x >>= k) := by
  intro c' hc
  cases x with
  | error e => exact Except.noConfusion hc
  | ok v => exact h v c' hc

theorem frameOk_bind_cpu {c : CPU} {m : Except Err CPU}
    {k : CPU → Except Err CPU} (hm : FrameOk c m)
    (hk : ∀ cm, FrameOk cm (k cm)) : FrameOk c (m >>= k) := by
  intro c' hc
  cases hx : m with
  | error e => rw [hx] at hc; exact Except.noConfusion hc
  | ok cm =>
    rw [hx] at hc
    exact frame_trans (hm cm hx) (hk cm c' hc)

theorem frameOk_ite {c : CPU} (p : Prop) [Decidable p]
    {m1 m2 : Except Err CPU} (h1 : FrameOk c m1) (h2 : FrameOk c m2) :
    FrameOk c (if p then m1 else m2) := by
  by_cases hp : p
  · rwa [if_pos hp]
  · rwa [if_neg hp]

theorem frameOk_write_reg' (c c0 : CPU) (r v : Int) (h : Frame c c0) :
    FrameOk c (c0.write_reg r v) := by
  intro c' hc
  unfold CPU.write_reg at hc
  cases hg : pyGet c0.regs r with
  | error e => rw [hg] at hc; exact Except.noConfusion hc
  | ok old =>
    rw [hg, ok_bind] at hc
    by_cases he : old ≠ mask8 v
    · rw [if_pos he] at hc
      cases hs : pySet c0.regs r (mask8 v) with
      | error e => rw [hs] at hc; exact Except.noConfusion hc
      | ok rs =>
        rw [hs, ok_bind] at hc
        cases Except.ok.inj hc
        exact frame_trans h (frame_rfl _)
    · rw [if_neg he] at hc
      cases Except.ok.inj hc
      exact h

theorem frameOk_write_ram' (c c0 : CPU) (a v : Int) (h : Frame c c0) :
    FrameOk c (c0.write_ram a v) := by
  intro c' hc
  unfold CPU.write_ram at hc
  cases hm : c0.mem.write_ram a v c0.step_count with
  | error e => rw [hm] at hc; exact Except.noConfusion hc
  | ok m' =>
    rw [hm, ok_bind] at hc
    cases Except.ok.inj hc
    exact h

theorem frameOk_op_jmp' (c c0 : CPU) (l : Val) (h : Frame c c0) :
    FrameOk c (c0.op_jmp l) := by
  cases l with
  | int t => exact @frameOk_ok _ { c0 with pc := t - 1 } h
  | str s =>
    have hreduce : c0.op_jmp (Val.str s) =
        (match c0.labels.lookup s with
         | none => (.error .keyError : Except Err CPU)
         | some t => .ok { c0 with pc := t - 1 }) := rfl
    rw [hreduce]
    cases c0.labels.lookup s with
    | none => exact frameOk_error _ _
    | some t => exact @frameOk_ok _ { c0 with pc := t - 1 } h

theorem frameOk_op_nop (c : CPU) : FrameOk c (c.op_nop) := by
  unfold CPU.op_nop
  repeat
    first
    | apply frameOk_bind_cpu (frameOk_write_reg' _ _ _ _ ⟨rfl, rfl, rfl, rfl⟩)
    | apply frameOk_bind_cpu (frameOk_write_ram' _ _ _ _ ⟨rfl, rfl, rfl, rfl⟩)
    | rw [ok_bind]
    | apply frameOk_ite
    | apply frameOk_bind
    | exact frameOk_write_reg' _ _ _ _ ⟨rfl, rfl, rfl, rfl⟩
    | exact frameOk_write_ram' _ _ _ _ ⟨rfl, rfl, rfl, rfl⟩
    | exact frameOk_op_jmp' _ _ _ ⟨rfl, rfl, rfl, rfl⟩
    | exact frameOk_ok ⟨rfl, rfl, rfl, rfl⟩
    | exact frameOk_error _ _
    | intro _

theorem frameOk_op_sei (c : CPU) : FrameOk c (c.op_sei) := by
  unfold CPU.op_sei
  repeat
    first
    | apply frameOk_bind_cpu (frameOk_write_reg' _ _ _ _ ⟨rfl, rfl, rfl, rfl⟩)
    | apply frameOk_bind_cpu (frameOk_write_ram' _ _ _ _ ⟨rfl, rfl, rfl, rfl⟩)
    | rw [ok_bind]
    | apply frameOk_ite
    | apply frameOk_bind
    | exact frameOk_write_reg' _ _ _ _ ⟨rfl, rfl, rfl, rfl⟩
    | exact frameOk_write_ram' _ _ _ _ ⟨rfl, rfl, rfl, rfl⟩
    | exact frameOk_op_jmp' _ _ _ ⟨rfl, rfl, rfl, rfl⟩
    | exact frameOk_ok ⟨rfl, rfl, rfl, rfl⟩
    | exact frameOk_error _ _
    | intro _

theorem frameOk_op_cli (c : CPU) : FrameOk c (c.op_cli) := by
  unfold CPU.op_cli
  repeat
    first
    | apply frameOk_bind_cpu (frameOk_write_reg' _ _ _ _ ⟨rfl, rfl, rfl, rfl⟩)
    | apply frameOk_bind_cpu (frameOk_write_ram' _ _ _ _ ⟨rfl, rfl, rfl, rfl⟩)
    | rw [ok_bind]
    | apply frameOk_ite
    | apply frameOk_bind
    | exact frameOk_write_reg' _ _ _ _ ⟨rfl, rfl, rfl, rfl⟩
    | exact frameOk_write_ram' _ _ _ _ ⟨rfl, rfl, rfl, rfl⟩
    | exact frameOk_op_jmp' _ _ _ ⟨rfl, rfl, rfl, rfl⟩
    | exact frameOk_ok ⟨rfl, rfl, rfl, rfl⟩
    | exact frameOk_error _ _
    | intro _

theorem frameOk_op_ret (c : CPU) : FrameOk c (c.op_ret) := by
  unfold CPU.op_ret
  repeat
    first
    | apply frameOk_bind_cpu (frameOk_write_reg' _ _ _ _ ⟨rfl, rfl, rfl, rfl⟩)
    | apply frameOk_bind_cpu (frameOk_write_ram' _ _ _ _ ⟨rfl, rfl, rfl, rfl⟩)
    | rw [ok_bind]
    | apply frameOk_ite
    | apply frameOk_bind
    | exact frameOk_write_reg' _ _ _ _ ⟨rfl, rfl, rfl, rfl⟩
    | exact frameOk_write_ram' _ _ _ _ ⟨rfl, rfl, rfl, rfl⟩
    | exact frameOk_op_jmp' _ _ _ ⟨rfl, rfl, rfl, rfl⟩
    | exact frameOk_ok ⟨rfl, rfl, rfl, rfl⟩
    | exact frameOk_error _ _
    | intro _

theorem frameOk_op_reti (c : CPU) : FrameOk c (c.op_reti) := by
  unfold CPU.op_reti
  repeat
    first
    | apply frameOk_bind_cpu (frameOk_write_reg' _ _ _ _ ⟨rfl, rfl, rfl, rfl⟩)
    | apply frameOk_bind_cpu (frameOk_write_ram' _ _ _ _ ⟨rfl, rfl, rfl, rfl⟩)
    | rw [ok_bind]
    | apply frameOk_ite
    | apply frameOk_bind
    | exact frameOk_write_reg' _ _ _ _ ⟨rfl, rfl, rfl, rfl⟩
    | exact frameOk_write_ram' _ _ _ _ ⟨rfl, rfl, rfl, rfl⟩
    | exact frameOk_op_jmp' _ _ _ ⟨rfl, rfl, rfl, rfl⟩
    | exact frameOk_ok ⟨rfl, rfl, rfl, rfl⟩
    | exact frameOk_error _ _
    | intro _

theorem frameOk_op_inc (c : CPU) (x : Int) : FrameOk c (c.op_inc x) := by
  unfold CPU.op_inc
  repeat
    first
    | apply frameOk_bind_cpu (frameOk_write_reg' _ _ _ _ ⟨rfl, rfl, rfl, rfl⟩)
    | apply frameOk_bind_cpu (frameOk_write_ram' _ _ _ _ ⟨rfl, rfl, rfl, rfl⟩)
    | rw [ok_bind]
    | apply frameOk_ite
    | apply frameOk_bind
    | exact frameOk_write_reg' _ _ _ _ ⟨rfl, rfl, rfl, rfl⟩
    | exact frameOk_write_ram' _ _ _ _ ⟨rfl, rfl, rfl, rfl⟩
    | exact frameOk_op_jmp' _ _ _ ⟨rfl, rfl, rfl, rfl⟩
    | exact frameOk_ok ⟨rfl, rfl, rfl, rfl⟩
    | exact frameOk_error _ _
    | intro _

theorem frameOk_op_dec (c : CPU) (x : Int) : FrameOk c (c.op_dec x) := by
  unfold CPU.op_dec
  repeat
    first
    | apply frameOk_bind_cpu (frameOk_write_reg' _ _ _ _ ⟨rfl, rfl, rfl, rfl⟩)
    | apply frameOk_bind_cpu (frameOk_write_ram' _ _ _ _ ⟨rfl, rfl, rfl, rfl⟩)
    | rw [ok_bind]
    | apply frameOk_ite
    | apply frameOk_bind
    | exact frameOk_write_reg' _ _ _ _ ⟨rfl, rfl, rfl, rfl⟩
    | exact frameOk_write_ram' _ _ _ _ ⟨rfl, rfl, rfl, rfl⟩
    | exact frameOk_op_jmp' _ _ _ ⟨rfl, rfl, rfl, rfl⟩
    | exact frameOk_ok ⟨rfl, rfl, rfl, rfl⟩
    | exact frameOk_error _ _
    | intro _

theorem frameOk_op_clr (c : CPU) (x : Int) : FrameOk c (c.op_clr x) := by
  unfold CPU.op_clr
  repeat
    first
    | apply frameOk_bind_cpu (frameOk_write_reg' _ _ _ _ ⟨rfl, rfl, rfl, rfl⟩)
    | apply frameOk_bind_cpu (frameOk_write_ram' _ _ _ _ ⟨rfl, rfl, rfl, rfl⟩)
    | rw [ok_bind]
    | apply frameOk_ite
    | apply frameOk_bind
    | exact frameOk_write_reg' _ _ _ _ ⟨rfl, rfl, rfl, rfl⟩
    | exact frameOk_write_ram' _ _ _ _ ⟨rfl, rfl, rfl, rfl⟩
    | exact frameOk_op_jmp' _ _ _ ⟨rfl, rfl, rfl, rfl⟩
    | exact frameOk_ok ⟨rfl, rfl, rfl, rfl⟩
    | exact frameOk_error _ _
    | intro _

theorem frameOk_op_ser (c : CPU) (x : Int) : FrameOk c (c.op_ser x) := by
  unfold CPU.op_ser
  repeat
    first
    | apply frameOk_bind_cpu (frameOk_write_reg' _ _ _ _ ⟨rfl, rfl, rfl, rfl⟩)
    | apply frameOk_bind_cpu (frameOk_write_ram' _ _ _ _ ⟨rfl, rfl, rfl, rfl⟩)
    | rw [ok_bind]
    | apply frameOk_ite
    | apply frameOk_bind
    | exact frameOk_write_reg' _ _ _ _ ⟨rfl, rfl, rfl, rfl⟩
    | exact frameOk_write_ram' _ _ _ _ ⟨rfl, rfl, rfl, rfl⟩
    | exact frameOk_op_jmp' _ _ _ ⟨rfl, rfl, rfl, rfl⟩
    | exact frameOk_ok ⟨rfl, rfl, rfl, rfl⟩
    | exact frameOk_error _ _
    | intro _

theorem frameOk_op_lsl (c : CPU) (x : Int) : FrameOk c (c.op_lsl x) := by
  unfold CPU.op_lsl
  repeat
    first
    | apply frameOk_bind_cpu (frameOk_write_reg' _ _ _ _ ⟨rfl, rfl, rfl, rfl⟩)
    | apply frameOk_bind_cpu (frameOk_write_ram' _ _ _ _ ⟨rfl, rfl, rfl, rfl⟩)
    | rw [ok_bind]
    | apply frameOk_ite
    | apply frameOk_bind
    | exact frameOk_write_reg' _ _ _ _ ⟨rfl, rfl, rfl, rfl⟩
    | exact frameOk_write_ram' _ _ _ _ ⟨rfl, rfl, rfl, rfl⟩
    | exact frameOk_op_jmp' _ _ _ ⟨rfl, rfl, rfl, rfl⟩
    | exact frameOk_ok ⟨rfl, rfl, rfl, rfl⟩
    | exact frameOk_error _ _
    | intro _

theorem frameOk_op_lsr (c : CPU) (x : Int) : FrameOk c (c.op_lsr x) := by
  unfold CPU.op_lsr
  repeat
    first
    | apply frameOk_bind_cpu (frameOk_write_reg' _ _ _ _ ⟨rfl, rfl, rfl, rfl⟩)
    | apply frameOk_bind_cpu (frameOk_write_ram' _ _ _ _ ⟨rfl, rfl, rfl, rfl⟩)
    | rw [ok_bind]
    | apply frameOk_ite
    | apply frameOk_bind
    | exact frameOk_write_reg' _ _ _ _ ⟨rfl, rfl, rfl, rfl⟩
    | exact frameOk_write_ram' _ _ _ _ ⟨rfl, rfl, rfl, rfl⟩
    | exact frameOk_op_jmp' _ _ _ ⟨rfl, rfl, rfl, rfl⟩
    | exact frameOk_ok ⟨rfl, rfl, rfl, rfl⟩
    | exact frameOk_error _ _
    | intro _

theorem frameOk_op_rol (c : CPU) (x : Int) : FrameOk c (c.op_rol x) := by
  unfold CPU.op_rol
  repeat
    first
    | apply frameOk_bind_cpu (frameOk_write_reg' _ _ _ _ ⟨rfl, rfl, rfl, rfl⟩)
    | apply frameOk_bind_cpu (frameOk_write_ram' _ _ _ _ ⟨rfl, rfl, rfl, rfl⟩)
    | rw [ok_bind]
    | apply frameOk_ite
    | apply frameOk_bind
    | exact frameOk_write_reg' _ _ _ _ ⟨rfl, rfl, rfl, rfl⟩
    | exact frameOk_write_ram' _ _ _ _ ⟨rfl, rfl, rfl, rfl⟩
    | exact frameOk_op_jmp' _ _ _ ⟨rfl, rfl, rfl, rfl⟩
    | exact frameOk_ok ⟨rfl, rfl, rfl, rfl⟩
    | exact frameOk_error _ _
    | intro _

theorem frameOk_op_ror (c : CPU) (x : Int) : FrameOk c (c.op_ror x) := by
  unfold CPU.op_ror
  repeat
    first
    | apply frameOk_bind_cpu (frameOk_write_reg' _ _ _ _ ⟨rfl, rfl, rfl, rfl⟩)
    | apply frameOk_bind_cpu (frameOk_write_ram' _ _ _ _ ⟨rfl, rfl, rfl, rfl⟩)
    | rw [ok_bind]
    | apply frameOk_ite
    | apply frameOk_bind
    | exact frameOk_write_reg' _ _ _ _ ⟨rfl, rfl, rfl, rfl⟩
    | exact frameOk_write_ram' _ _ _ _ ⟨rfl, rfl, rfl, rfl⟩
    | exact frameOk_op_jmp' _ _ _ ⟨rfl, rfl, rfl, rfl⟩
    | exact frameOk_ok ⟨rfl, rfl, rfl, rfl⟩
    | exact frameOk_error _ _
    | intro _

theorem frameOk_op_com (c : CPU) (x : Int) : FrameOk c (c.op_com x) := by
  unfold CPU.op_com
  repeat
    first
    | apply frameOk_bind_cpu (frameOk_write_reg' _ _ _ _ ⟨rfl, rfl, rfl, rfl⟩)
    | apply frameOk_bind_cpu (frameOk_write_ram' _ _ _ _ ⟨rfl, rfl, rfl, rfl⟩)
    | rw [ok_bind]
    | apply frameOk_ite
    | apply frameOk_bind
    | exact frameOk_write_reg' _ _ _ _ ⟨rfl, rfl, rfl, rfl⟩
    | exact frameOk_write_ram' _ _ _ _ ⟨rfl, rfl, rfl, rfl⟩
    | exact frameOk_op_jmp' _ _ _ ⟨rfl, rfl, rfl, rfl⟩
    | exact frameOk_ok ⟨rfl, rfl, rfl, rfl⟩
    | exact frameOk_error _ _
    | intro _

theorem frameOk_op_neg (c : CPU) (x : Int) : FrameOk c (c.op_neg x) := by
  unfold CPU.op_neg
  repeat
    first
    | apply frameOk_bind_cpu (frameOk_write_reg' _ _ _ _ ⟨rfl, rfl, rfl, rfl⟩)
    | apply frameOk_bind_cpu (frameOk_write_ram' _ _ _ _ ⟨rfl, rfl, rfl, rfl⟩)
    | rw [ok_bind]
    | apply frameOk_ite
    | apply frameOk_bind
    | exact frameOk_write_reg' _ _ _ _ ⟨rfl, rfl, rfl, rfl⟩
    | exact frameOk_write_ram' _ _ _ _ ⟨rfl, rfl, rfl, rfl⟩
    | exact frameOk_op_jmp' _ _ _ ⟨rfl, rfl, rfl, rfl⟩
    | exact frameOk_ok ⟨rfl, rfl, rfl, rfl⟩
    | exact frameOk_error _ _
    | intro _

theorem frameOk_op_swap (c : CPU) (x : Int) : FrameOk c (c.op_swap x) := by
  unfold CPU.op_swap
  repeat
    first
    | apply frameOk_bind_cpu (frameOk_write_reg' _ _ _ _ ⟨rfl, rfl, rfl, rfl⟩)
    | apply frameOk_bind_cpu (frameOk_write_ram' _ _ _ _ ⟨rfl, rfl, rfl, rfl⟩)
    | rw [ok_bind]
    | apply frameOk_ite
    | apply frameOk_bind
    | exact frameOk_write_reg' _ _ _ _ ⟨rfl, rfl, rfl, rfl⟩
    | exact frameOk_write_ram' _ _ _ _ ⟨rfl, rfl, rfl, rfl⟩
    | exact frameOk_op_jmp' _ _ _ ⟨rfl, rfl, rfl, rfl⟩
    | exact frameOk_ok ⟨rfl, rfl, rfl, rfl⟩
    | exact frameOk_error _ _
    | intro _

theorem frameOk_op_tst (c : CPU) (x : Int) : FrameOk c (c.op_tst x) := by
  unfold CPU.op_tst
  repeat
    first
    | apply frameOk_bind_cpu (frameOk_write_reg' _ _ _ _ ⟨rfl, rfl, rfl, rfl⟩)
    | apply frameOk_bind_cpu (frameOk_write_ram' _ _ _ _ ⟨rfl, rfl, rfl, rfl⟩)
    | rw [ok_bind]
    | apply frameOk_ite
    | apply frameOk_bind
    | exact frameOk_write_reg' _ _ _ _ ⟨rfl, rfl, rfl, rfl⟩
    | exact frameOk_write_ram' _ _ _ _ ⟨rfl, rfl, rfl, rfl⟩
    | exact frameOk_op_jmp' _ _ _ ⟨rfl, rfl, rfl, rfl⟩
    | exact frameOk_ok ⟨rfl, rfl, rfl, rfl⟩
    | exact frameOk_error _ _
    | intro _

theorem frameOk_op_push (c : CPU) (x : Int) : FrameOk c (c.op_push x) := by
  unfold CPU.op_push
  repeat
    first
    | apply frameOk_bind_cpu (frameOk_write_reg' _ _ _ _ ⟨rfl, rfl, rfl, rfl⟩)
    | apply frameOk_bind_cpu (frameOk_write_ram' _ _ _ _ ⟨rfl, rfl, rfl, rfl⟩)
    | rw [ok_bind]
    | apply frameOk_ite
    | apply frameOk_bind
    | exact frameOk_write_reg' _ _ _ _ ⟨rfl, rfl, rfl, rfl⟩
    | exact frameOk_write_ram' _ _ _ _ ⟨rfl, rfl, rfl, rfl⟩
    | exact frameOk_op_jmp' _ _ _ ⟨rfl, rfl, rfl, rfl⟩
    | exact frameOk_ok ⟨rfl, rfl, rfl, rfl⟩
    | exact frameOk_error _ _
    | intro _

theorem frameOk_op_pop (c : CPU) (x : Int) : FrameOk c (c.op_pop x) := by
  unfold CPU.op_pop
  repeat
    first
    | apply frameOk_bind_cpu (frameOk_write_reg' _ _ _ _ ⟨rfl, rfl, rfl, rfl⟩)
    | apply frameOk_bind_cpu (frameOk_write_ram' _ _ _ _ ⟨rfl, rfl, rfl, rfl⟩)
    | rw [ok_bind]
    | apply frameOk_ite
    | apply frameOk_bind
    | exact frameOk_write_reg' _ _ _ _ ⟨rfl, rfl, rfl, rfl⟩
    | exact frameOk_write_ram' _ _ _ _ ⟨rfl, rfl, rfl, rfl⟩
    | exact frameOk_op_jmp' _ _ _ ⟨rfl, rfl, rfl, rfl⟩
    | exact frameOk_ok ⟨rfl, rfl, rfl, rfl⟩
    | exact frameOk_error _ _
    | intro _

theorem frameOk_op_ldi (c : CPU) (x y : Int) : FrameOk c (c.op_ldi x y) := by
  unfold CPU.op_ldi
  repeat
    first
    | apply frameOk_bind_cpu (frameOk_write_reg' _ _ _ _ ⟨rfl, rfl, rfl, rfl⟩)
    | apply frameOk_bind_cpu (frameOk_write_ram' _ _ _ _ ⟨rfl, rfl, rfl, rfl⟩)
    | rw [ok_bind]
    | apply frameOk_ite
    | apply frameOk_bind
    | exact frameOk_write_reg' _ _ _ _ ⟨rfl, rfl, rfl, rfl⟩
    | exact frameOk_write_ram' _ _ _ _ ⟨rfl, rfl, rfl, rfl⟩
    | exact frameOk_op_jmp' _ _ _ ⟨rfl, rfl, rfl, rfl⟩
    | exact frameOk_ok ⟨rfl, rfl, rfl, rfl⟩
    | exact frameOk_error _ _
    | intro _

theorem frameOk_op_mov (c : CPU) (x y : Int) : FrameOk c (c.op_mov x y) := by
  unfold CPU.op_mov
  repeat
    first
    | apply frameOk_bind_cpu (frameOk_write_reg' _ _ _ _ ⟨rfl, rfl, rfl, rfl⟩)
    | apply frameOk_bind_cpu (frameOk_write_ram' _ _ _ _ ⟨rfl, rfl, rfl, rfl⟩)
    | rw [ok_bind]
    | apply frameOk_ite
    | apply frameOk_bind
    | exact frameOk_write_reg' _ _ _ _ ⟨rfl, rfl, rfl, rfl⟩
    | exact frameOk_write_ram' _ _ _ _ ⟨rfl, rfl, rfl, rfl⟩
    | exact frameOk_op_jmp' _ _ _ ⟨rfl, rfl, rfl, rfl⟩
    | exact frameOk_ok ⟨rfl, rfl, rfl, rfl⟩
    | exact frameOk_error _ _
    | intro _

theorem frameOk_op_add (c : CPU) (x y : Int) : FrameOk c (c.op_add x y) := by
  unfold CPU.op_add
  repeat
    first
    | apply frameOk_bind_cpu (frameOk_write_reg' _ _ _ _ ⟨rfl, rfl, rfl, rfl⟩)
    | apply frameOk_bind_cpu (frameOk_write_ram' _ _ _ _ ⟨rfl, rfl, rfl, rfl⟩)
    | rw [ok_bind]
    | apply frameOk_ite
    | apply frameOk_bind
    | exact frameOk_write_reg' _ _ _ _ ⟨rfl, rfl, rfl, rfl⟩
    | exact frameOk_write_ram' _ _ _ _ ⟨rfl, rfl, rfl, rfl⟩
    | exact frameOk_op_jmp' _ _ _ ⟨rfl, rfl, rfl, rfl⟩
    | exact frameOk_ok ⟨rfl, rfl, rfl, rfl⟩
    | exact frameOk_error _ _
    | intro _

theorem frameOk_op_and (c : CPU) (x y : Int) : FrameOk c (c.op_and x y) := by
  unfold CPU.op_and
  repeat
    first
    | apply frameOk_bind_cpu (frameOk_write_reg' _ _ _ _ ⟨rfl, rfl, rfl, rfl⟩)
    | apply frameOk_bind_cpu (frameOk_write_ram' _ _ _ _ ⟨rfl, rfl, rfl, rfl⟩)
    | rw [ok_bind]
    | apply frameOk_ite
    | apply frameOk_bind
    | exact frameOk_write_reg' _ _ _ _ ⟨rfl, rfl, rfl, rfl⟩
    | exact frameOk_write_ram' _ _ _ _ ⟨rfl, rfl, rfl, rfl⟩
    | exact frameOk_op_jmp' _ _ _ ⟨rfl, rfl, rfl, rfl⟩
    | exact frameOk_ok ⟨rfl, rfl, rfl, rfl⟩
    | exact frameOk_error _ _
    | intro _

theorem frameOk_op_or (c : CPU) (x y : Int) : FrameOk c (c.op_or x y) := by
  unfold CPU.op_or
  repeat
    first
    | apply frameOk_bind_cpu (frameOk_write_reg' _ _ _ _ ⟨rfl, rfl, rfl, rfl⟩)
    | apply frameOk_bind_cpu (frameOk_write_ram' _ _ _ _ ⟨rfl, rfl, rfl, rfl⟩)
    | rw [ok_bind]
    | apply frameOk_ite
    | apply frameOk_bind
    | exact frameOk_write_reg' _ _ _ _ ⟨rfl, rfl, rfl, rfl⟩
    | exact frameOk_write_ram' _ _ _ _ ⟨rfl, rfl, rfl, rfl⟩
    | exact frameOk_op_jmp' _ _ _ ⟨rfl, rfl, rfl, rfl⟩
    | exact frameOk_ok ⟨rfl, rfl, rfl, rfl⟩
    | exact frameOk_error _ _
    | intro _

theorem frameOk_op_eor (c : CPU) (x y : Int) : FrameOk c (c.op_eor x y) := by
  unfold CPU.op_eor
  repeat
    first
    | apply frameOk_bind_cpu (frameOk_write_reg' _ _ _ _ ⟨rfl, rfl, rfl, rfl⟩)
    | apply frameOk_bind_cpu (frameOk_write_ram' _ _ _ _ ⟨rfl, rfl, rfl, rfl⟩)
    | rw [ok_bind]
    | apply frameOk_ite
    | apply frameOk_bind
    | exact frameOk_write_reg' _ _ _ _ ⟨rfl, rfl, rfl, rfl⟩
    | exact frameOk_write_ram' _ _ _ _ ⟨rfl, rfl, rfl, rfl⟩
    | exact frameOk_op_jmp' _ _ _ ⟨rfl, rfl, rfl, rfl⟩
    | exact frameOk_ok ⟨rfl, rfl, rfl, rfl⟩
    | exact frameOk_error _ _
    | intro _

theorem frameOk_op_sub (c : CPU) (x y : Int) : FrameOk c (c.op_sub x y) := by
  unfold CPU.op_sub
  repeat
    first
    | apply frameOk_bind_cpu (frameOk_write_reg' _ _ _ _ ⟨rfl, rfl, rfl, rfl⟩)
    | apply frameOk_bind_cpu (frameOk_write_ram' _ _ _ _ ⟨rfl, rfl, rfl, rfl⟩)
    | rw [ok_bind]
    | apply frameOk_ite
    | apply frameOk_bind
    | exact frameOk_write_reg' _ _ _ _ ⟨rfl, rfl, rfl, rfl⟩
    | exact frameOk_write_ram' _ _ _ _ ⟨rfl, rfl, rfl, rfl⟩
    | exact frameOk_op_jmp' _ _ _ ⟨rfl, rfl, rfl, rfl⟩
    | exact frameOk_ok ⟨rfl, rfl, rfl, rfl⟩
    | exact frameOk_error _ _
    | intro _

theorem frameOk_op_mul (c : CPU) (x y : Int) : FrameOk c (c.op_mul x y) := by
  unfold CPU.op_mul
  repeat
    first
    | apply frameOk_bind_cpu (frameOk_write_reg' _ _ _ _ ⟨rfl, rfl, rfl, rfl⟩)
    | apply frameOk_bind_cpu (frameOk_write_ram' _ _ _ _ ⟨rfl, rfl, rfl, rfl⟩)
    | rw [ok_bind]
    | apply frameOk_ite
    | apply frameOk_bind
    | exact frameOk_write_reg' _ _ _ _ ⟨rfl, rfl, rfl, rfl⟩
    | exact frameOk_write_ram' _ _ _ _ ⟨rfl, rfl, rfl, rfl⟩
    | exact frameOk_op_jmp' _ _ _ ⟨rfl, rfl, rfl, rfl⟩
    | exact frameOk_ok ⟨rfl, rfl, rfl, rfl⟩
    | exact frameOk_error _ _
    | intro _

theorem frameOk_op_adc (c : CPU) (x y : Int) : FrameOk c (c.op_adc x y) := by
  unfold CPU.op_adc
  repeat
    first
    | apply frameOk_bind_cpu (frameOk_write_reg' _ _ _ _ ⟨rfl, rfl, rfl, rfl⟩)
    | apply frameOk_bind_cpu (frameOk_write_ram' _ _ _ _ ⟨rfl, rfl, rfl, rfl⟩)
    | rw [ok_bind]
    | apply frameOk_ite
    | apply frameOk_bind
    | exact frameOk_write_reg' _ _ _ _ ⟨rfl, rfl, rfl, rfl⟩
    | exact frameOk_write_ram' _ _ _ _ ⟨rfl, rfl, rfl, rfl⟩
    | exact frameOk_op_jmp' _ _ _ ⟨rfl, rfl, rfl, rfl⟩
    | exact frameOk_ok ⟨rfl, rfl, rfl, rfl⟩
    | exact frameOk_error _ _
    | intro _

theorem frameOk_op_div (c : CPU) (x y : Int) : FrameOk c (c.op_div x y) := by
  unfold CPU.op_div
  repeat
    first
    | apply frameOk_bind_cpu (frameOk_write_reg' _ _ _ _ ⟨rfl, rfl, rfl, rfl⟩)
    | apply frameOk_bind_cpu (frameOk_write_ram' _ _ _ _ ⟨rfl, rfl, rfl, rfl⟩)
    | rw [ok_bind]
    | apply frameOk_ite
    | apply frameOk_bind
    | exact frameOk_write_reg' _ _ _ _ ⟨rfl, rfl, rfl, rfl⟩
    | exact frameOk_write_ram' _ _ _ _ ⟨rfl, rfl, rfl, rfl⟩
    | exact frameOk_op_jmp' _ _ _ ⟨rfl, rfl, rfl, rfl⟩
    | exact frameOk_ok ⟨rfl, rfl, rfl, rfl⟩
    | exact frameOk_error _ _
    | intro _

theorem frameOk_op_in (c : CPU) (x y : Int) : FrameOk c (c.op_in x y) := by
  unfold CPU.op_in
  repeat
    first
    | apply frameOk_bind_cpu (frameOk_write_reg' _ _ _ _ ⟨rfl, rfl, rfl, rfl⟩)
    | apply frameOk_bind_cpu (frameOk_write_ram' _ _ _ _ ⟨rfl, rfl, rfl, rfl⟩)
    | rw [ok_bind]
    | apply frameOk_ite
    | apply frameOk_bind
    | exact frameOk_write_reg' _ _ _ _ ⟨rfl, rfl, rfl, rfl⟩
    | exact frameOk_write_ram' _ _ _ _ ⟨rfl, rfl, rfl, rfl⟩
    | exact frameOk_op_jmp' _ _ _ ⟨rfl, rfl, rfl, rfl⟩
    | exact frameOk_ok ⟨rfl, rfl, rfl, rfl⟩
    | exact frameOk_error _ _
    | intro _

theorem frameOk_op_out (c : CPU) (x y : Int) : FrameOk c (c.op_out x y) := by
  unfold CPU.op_out
  repeat
    first
    | apply frameOk_bind_cpu (frameOk_write_reg' _ _ _ _ ⟨rfl, rfl, rfl, rfl⟩)
    | apply frameOk_bind_cpu (frameOk_write_ram' _ _ _ _ ⟨rfl, rfl, rfl, rfl⟩)
    | rw [ok_bind]
    | apply frameOk_ite
    | apply frameOk_bind
    | exact frameOk_write_reg' _ _ _ _ ⟨rfl, rfl, rfl, rfl⟩
    | exact frameOk_write_ram' _ _ _ _ ⟨rfl, rfl, rfl, rfl⟩
    | exact frameOk_op_jmp' _ _ _ ⟨rfl, rfl, rfl, rfl⟩
    | exact frameOk_ok ⟨rfl, rfl, rfl, rfl⟩
    | exact frameOk_error _ _
    | intro _

theorem frameOk_op_cpi (c : CPU) (x y : Int) : FrameOk c (c.op_cpi x y) := by
  unfold CPU.op_cpi
  repeat
    first
    | apply frameOk_bind_cpu (frameOk_write_reg' _ _ _ _ ⟨rfl, rfl, rfl, rfl⟩)
    | apply frameOk_bind_cpu (frameOk_write_ram' _ _ _ _ ⟨rfl, rfl, rfl, rfl⟩)
    | rw [ok_bind]
    | apply frameOk_ite
    | apply frameOk_bind
    | exact frameOk_write_reg' _ _ _ _ ⟨rfl, rfl, rfl, rfl⟩
    | exact frameOk_write_ram' _ _ _ _ ⟨rfl, rfl, rfl, rfl⟩
    | exact frameOk_op_jmp' _ _ _ ⟨rfl, rfl, rfl, rfl⟩
    | exact frameOk_ok ⟨rfl, rfl, rfl, rfl⟩
    | exact frameOk_error _ _
    | intro _

theorem frameOk_op_cp (c : CPU) (x y : Int) : FrameOk c (c.op_cp x y) := by
  unfold CPU.op_cp
  repeat
    first
    | apply frameOk_bind_cpu (frameOk_write_reg' _ _ _ _ ⟨rfl, rfl, rfl, rfl⟩)
    | apply frameOk_bind_cpu (frameOk_write_ram' _ _ _ _ ⟨rfl, rfl, rfl, rfl⟩)
    | rw [ok_bind]
    | apply frameOk_ite
    | apply frameOk_bind
    | exact frameOk_write_reg' _ _ _ _ ⟨rfl, rfl, rfl, rfl⟩
    | exact frameOk_write_ram' _ _ _ _ ⟨rfl, rfl, rfl, rfl⟩
    | exact frameOk_op_jmp' _ _ _ ⟨rfl, rfl, rfl, rfl⟩
    | exact frameOk_ok ⟨rfl, rfl, rfl, rfl⟩
    | exact frameOk_error _ _
    | intro _

theorem frameOk_op_andi (c : CPU) (x y : Int) : FrameOk c (c.op_andi x y) := by
  unfold CPU.op_andi
  repeat
    first
    | apply frameOk_bind_cpu (frameOk_write_reg' _ _ _ _ ⟨rfl, rfl, rfl, rfl⟩)
    | apply frameOk_bind_cpu (frameOk_write_ram' _ _ _ _ ⟨rfl, rfl, rfl, rfl⟩)
    | rw [ok_bind]
    | apply frameOk_ite
    | apply frameOk_bind
    | exact frameOk_write_reg' _ _ _ _ ⟨rfl, rfl, rfl, rfl⟩
    | exact frameOk_write_ram' _ _ _ _ ⟨rfl, rfl, rfl, rfl⟩
    | exact frameOk_op_jmp' _ _ _ ⟨rfl, rfl, rfl, rfl⟩
    | exact frameOk_ok ⟨rfl, rfl, rfl, rfl⟩
    | exact frameOk_error _ _
    | intro _

theorem frameOk_op_ori (c : CPU) (x y : Int) : FrameOk c (c.op_ori x y) := by
  unfold CPU.op_ori
  repeat
    first
    | apply frameOk_bind_cpu (frameOk_write_reg' _ _ _ _ ⟨rfl, rfl, rfl, rfl⟩)
    | apply frameOk_bind_cpu (frameOk_write_ram' _ _ _ _ ⟨rfl, rfl, rfl, rfl⟩)
    | rw [ok_bind]
    | apply frameOk_ite
    | apply frameOk_bind
    | exact frameOk_write_reg' _ _ _ _ ⟨rfl, rfl, rfl, rfl⟩
    | exact frameOk_write_ram' _ _ _ _ ⟨rfl, rfl, rfl, rfl⟩
    | exact frameOk_op_jmp' _ _ _ ⟨rfl, rfl, rfl, rfl⟩
    | exact frameOk_ok ⟨rfl, rfl, rfl, rfl⟩
    | exact frameOk_error _ _
    | intro _

theorem frameOk_op_eori (c : CPU) (x y : Int) : FrameOk c (c.op_eori x y) := by
  unfold CPU.op_eori
  repeat
    first
    | apply frameOk_bind_cpu (frameOk_write_reg' _ _ _ _ ⟨rfl, rfl, rfl, rfl⟩)
    | apply frameOk_bind_cpu (frameOk_write_ram' _ _ _ _ ⟨rfl, rfl, rfl, rfl⟩)
    | rw [ok_bind]
    | apply frameOk_ite
    | apply frameOk_bind
    | exact frameOk_write_reg' _ _ _ _ ⟨rfl, rfl, rfl, rfl⟩
    | exact frameOk_write_ram' _ _ _ _ ⟨rfl, rfl, rfl, rfl⟩
    | exact frameOk_op_jmp' _ _ _ ⟨rfl, rfl, rfl, rfl⟩
    | exact frameOk_ok ⟨rfl, rfl, rfl, rfl⟩
    | exact frameOk_error _ _
    | intro _

theorem frameOk_op_subi (c : CPU) (x y : Int) : FrameOk c (c.op_subi x y) := by
  unfold CPU.op_subi
  repeat
    first
    | apply frameOk_bind_cpu (frameOk_write_reg' _ _ _ _ ⟨rfl, rfl, rfl, rfl⟩)
    | apply frameOk_bind_cpu (frameOk_write_ram' _ _ _ _ ⟨rfl, rfl, rfl, rfl⟩)
    | rw [ok_bind]
    | apply frameOk_ite
    | apply frameOk_bind
    | exact frameOk_write_reg' _ _ _ _ ⟨rfl, rfl, rfl, rfl⟩
    | exact frameOk_write_ram' _ _ _ _ ⟨rfl, rfl, rfl, rfl⟩
    | exact frameOk_op_jmp' _ _ _ ⟨rfl, rfl, rfl, rfl⟩
    | exact frameOk_ok ⟨rfl, rfl, rfl, rfl⟩
    | exact frameOk_error _ _
    | intro _

theorem frameOk_op_sbc (c : CPU) (x y : Int) : FrameOk c (c.op_sbc x y) := by
  unfold CPU.op_sbc
  repeat
    first
    | apply frameOk_bind_cpu (frameOk_write_reg' _ _ _ _ ⟨rfl, rfl, rfl, rfl⟩)
    | apply frameOk_bind_cpu (frameOk_write_ram' _ _ _ _ ⟨rfl, rfl, rfl, rfl⟩)
    | rw [ok_bind]
    | apply frameOk_ite
    | apply frameOk_bind
    | exact frameOk_write_reg' _ _ _ _ ⟨rfl, rfl, rfl, rfl⟩
    | exact frameOk_write_ram' _ _ _ _ ⟨rfl, rfl, rfl, rfl⟩
    | exact frameOk_op_jmp' _ _ _ ⟨rfl, rfl, rfl, rfl⟩
    | exact frameOk_ok ⟨rfl, rfl, rfl, rfl⟩
    | exact frameOk_error _ _
    | intro _

theorem frameOk_op_sbci (c : CPU) (x y : Int) : FrameOk c (c.op_sbci x y) := by
  unfold CPU.op_sbci
  repeat
    first
    | apply frameOk_bind_cpu (frameOk_write_reg' _ _ _ _ ⟨rfl, rfl, rfl, rfl⟩)
    | apply frameOk_bind_cpu (frameOk_write_ram' _ _ _ _ ⟨rfl, rfl, rfl, rfl⟩)
    | rw [ok_bind]
    | apply frameOk_ite
    | apply frameOk_bind
    | exact frameOk_write_reg' _ _ _ _ ⟨rfl, rfl, rfl, rfl⟩
    | exact frameOk_write_ram' _ _ _ _ ⟨rfl, rfl, rfl, rfl⟩
    | exact frameOk_op_jmp' _ _ _ ⟨rfl, rfl, rfl, rfl⟩
    | exact frameOk_ok ⟨rfl, rfl, rfl, rfl⟩
    | exact frameOk_error _ _
    | intro _

theorem frameOk_op_cpse (c : CPU) (x y : Int) : FrameOk c (c.op_cpse x y) := by
  unfold CPU.op_cpse
  repeat
    first
    | apply frameOk_bind_cpu (frameOk_write_reg' _ _ _ _ ⟨rfl, rfl, rfl, rfl⟩)
    | apply frameOk_bind_cpu (frameOk_write_ram' _ _ _ _ ⟨rfl, rfl, rfl, rfl⟩)
    | rw [ok_bind]
    | apply frameOk_ite
    | apply frameOk_bind
    | exact frameOk_write_reg' _ _ _ _ ⟨rfl, rfl, rfl, rfl⟩
    | exact frameOk_write_ram' _ _ _ _ ⟨rfl, rfl, rfl, rfl⟩
    | exact frameOk_op_jmp' _ _ _ ⟨rfl, rfl, rfl, rfl⟩
    | exact frameOk_ok ⟨rfl, rfl, rfl, rfl⟩
    | exact frameOk_error _ _
    | intro _

theorem frameOk_op_sbrs (c : CPU) (x y : Int) : FrameOk c (c.op_sbrs x y) := by
  unfold CPU.op_sbrs
  repeat
    first
    | apply frameOk_bind_cpu (frameOk_write_reg' _ _ _ _ ⟨rfl, rfl, rfl, rfl⟩)
    | apply frameOk_bind_cpu (frameOk_write_ram' _ _ _ _ ⟨rfl, rfl, rfl, rfl⟩)
    | rw [ok_bind]
    | apply frameOk_ite
    | apply frameOk_bind
    | exact frameOk_write_reg' _ _ _ _ ⟨rfl, rfl, rfl, rfl⟩
    | exact frameOk_write_ram' _ _ _ _ ⟨rfl, rfl, rfl, rfl⟩
    | exact frameOk_op_jmp' _ _ _ ⟨rfl, rfl, rfl, rfl⟩
    | exact frameOk_ok ⟨rfl, rfl, rfl, rfl⟩
    | exact frameOk_error _ _
    | intro _

theorem frameOk_op_sbrc (c : CPU) (x y : Int) : FrameOk c (c.op_sbrc x y) := by
  unfold CPU.op_sbrc
  repeat
    first
    | apply frameOk_bind_cpu (frameOk_write_reg' _ _ _ _ ⟨rfl, rfl, rfl, rfl⟩)
    | apply frameOk_bind_cpu (frameOk_write_ram' _ _ _ _ ⟨rfl, rfl, rfl, rfl⟩)
    | rw [ok_bind]
    | apply frameOk_ite
    | apply frameOk_bind
    | exact frameOk_write_reg' _ _ _ _ ⟨rfl, rfl, rfl, rfl⟩
    | exact frameOk_write_ram' _ _ _ _ ⟨rfl, rfl, rfl, rfl⟩
    | exact frameOk_op_jmp' _ _ _ ⟨rfl, rfl, rfl, rfl⟩
    | exact frameOk_ok ⟨rfl, rfl, rfl, rfl⟩
    | exact frameOk_error _ _
    | intro _

theorem frameOk_op_sbis (c : CPU) (x y : Int) : FrameOk c (c.op_sbis x y) := by
  unfold CPU.op_sbis
  repeat
    first
    | apply frameOk_bind_cpu (frameOk_write_reg' _ _ _ _ ⟨rfl, rfl, rfl, rfl⟩)
    | apply frameOk_bind_cpu (frameOk_write_ram' _ _ _ _ ⟨rfl, rfl, rfl, rfl⟩)
    | rw [ok_bind]
    | apply frameOk_ite
    | apply frameOk_bind
    | exact frameOk_write_reg' _ _ _ _ ⟨rfl, rfl, rfl, rfl⟩
    | exact frameOk_write_ram' _ _ _ _ ⟨rfl, rfl, rfl, rfl⟩
    | exact frameOk_op_jmp' _ _ _ ⟨rfl, rfl, rfl, rfl⟩
    | exact frameOk_ok ⟨rfl, rfl, rfl, rfl⟩
    | exact frameOk_error _ _
    | intro _

theorem frameOk_op_sbic (c : CPU) (x y : Int) : FrameOk c (c.op_sbic x y) := by
  unfold CPU.op_sbic
  repeat
    first
    | apply frameOk_bind_cpu (frameOk_write_reg' _ _ _ _ ⟨rfl, rfl, rfl, rfl⟩)
    | apply frameOk_bind_cpu (frameOk_write_ram' _ _ _ _ ⟨rfl, rfl, rfl, rfl⟩)
    | rw [ok_bind]
    | apply frameOk_ite
    | apply frameOk_bind
    | exact frameOk_write_reg' _ _ _ _ ⟨rfl, rfl, rfl, rfl⟩
    | exact frameOk_write_ram' _ _ _ _ ⟨rfl, rfl, rfl, rfl⟩
    | exact frameOk_op_jmp' _ _ _ ⟨rfl, rfl, rfl, rfl⟩
    | exact frameOk_ok ⟨rfl, rfl, rfl, rfl⟩
    | exact frameOk_error _ _
    | intro _

theorem frameOk_op_sbiw (c : CPU) (x y : Int) : FrameOk c (c.op_sbiw x y) := by
  unfold CPU.op_sbiw
  repeat
    first
    | apply frameOk_bind_cpu (frameOk_write_reg' _ _ _ _ ⟨rfl, rfl, rfl, rfl⟩)
    | apply frameOk_bind_cpu (frameOk_write_ram' _ _ _ _ ⟨rfl, rfl, rfl, rfl⟩)
    | rw [ok_bind]
    | apply frameOk_ite
    | apply frameOk_bind
    | exact frameOk_write_reg' _ _ _ _ ⟨rfl, rfl, rfl, rfl⟩
    | exact frameOk_write_ram' _ _ _ _ ⟨rfl, rfl, rfl, rfl⟩
    | exact frameOk_op_jmp' _ _ _ ⟨rfl, rfl, rfl, rfl⟩
    | exact frameOk_ok ⟨rfl, rfl, rfl, rfl⟩
    | exact frameOk_error _ _
    | intro _

theorem frameOk_op_adiw (c : CPU) (x y : Int) : FrameOk c (c.op_adiw x y) := by
  unfold CPU.op_adiw
  repeat
    first
    | apply frameOk_bind_cpu (frameOk_write_reg' _ _ _ _ ⟨rfl, rfl, rfl, rfl⟩)
    | apply frameOk_bind_cpu (frameOk_write_ram' _ _ _ _ ⟨rfl, rfl, rfl, rfl⟩)
    | rw [ok_bind]
    | apply frameOk_ite
    | apply frameOk_bind
    | exact frameOk_write_reg' _ _ _ _ ⟨rfl, rfl, rfl, rfl⟩
    | exact frameOk_write_ram' _ _ _ _ ⟨rfl, rfl, rfl, rfl⟩
    | exact frameOk_op_jmp' _ _ _ ⟨rfl, rfl, rfl, rfl⟩
    | exact frameOk_ok ⟨rfl, rfl, rfl, rfl⟩
    | exact frameOk_error _ _
    | intro _

theorem frameOk_op_sbi (c : CPU) (x y : Int) : FrameOk c (c.op_sbi x y) := by
  unfold CPU.op_sbi
  repeat
    first
    | apply frameOk_bind_cpu (frameOk_write_reg' _ _ _ _ ⟨rfl, rfl, rfl, rfl⟩)
    | apply frameOk_bind_cpu (frameOk_write_ram' _ _ _ _ ⟨rfl, rfl, rfl, rfl⟩)
    | rw [ok_bind]
    | apply frameOk_ite
    | apply frameOk_bind
    | exact frameOk_write_reg' _ _ _ _ ⟨rfl, rfl, rfl, rfl⟩
    | exact frameOk_write_ram' _ _ _ _ ⟨rfl, rfl, rfl, rfl⟩
    | exact frameOk_op_jmp' _ _ _ ⟨rfl, rfl, rfl, rfl⟩
    | exact frameOk_ok ⟨rfl, rfl, rfl, rfl⟩
    | exact frameOk_error _ _
    | intro _

theorem frameOk_op_cbi (c : CPU) (x y : Int) : FrameOk c (c.op_cbi x y) := by
  unfold CPU.op_cbi
  repeat
    first
    | apply frameOk_bind_cpu (frameOk_write_reg' _ _ _ _ ⟨rfl, rfl, rfl, rfl⟩)
    | apply frameOk_bind_cpu (frameOk_write_ram' _ _ _ _ ⟨rfl, rfl, rfl, rfl⟩)
    | rw [ok_bind]
    | apply frameOk_ite
    | apply frameOk_bind
    | exact frameOk_write_reg' _ _ _ _ ⟨rfl, rfl, rfl, rfl⟩
    | exact frameOk_write_ram' _ _ _ _ ⟨rfl, rfl, rfl, rfl⟩
    | exact frameOk_op_jmp' _ _ _ ⟨rfl, rfl, rfl, rfl⟩
    | exact frameOk_ok ⟨rfl, rfl, rfl, rfl⟩
    | exact frameOk_error _ _
    | intro _

theorem frameOk_op_ld (c : CPU) (x y : Int) : FrameOk c (c.op_ld x y) := by
  unfold CPU.op_ld
  repeat
    first
    | apply frameOk_bind_cpu (frameOk_write_reg' _ _ _ _ ⟨rfl, rfl, rfl, rfl⟩)
    | apply frameOk_bind_cpu (frameOk_write_ram' _ _ _ _ ⟨rfl, rfl, rfl, rfl⟩)
    | rw [ok_bind]
    | apply frameOk_ite
    | apply frameOk_bind
    | exact frameOk_write_reg' _ _ _ _ ⟨rfl, rfl, rfl, rfl⟩
    | exact frameOk_write_ram' _ _ _ _ ⟨rfl, rfl, rfl, rfl⟩
    | exact frameOk_op_jmp' _ _ _ ⟨rfl, rfl, rfl, rfl⟩
    | exact frameOk_ok ⟨rfl, rfl, rfl, rfl⟩
    | exact frameOk_error _ _
    | intro _

theorem frameOk_op_st (c : CPU) (x y : Int) : FrameOk c (c.op_st x y) := by
  unfold CPU.op_st
  repeat
    first
    | apply frameOk_bind_cpu (frameOk_write_reg' _ _ _ _ ⟨rfl, rfl, rfl, rfl⟩)
    | apply frameOk_bind_cpu (frameOk_write_ram' _ _ _ _ ⟨rfl, rfl, rfl, rfl⟩)
    | rw [ok_bind]
    | apply frameOk_ite
    | apply frameOk_bind
    | exact frameOk_write_reg' _ _ _ _ ⟨rfl, rfl, rfl, rfl⟩
    | exact frameOk_write_ram' _ _ _ _ ⟨rfl, rfl, rfl, rfl⟩
    | exact frameOk_op_jmp' _ _ _ ⟨rfl, rfl, rfl, rfl⟩
    | exact frameOk_ok ⟨rfl, rfl, rfl, rfl⟩
    | exact frameOk_error _ _
    | intro _

theorem frameOk_op_brne (c : CPU) (v : Val) : FrameOk c (c.op_brne v) := by
  unfold CPU.op_brne
  repeat
    first
    | apply frameOk_bind_cpu (frameOk_write_reg' _ _ _ _ ⟨rfl, rfl, rfl, rfl⟩)
    | apply frameOk_bind_cpu (frameOk_write_ram' _ _ _ _ ⟨rfl, rfl, rfl, rfl⟩)
    | rw [ok_bind]
    | apply frameOk_ite
    | apply frameOk_bind
    | exact frameOk_write_reg' _ _ _ _ ⟨rfl, rfl, rfl, rfl⟩
    | exact frameOk_write_ram' _ _ _ _ ⟨rfl, rfl, rfl, rfl⟩
    | exact frameOk_op_jmp' _ _ _ ⟨rfl, rfl, rfl, rfl⟩
    | exact frameOk_ok ⟨rfl, rfl, rfl, rfl⟩
    | exact frameOk_error _ _
    | intro _

theorem frameOk_op_breq (c : CPU) (v : Val) : FrameOk c (c.op_breq v) := by
  unfold CPU.op_breq
  repeat
    first
    | apply frameOk_bind_cpu (frameOk_write_reg' _ _ _ _ ⟨rfl, rfl, rfl, rfl⟩)
    | apply frameOk_bind_cpu (frameOk_write_ram' _ _ _ _ ⟨rfl, rfl, rfl, rfl⟩)
    | rw [ok_bind]
    | apply frameOk_ite
    | apply frameOk_bind
    | exact frameOk_write_reg' _ _ _ _ ⟨rfl, rfl, rfl, rfl⟩
    | exact frameOk_write_ram' _ _ _ _ ⟨rfl, rfl, rfl, rfl⟩
    | exact frameOk_op_jmp' _ _ _ ⟨rfl, rfl, rfl, rfl⟩
    | exact frameOk_ok ⟨rfl, rfl, rfl, rfl⟩
    | exact frameOk_error _ _
    | intro _

theorem frameOk_op_brcs (c : CPU) (v : Val) : FrameOk c (c.op_brcs v) := by
  unfold CPU.op_brcs
  repeat
    first
    | apply frameOk_bind_cpu (frameOk_write_reg' _ _ _ _ ⟨rfl, rfl, rfl, rfl⟩)
    | apply frameOk_bind_cpu (frameOk_write_ram' _ _ _ _ ⟨rfl, rfl, rfl, rfl⟩)
    | rw [ok_bind]
    | apply frameOk_ite
    | apply frameOk_bind
    | exact frameOk_write_reg' _ _ _ _ ⟨rfl, rfl, rfl, rfl⟩
    | exact frameOk_write_ram' _ _ _ _ ⟨rfl, rfl, rfl, rfl⟩
    | exact frameOk_op_jmp' _ _ _ ⟨rfl, rfl, rfl, rfl⟩
    | exact frameOk_ok ⟨rfl, rfl, rfl, rfl⟩
    | exact frameOk_error _ _
    | intro _

theorem frameOk_op_brcc (c : CPU) (v : Val) : FrameOk c (c.op_brcc v) := by
  unfold CPU.op_brcc
  repeat
    first
    | apply frameOk_bind_cpu (frameOk_write_reg' _ _ _ _ ⟨rfl, rfl, rfl, rfl⟩)
    | apply frameOk_bind_cpu (frameOk_write_ram' _ _ _ _ ⟨rfl, rfl, rfl, rfl⟩)
    | rw [ok_bind]
    | apply frameOk_ite
    | apply frameOk_bind
    | exact frameOk_write_reg' _ _ _ _ ⟨rfl, rfl, rfl, rfl⟩
    | exact frameOk_write_ram' _ _ _ _ ⟨rfl, rfl, rfl, rfl⟩
    | exact frameOk_op_jmp' _ _ _ ⟨rfl, rfl, rfl, rfl⟩
    | exact frameOk_ok ⟨rfl, rfl, rfl, rfl⟩
    | exact frameOk_error _ _
    | intro _

theorem frameOk_op_brge (c : CPU) (v : Val) : FrameOk c (c.op_brge v) := by
  unfold CPU.op_brge
  repeat
    first
    | apply frameOk_bind_cpu (frameOk_write_reg' _ _ _ _ ⟨rfl, rfl, rfl, rfl⟩)
    | apply frameOk_bind_cpu (frameOk_write_ram' _ _ _ _ ⟨rfl, rfl, rfl, rfl⟩)
    | rw [ok_bind]
    | apply frameOk_ite
    | apply frameOk_bind
    | exact frameOk_write_reg' _ _ _ _ ⟨rfl, rfl, rfl, rfl⟩
    | exact frameOk_write_ram' _ _ _ _ ⟨rfl, rfl, rfl, rfl⟩
    | exact frameOk_op_jmp' _ _ _ ⟨rfl, rfl, rfl, rfl⟩
    | exact frameOk_ok ⟨rfl, rfl, rfl, rfl⟩
    | exact frameOk_error _ _
    | intro _

theorem frameOk_op_brlt (c : CPU) (v : Val) : FrameOk c (c.op_brlt v) := by
  unfold CPU.op_brlt
  repeat
    first
    | apply frameOk_bind_cpu (frameOk_write_reg' _ _ _ _ ⟨rfl, rfl, rfl, rfl⟩)
    | apply frameOk_bind_cpu (frameOk_write_ram' _ _ _ _ ⟨rfl, rfl, rfl, rfl⟩)
    | rw [ok_bind]
    | apply frameOk_ite
    | apply frameOk_bind
    | exact frameOk_write_reg' _ _ _ _ ⟨rfl, rfl, rfl, rfl⟩
    | exact frameOk_write_ram' _ _ _ _ ⟨rfl, rfl, rfl, rfl⟩
    | exact frameOk_op_jmp' _ _ _ ⟨rfl, rfl, rfl, rfl⟩
    | exact frameOk_ok ⟨rfl, rfl, rfl, rfl⟩
    | exact frameOk_error _ _
    | intro _

theorem frameOk_op_brmi (c : CPU) (v : Val) : FrameOk c (c.op_brmi v) := by
  unfold CPU.op_brmi
  repeat
    first
    | apply frameOk_bind_cpu (frameOk_write_reg' _ _ _ _ ⟨rfl, rfl, rfl, rfl⟩)
    | apply frameOk_bind_cpu (frameOk_write_ram' _ _ _ _ ⟨rfl, rfl, rfl, rfl⟩)
    | rw [ok_bind]
    | apply frameOk_ite
    | apply frameOk_bind
    | exact frameOk_write_reg' _ _ _ _ ⟨rfl, rfl, rfl, rfl⟩
    | exact frameOk_write_ram' _ _ _ _ ⟨rfl, rfl, rfl, rfl⟩
    | exact frameOk_op_jmp' _ _ _ ⟨rfl, rfl, rfl, rfl⟩
    | exact frameOk_ok ⟨rfl, rfl, rfl, rfl⟩
    | exact frameOk_error _ _
    | intro _

theorem frameOk_op_brpl (c : CPU) (v : Val) : FrameOk c (c.op_brpl v) := by
  unfold CPU.op_brpl
  repeat
    first
    | apply frameOk_bind_cpu (frameOk_write_reg' _ _ _ _ ⟨rfl, rfl, rfl, rfl⟩)
    | apply frameOk_bind_cpu (frameOk_write_ram' _ _ _ _ ⟨rfl, rfl, rfl, rfl⟩)
    | rw [ok_bind]
    | apply frameOk_ite
    | apply frameOk_bind
    | exact frameOk_write_reg' _ _ _ _ ⟨rfl, rfl, rfl, rfl⟩
    | exact frameOk_write_ram' _ _ _ _ ⟨rfl, rfl, rfl, rfl⟩
    | exact frameOk_op_jmp' _ _ _ ⟨rfl, rfl, rfl, rfl⟩
    | exact frameOk_ok ⟨rfl, rfl, rfl, rfl⟩
    | exact frameOk_error _ _
    | intro _

theorem frameOk_op_rjmp (c : CPU) (v : Val) : FrameOk c (c.op_rjmp v) := by
  cases v with
  | int k => exact @frameOk_ok _ { c with pc := c.pc + k } (frame_rfl c)
  | str s =>
    have hr : c.op_rjmp (Val.str s) = c.op_jmp (Val.str s) := rfl
    rw [hr]
    exact frameOk_op_jmp' _ _ _ (frame_rfl _)

theorem frameOk_op_rcall (c : CPU) (v : Val) : FrameOk c (c.op_rcall v) := by
  unfold CPU.op_rcall
  apply frameOk_bind_cpu (frameOk_write_ram' _ _ _ _ (frame_rfl _))
  intro cm
  apply frameOk_bind_cpu (frameOk_write_ram' _ _ _ _ ⟨rfl, rfl, rfl, rfl⟩)
  intro cm2
  cases v with
  | int k =>
    exact @frameOk_ok _ { cm2 with sp := cm2.sp - 1, pc := (cm2.pc + k) - 1 }
      ⟨rfl, rfl, rfl, rfl⟩
  | str s => exact frameOk_op_jmp' _ _ _ ⟨rfl, rfl, rfl, rfl⟩

theorem frameOk_op_call (c : CPU) (v : Val) : FrameOk c (c.op_call v) := by
  unfold CPU.op_call
  apply frameOk_bind_cpu (frameOk_write_ram' _ _ _ _ (frame_rfl _))
  intro cm
  apply frameOk_bind_cpu (frameOk_write_ram' _ _ _ _ ⟨rfl, rfl, rfl, rfl⟩)
  intro cm2
  exact frameOk_op_jmp' _ _ _ ⟨rfl, rfl, rfl, rfl⟩

attribute [local irreducible] CPU.op_nop CPU.op_ldi CPU.op_mov CPU.op_add
attribute [local irreducible] CPU.op_and CPU.op_or CPU.op_eor CPU.op_sub
attribute [local irreducible] CPU.op_inc CPU.op_dec CPU.op_mul CPU.op_adc
attribute [local irreducible] CPU.op_clr CPU.op_ser CPU.op_div CPU.op_in
attribute [local irreducible] CPU.op_out CPU.op_jmp CPU.op_cpi CPU.op_cp
attribute [local irreducible] CPU.op_lsl CPU.op_lsr CPU.op_rol CPU.op_ror
attribute [local irreducible] CPU.op_com CPU.op_neg CPU.op_swap CPU.op_tst
attribute [local irreducible] CPU.op_andi CPU.op_ori CPU.op_eori CPU.op_subi
attribute [local irreducible] CPU.op_sbc CPU.op_sbci CPU.op_sei CPU.op_cli
attribute [local irreducible] CPU.op_cpse CPU.op_sbrs CPU.op_sbrc CPU.op_sbis
attribute [local irreducible] CPU.op_sbic CPU.op_sbiw CPU.op_adiw CPU.op_rjmp
attribute [local irreducible] CPU.op_rcall CPU.op_sbi CPU.op_cbi CPU.op_ld
attribute [local irreducible] CPU.op_st CPU.op_brne CPU.op_breq CPU.op_brcs
attribute [local irreducible] CPU.op_brcc CPU.op_brge CPU.op_brlt CPU.op_brmi
attribute [local irreducible] CPU.op_brpl CPU.op_push CPU.op_pop CPU.op_call
attribute [local irreducible] CPU.op_ret CPU.op_reti

set_option maxHeartbeats 2000000 in
set_option maxRecDepth 8000 in
/-- No handler invoked through the dispatch table modifies `step_count`,
`step_trace`, `program` or `pc_to_line`. -/
theorem runHandler_frameOk (c : CPU) (name : String) (vs : List Val) :
    FrameOk c (runHandler c name vs) := by
  unfold runHandler
  repeat'
    first
    | apply frameOk_ite
    | split
  all_goals
    first
    | exact frameOk_error _ _
    | exact frameOk_op_jmp' _ _ _ (frame_rfl _)
    | exact frameOk_op_nop _
    | exact frameOk_op_sei _
    | exact frameOk_op_cli _
    | exact frameOk_op_ret _
    | exact frameOk_op_reti _
    | exact frameOk_op_inc _ _
    | exact frameOk_op_dec _ _
    | exact frameOk_op_clr _ _
    | exact frameOk_op_ser _ _
    | exact frameOk_op_lsl _ _
    | exact frameOk_op_lsr _ _
    | exact frameOk_op_rol _ _
    | exact frameOk_op_ror _ _
    | exact frameOk_op_com _ _
    | exact frameOk_op_neg _ _
    | exact frameOk_op_swap _ _
    | exact frameOk_op_tst _ _
    | exact frameOk_op_push _ _
    | exact frameOk_op_pop _ _
    | exact frameOk_op_ldi _ _ _
    | exact frameOk_op_mov _ _ _
    | exact frameOk_op_add _ _ _
    | exact frameOk_op_and _ _ _
    | exact frameOk_op_or _ _ _
    | exact frameOk_op_eor _ _ _
    | exact frameOk_op_sub _ _ _
    | exact frameOk_op_mul _ _ _
    | exact frameOk_op_adc _ _ _
    | exact frameOk_op_div _ _ _
    | exact frameOk_op_in _ _ _
    | exact frameOk_op_out _ _ _
    | exact frameOk_op_cpi _ _ _
    | exact frameOk_op_cp _ _ _
    | exact frameOk_op_andi _ _ _
    | exact frameOk_op_ori _ _ _
    | exact frameOk_op_eori _ _ _
    | exact frameOk_op_subi _ _ _
    | exact frameOk_op_sbc _ _ _
    | exact frameOk_op_sbci _ _ _
    | exact frameOk_op_cpse _ _ _
    | exact frameOk_op_sbrs _ _ _
    | exact frameOk_op_sbrc _ _ _
    | exact frameOk_op_sbis _ _ _
    | exact frameOk_op_sbic _ _ _
    | exact frameOk_op_sbiw _ _ _
    | exact frameOk_op_adiw _ _ _
    | exact frameOk_op_sbi _ _ _
    | exact frameOk_op_cbi _ _ _
    | exact frameOk_op_ld _ _ _
    | exact frameOk_op_st _ _ _
    | exact frameOk_op_brne _ _
    | exact frameOk_op_breq _ _
    | exact frameOk_op_brcs _ _
    | exact frameOk_op_brcc _ _
    | exact frameOk_op_brge _ _
    | exact frameOk_op_brlt _ _
    | exact frameOk_op_brmi _ _
    | exact frameOk_op_brpl _ _
    | exact frameOk_op_rjmp _ _
    | exact frameOk_op_rcall _ _
    | exact frameOk_op_call _ _

theorem runInstr_frameOk (c : CPU) (i : Instr) : FrameOk c (c.runInstr i) := by
  unfold CPU.runInstr
  split
  · exact runHandler_frameOk c _ _
  · exact frameOk_error _ _

end FrameSec

/-- `step` raises exactly the handler's error when the handler fails. -/
theorem step_error_of_runInstr (c : CPU) (e : Err)
    (h0 : 0 ≤ c.pc) (hlt : c.pc < c.program.length)
    (hrun : c.runInstr (c.program.getD c.pc.toNat ("nop", [])) = .error e) :
    c.step = .error e := by
  simp only [CPU.step]
  rw [if_neg (by simp only [not_or, not_lt, not_le]; constructor <;> omega)]
  rw [hrun]

/-! ## Claim C1 -/

/-- Claim C1: if `pc` is out of `[0, len(program))` then `step` executes
no instruction and returns `False` (reporting not running, trace and pc
untouched); otherwise, whenever `step` returns normally it returns `True`,
exactly one instruction was executed (the handler of the fetched
instruction succeeded), `step_trace` grew by exactly one record, and the
post-step `pc` is the post-handler `pc` plus 1 (so a handler that set
`pc = target - 1` leaves the post-step pc exactly at `target`). -/
theorem step_semantics (c : CPU) :
    (c.pc < 0 ∨ (c.program.length : Int) ≤ c.pc →
      c.step = .ok ({ c with running := false }, false)) ∧
    (0 ≤ c.pc → c.pc < c.program.length →
      ∀ c' b, c.step = .ok (c', b) →
        b = true ∧
        ∃ c1, c.runInstr (c.program.getD c.pc.toNat ("nop", [])) = .ok c1 ∧
          c'.step_trace.length = c.step_trace.length + 1 ∧
          c'.pc = c1.pc + 1) := by
  refine ⟨step_out_of_range c, ?_⟩
  intro h0 hlt c' b hstep
  cases hrun : c.runInstr (c.program.getD c.pc.toNat ("nop", [])) with
  | error e =>
    rw [step_error_of_runInstr c e h0 hlt hrun] at hstep
    exact Except.noConfusion hstep
  | ok c1 =>
    rw [step_ok_of_runInstr c c1 h0 hlt hrun] at hstep
    have hpair := Except.ok.inj hstep
    have hc' : c' = _ := (congrArg Prod.fst hpair).symm
    have hb : b = true := (congrArg Prod.snd hpair).symm
    subst hc'
    subst hb
    obtain ⟨_, hst, _, _⟩ := runInstr_frameOk c _ c1 hrun
    refine ⟨rfl, c1, rfl, ?_, rfl⟩
    simp [hst]

def cpuC1 : CPU := { CPU.init memW with program := [("ldi", [Operand.reg 0, Operand.num 7])] }

def cpuC1out : CPU := { CPU.init memW with pc := 5 }

def c1run : CPU :=
  match cpuC1.step with
  | .ok (x, _) => x
  | .error _ => cpuC1

/-- Witness for C1: an out-of-range pc reports not running; one `LDI`
step executes, growing the trace by one and advancing pc by one. -/
theorem step_semantics_witness :
    (cpuC1out.step = .ok ({ cpuC1out with running := false }, false)) ∧
    (true = true ∧
      ∃ c1, cpuC1.runInstr (cpuC1.program.getD cpuC1.pc.toNat ("nop", [])) = .ok c1 ∧
        c1run.step_trace.length = cpuC1.step_trace.length + 1 ∧
        c1run.pc = c1.pc + 1) :=
  ⟨(step_semantics cpuC1out).1 (by decide),
   (step_semantics cpuC1).2 (by decide) (by decide) c1run true (by decide)⟩

/-! ## Claim C9 -/

def cpuC9 : CPU := { CPU.init memW with program := [("jmp", [Operand.num 5])] }

/-- The pc fields of the step-trace records after one `step`. -/
def stepTracePcs (c : CPU) : List Int :=
  match c.step with
  | .ok (c', _) => c'.step_trace.map StepRec.pc
  | .error _ => []

/-- Claim C9 is false as stated: the record's `pc` field is read *after*
the handler ran, so for a control-transfer instruction it is not the index
of the executed instruction. Executing the single instruction `JMP 5`
(at index 0) appends a record whose pc field is 4 (= target - 1), not 0. -/
theorem trace_pc_counterexample :
    stepTracePcs cpuC9 = [4] ∧ ¬ stepTracePcs cpuC9 = [0] := by
  constructor <;> decide

/-- Claim C9 (amended): the appended record contains the incremented step
counter, the `pc` as it stands *after* the handler ran (equal to the
executed instruction's index only when the handler did not write `pc`),
the pre-execution register snapshot, the pre-execution sparse non-zero RAM
map, the post-execution SREG, and the post-execution stack pointer; the
trace is append-only. -/
theorem step_trace_record (c c1 : CPU)
    (h0 : 0 ≤ c.pc) (hlt : c.pc < c.program.length)
    (hrun : c.runInstr (c.program.getD c.pc.toNat ("nop", [])) = .ok c1) :
    c.step = .ok ({ c1 with
      step_count := c.step_count + 1
      step_trace := c.step_trace ++ [{
        step := c.step_count + 1
        pc := c1.pc
        instr := instrText (c.program.getD c.pc.toNat ("nop", []))
        regs := c.regs
        mem := c.memSnapshot
        sreg := c1.sreg
        sp := c1.sp
        source_line := (c1.pc_to_line.lookup c1.pc).getD (-1) }]
      pc := c1.pc + 1 }, true) := by
  obtain ⟨hsc, hst, hpr, hpl⟩ := runInstr_frameOk c _ c1 hrun
  have h := step_ok_of_runInstr c c1 h0 hlt hrun
  rw [hsc, hst] at h
  exact h

def c9run : CPU := { cpuC9 with pc := 4 }

/-- Witness for the amended C9 on the `JMP 5` program. -/
theorem step_trace_record_witness :
    cpuC9.step = .ok ({ c9run with
      step_count := cpuC9.step_count + 1
      step_trace := cpuC9.step_trace ++ [{
        step := cpuC9.step_count + 1
        pc := c9run.pc
        instr := instrText (cpuC9.program.getD cpuC9.pc.toNat ("nop", []))
        regs := cpuC9.regs
        mem := cpuC9.memSnapshot
        sreg := c9run.sreg
        sp := c9run.sp
        source_line := (c9run.pc_to_line.lookup c9run.pc).getD (-1) }]
      pc := c9run.pc + 1 }, true) :=
  step_trace_record cpuC9 c9run (by decide) (by decide) (by decide)

/-! ## Claim C6: S = N xor V after every instruction defining both flags -/

/-- The sign-flag invariant on a raw SREG byte: the S bit equals the
exclusive or of the N and V bits. -/
def SInv (s : Nat) : Prop :=
  get_flag s SREG_S = xor (get_flag s SREG_N) (get_flag s SREG_V)

/-- Core single-bit fact: `(n + v) % 2` as a Bool is the xor of the bits. -/
theorem sInv_core (n v : Nat) (hn : n ≤ 1) (hv : v ≤ 1) :
    (((n + v) % 2) != 0) = xor (n != 0) (v != 0) := by
  interval_cases n <;> interval_cases v <;> decide

/-- Reading S below a Z write. -/
theorem gfs_ZS (s : Nat) (v : Bool) :
    get_flag (set_flag s SREG_Z v) SREG_S = get_flag s SREG_S :=
  get_flag_set_flag_ne s (by decide) v

/-- Reading V below a Z write. -/
theorem gfs_ZV (s : Nat) (v : Bool) :
    get_flag (set_flag s SREG_Z v) SREG_V = get_flag s SREG_V :=
  get_flag_set_flag_ne s (by decide) v

/-- Reading N below a Z write. -/
theorem gfs_ZN (s : Nat) (v : Bool) :
    get_flag (set_flag s SREG_Z v) SREG_N = get_flag s SREG_N :=
  get_flag_set_flag_ne s (by decide) v

/-- Reading V below an S write. -/
theorem gfs_SV (s : Nat) (v : Bool) :
    get_flag (set_flag s SREG_S v) SREG_V = get_flag s SREG_V :=
  get_flag_set_flag_ne s (by decide) v

/-- Reading N below an S write. -/
theorem gfs_SN (s : Nat) (v : Bool) :
    get_flag (set_flag s SREG_S v) SREG_N = get_flag s SREG_N :=
  get_flag_set_flag_ne s (by decide) v

/-- Reading N below a V write. -/
theorem gfs_VN (s : Nat) (v : Bool) :
    get_flag (set_flag s SREG_V v) SREG_N = get_flag s SREG_N :=
  get_flag_set_flag_ne s (by decide) v

/-- Reading V below an N write. -/
theorem gfs_NV (s : Nat) (v : Bool) :
    get_flag (set_flag s SREG_N v) SREG_V = get_flag s SREG_V :=
  get_flag_set_flag_ne s (by decide) v

/-- Reading S below an H write. -/
theorem gfs_HS (s : Nat) (v : Bool) :
    get_flag (set_flag s SREG_H v) SREG_S = get_flag s SREG_S :=
  get_flag_set_flag_ne s (by decide) v

/-- Reading V below an H write. -/
theorem gfs_HV (s : Nat) (v : Bool) :
    get_flag (set_flag s SREG_H v) SREG_V = get_flag s SREG_V :=
  get_flag_set_flag_ne s (by decide) v

/-- Reading N below an H write. -/
theorem gfs_HN (s : Nat) (v : Bool) :
    get_flag (set_flag s SREG_H v) SREG_N = get_flag s SREG_N :=
  get_flag_set_flag_ne s (by decide) v

/-- Reading S below a C write. -/
theorem gfs_CS (s : Nat) (v : Bool) :
    get_flag (set_flag s SREG_C v) SREG_S = get_flag s SREG_S :=
  get_flag_set_flag_ne s (by decide) v

/-- Reading V below a C write. -/
theorem gfs_CV (s : Nat) (v : Bool) :
    get_flag (set_flag s SREG_C v) SREG_V = get_flag s SREG_V :=
  get_flag_set_flag_ne s (by decide) v

/-- Reading N below a C write. -/
theorem gfs_CN (s : Nat) (v : Bool) :
    get_flag (set_flag s SREG_C v) SREG_N = get_flag s SREG_N :=
  get_flag_set_flag_ne s (by decide) v

/-- `_set_flags_add` establishes S = N xor V. -/
theorem sInv_setFlagsAdd (s a b ci r : Nat) : SInv (setFlagsAdd s a b ci r) := by
  simp only [SInv, setFlagsAdd, gfs_ZS, gfs_ZV, gfs_ZN, gfs_SV, gfs_SN,
    gfs_VN, get_flag_set_flag_self]
  refine sInv_core _ _ ?_ ?_
  · omega
  · split <;> omega

/-- `_set_flags_sub` establishes S = N xor V. -/
theorem sInv_setFlagsSub (s a b bo : Nat) (r : Int) : SInv (setFlagsSub s a b bo r) := by
  simp only [SInv, setFlagsSub, gfs_ZS, gfs_ZV, gfs_ZN, gfs_SV, gfs_SN,
    gfs_VN, get_flag_set_flag_self]
  refine sInv_core _ _ ?_ ?_
  · omega
  · split <;> omega

/-- `_set_flags_logical` establishes S = N xor V (with V forced to 0). -/
theorem sInv_setFlagsLogical (s r : Nat) : SInv (setFlagsLogical s r) := by
  simp only [SInv, setFlagsLogical, gfs_HS, gfs_ZS, gfs_HV, gfs_ZV, gfs_HN,
    gfs_ZN, gfs_SV, gfs_SN, gfs_NV, get_flag_set_flag_self]
  simp

/-- `_set_flags_inc` establishes S = N xor V. -/
theorem sInv_setFlagsInc (s old new : Nat) : SInv (setFlagsInc s old new) := by
  simp only [SInv, setFlagsInc, gfs_ZS, gfs_ZV, gfs_ZN, gfs_SV, gfs_SN,
    gfs_VN, get_flag_set_flag_self]
  refine sInv_core _ _ ?_ ?_
  · omega
  · split <;> omega

/-- `_set_flags_dec` establishes S = N xor V. -/
theorem sInv_setFlagsDec (s old new : Nat) : SInv (setFlagsDec s old new) := by
  simp only [SInv, setFlagsDec, gfs_ZS, gfs_ZV, gfs_ZN, gfs_SV, gfs_SN,
    gfs_VN, get_flag_set_flag_self]
  refine sInv_core _ _ ?_ ?_
  · omega
  · split <;> omega

/-- `_set_flags_add16` establishes S = N xor V. -/
theorem sInv_setFlagsAdd16 (s a b ci r : Nat) : SInv (setFlagsAdd16 s a b ci r) := by
  simp only [SInv, setFlagsAdd16, gfs_HS, gfs_ZS, gfs_HV, gfs_ZV, gfs_HN,
    gfs_ZN, gfs_SV, gfs_SN, gfs_VN, get_flag_set_flag_self]
  refine sInv_core _ _ ?_ ?_
  · omega
  · split <;> omega

/-- `_set_flags_sub16` establishes S = N xor V. -/
theorem sInv_setFlagsSub16 (s a b bo : Nat) (r : Int) : SInv (setFlagsSub16 s a b bo r) := by
  simp only [SInv, setFlagsSub16, gfs_HS, gfs_ZS, gfs_HV, gfs_ZV, gfs_HN,
    gfs_ZN, gfs_SV, gfs_SN, gfs_VN, get_flag_set_flag_self]
  refine sInv_core _ _ ?_ ?_
  · omega
  · split <;> omega

/-- `m` can only succeed with a state whose SREG satisfies the S = N xor V
invariant. -/
def SOk (m : Except Err CPU) : Prop :=
  ∀ c', m = .ok c' → SInv c'.sreg

theorem sOk_error (e : Err) : SOk (.error e) :=
  fun _ h => Except.noConfusion h

theorem sOk_ok {c1 : CPU} (h : SInv c1.sreg) : SOk (.ok c1) :=
  fun _ hh => (Except.ok.inj hh) ▸ h

theorem sOk_bind {β : Type} (x : Except Err β) {k : β → Except Err CPU}
    (h : ∀ v, SOk (k v)) : SOk (x >>= k) := by
  intro c' hc
  cases x with
  | error e => exact Except.noConfusion hc
  | ok v => exact h v c' hc

theorem sOk_ite (p : Prop) [Decidable p] {m1 m2 : Except Err CPU}
    (h1 : SOk m1) (h2 : SOk m2) : SOk (if p then m1 else m2) := by
  by_cases hp : p
  · rwa [if_pos hp]
  · rwa [if_neg hp]

section SSec

attribute [local irreducible] set_flag setBit clearBit get_flag mask8 mask16
attribute [local irreducible] setFlagsAdd setFlagsSub setFlagsLogical
attribute [local irreducible] setFlagsInc setFlagsDec setFlagsAdd16 setFlagsSub16

theorem sOk_op_add (c : CPU) (x y : Int) : SOk (c.op_add x y) := by
  simp only [CPU.op_add]
  repeat
    first
    | exact sOk_error _
    | exact sOk_ok (sInv_setFlagsAdd _ _ _ _ _)
    | exact sOk_ok (sInv_setFlagsSub _ _ _ _ _)
    | exact sOk_ok (sInv_setFlagsLogical _ _)
    | exact sOk_ok (sInv_setFlagsInc _ _ _)
    | exact sOk_ok (sInv_setFlagsDec _ _ _)
    | exact sOk_ok (sInv_setFlagsAdd16 _ _ _ _ _)
    | exact sOk_ok (sInv_setFlagsSub16 _ _ _ _ _)
    | apply sOk_ite
    | apply sOk_bind
    | intro _

theorem sOk_op_adc (c : CPU) (x y : Int) : SOk (c.op_adc x y) := by
  simp only [CPU.op_adc]
  repeat
    first
    | exact sOk_error _
    | exact sOk_ok (sInv_setFlagsAdd _ _ _ _ _)
    | exact sOk_ok (sInv_setFlagsSub _ _ _ _ _)
    | exact sOk_ok (sInv_setFlagsLogical _ _)
    | exact sOk_ok (sInv_setFlagsInc _ _ _)
    | exact sOk_ok (sInv_setFlagsDec _ _ _)
    | exact sOk_ok (sInv_setFlagsAdd16 _ _ _ _ _)
    | exact sOk_ok (sInv_setFlagsSub16 _ _ _ _ _)
    | apply sOk_ite
    | apply sOk_bind
    | intro _

theorem sOk_op_sub (c : CPU) (x y : Int) : SOk (c.op_sub x y) := by
  simp only [CPU.op_sub]
  repeat
    first
    | exact sOk_error _
    | exact sOk_ok (sInv_setFlagsAdd _ _ _ _ _)
    | exact sOk_ok (sInv_setFlagsSub _ _ _ _ _)
    | exact sOk_ok (sInv_setFlagsLogical _ _)
    | exact sOk_ok (sInv_setFlagsInc _ _ _)
    | exact sOk_ok (sInv_setFlagsDec _ _ _)
    | exact sOk_ok (sInv_setFlagsAdd16 _ _ _ _ _)
    | exact sOk_ok (sInv_setFlagsSub16 _ _ _ _ _)
    | apply sOk_ite
    | apply sOk_bind
    | intro _

theorem sOk_op_sbc (c : CPU) (x y : Int) : SOk (c.op_sbc x y) := by
  simp only [CPU.op_sbc]
  repeat
    first
    | exact sOk_error _
    | exact sOk_ok (sInv_setFlagsAdd _ _ _ _ _)
    | exact sOk_ok (sInv_setFlagsSub _ _ _ _ _)
    | exact sOk_ok (sInv_setFlagsLogical _ _)
    | exact sOk_ok (sInv_setFlagsInc _ _ _)
    | exact sOk_ok (sInv_setFlagsDec _ _ _)
    | exact sOk_ok (sInv_setFlagsAdd16 _ _ _ _ _)
    | exact sOk_ok (sInv_setFlagsSub16 _ _ _ _ _)
    | apply sOk_ite
    | apply sOk_bind
    | intro _

theorem sOk_op_and (c : CPU) (x y : Int) : SOk (c.op_and x y) := by
  simp only [CPU.op_and]
  repeat
    first
    | exact sOk_error _
    | exact sOk_ok (sInv_setFlagsAdd _ _ _ _ _)
    | exact sOk_ok (sInv_setFlagsSub _ _ _ _ _)
    | exact sOk_ok (sInv_setFlagsLogical _ _)
    | exact sOk_ok (sInv_setFlagsInc _ _ _)
    | exact sOk_ok (sInv_setFlagsDec _ _ _)
    | exact sOk_ok (sInv_setFlagsAdd16 _ _ _ _ _)
    | exact sOk_ok (sInv_setFlagsSub16 _ _ _ _ _)
    | apply sOk_ite
    | apply sOk_bind
    | intro _

theorem sOk_op_or (c : CPU) (x y : Int) : SOk (c.op_or x y) := by
  simp only [CPU.op_or]
  repeat
    first
    | exact sOk_error _
    | exact sOk_ok (sInv_setFlagsAdd _ _ _ _ _)
    | exact sOk_ok (sInv_setFlagsSub _ _ _ _ _)
    | exact sOk_ok (sInv_setFlagsLogical _ _)
    | exact sOk_ok (sInv_setFlagsInc _ _ _)
    | exact sOk_ok (sInv_setFlagsDec _ _ _)
    | exact sOk_ok (sInv_setFlagsAdd16 _ _ _ _ _)
    | exact sOk_ok (sInv_setFlagsSub16 _ _ _ _ _)
    | apply sOk_ite
    | apply sOk_bind
    | intro _

theorem sOk_op_eor (c : CPU) (x y : Int) : SOk (c.op_eor x y) := by
  simp only [CPU.op_eor]
  repeat
    first
    | exact sOk_error _
    | exact sOk_ok (sInv_setFlagsAdd _ _ _ _ _)
    | exact sOk_ok (sInv_setFlagsSub _ _ _ _ _)
    | exact sOk_ok (sInv_setFlagsLogical _ _)
    | exact sOk_ok (sInv_setFlagsInc _ _ _)
    | exact sOk_ok (sInv_setFlagsDec _ _ _)
    | exact sOk_ok (sInv_setFlagsAdd16 _ _ _ _ _)
    | exact sOk_ok (sInv_setFlagsSub16 _ _ _ _ _)
    | apply sOk_ite
    | apply sOk_bind
    | intro _

theorem sOk_op_cp (c : CPU) (x y : Int) : SOk (c.op_cp x y) := by
  simp only [CPU.op_cp]
  repeat
    first
    | exact sOk_error _
    | exact sOk_ok (sInv_setFlagsAdd _ _ _ _ _)
    | exact sOk_ok (sInv_setFlagsSub _ _ _ _ _)
    | exact sOk_ok (sInv_setFlagsLogical _ _)
    | exact sOk_ok (sInv_setFlagsInc _ _ _)
    | exact sOk_ok (sInv_setFlagsDec _ _ _)
    | exact sOk_ok (sInv_setFlagsAdd16 _ _ _ _ _)
    | exact sOk_ok (sInv_setFlagsSub16 _ _ _ _ _)
    | apply sOk_ite
    | apply sOk_bind
    | intro _

theorem sOk_op_cpse (c : CPU) (x y : Int) : SOk (c.op_cpse x y) := by
  simp only [CPU.op_cpse]
  repeat
    first
    | exact sOk_error _
    | exact sOk_ok (sInv_setFlagsAdd _ _ _ _ _)
    | exact sOk_ok (sInv_setFlagsSub _ _ _ _ _)
    | exact sOk_ok (sInv_setFlagsLogical _ _)
    | exact sOk_ok (sInv_setFlagsInc _ _ _)
    | exact sOk_ok (sInv_setFlagsDec _ _ _)
    | exact sOk_ok (sInv_setFlagsAdd16 _ _ _ _ _)
    | exact sOk_ok (sInv_setFlagsSub16 _ _ _ _ _)
    | apply sOk_ite
    | apply sOk_bind
    | intro _

theorem sOk_op_subi (c : CPU) (x y : Int) : SOk (c.op_subi x y) := by
  simp only [CPU.op_subi]
  repeat
    first
    | exact sOk_error _
    | exact sOk_ok (sInv_setFlagsAdd _ _ _ _ _)
    | exact sOk_ok (sInv_setFlagsSub _ _ _ _ _)
    | exact sOk_ok (sInv_setFlagsLogical _ _)
    | exact sOk_ok (sInv_setFlagsInc _ _ _)
    | exact sOk_ok (sInv_setFlagsDec _ _ _)
    | exact sOk_ok (sInv_setFlagsAdd16 _ _ _ _ _)
    | exact sOk_ok (sInv_setFlagsSub16 _ _ _ _ _)
    | apply sOk_ite
    | apply sOk_bind
    | intro _

theorem sOk_op_sbci (c : CPU) (x y : Int) : SOk (c.op_sbci x y) := by
  simp only [CPU.op_sbci]
  repeat
    first
    | exact sOk_error _
    | exact sOk_ok (sInv_setFlagsAdd _ _ _ _ _)
    | exact sOk_ok (sInv_setFlagsSub _ _ _ _ _)
    | exact sOk_ok (sInv_setFlagsLogical _ _)
    | exact sOk_ok (sInv_setFlagsInc _ _ _)
    | exact sOk_ok (sInv_setFlagsDec _ _ _)
    | exact sOk_ok (sInv_setFlagsAdd16 _ _ _ _ _)
    | exact sOk_ok (sInv_setFlagsSub16 _ _ _ _ _)
    | apply sOk_ite
    | apply sOk_bind
    | intro _

theorem sOk_op_andi (c : CPU) (x y : Int) : SOk (c.op_andi x y) := by
  simp only [CPU.op_andi]
  repeat
    first
    | exact sOk_error _
    | exact sOk_ok (sInv_setFlagsAdd _ _ _ _ _)
    | exact sOk_ok (sInv_setFlagsSub _ _ _ _ _)
    | exact sOk_ok (sInv_setFlagsLogical _ _)
    | exact sOk_ok (sInv_setFlagsInc _ _ _)
    | exact sOk_ok (sInv_setFlagsDec _ _ _)
    | exact sOk_ok (sInv_setFlagsAdd16 _ _ _ _ _)
    | exact sOk_ok (sInv_setFlagsSub16 _ _ _ _ _)
    | apply sOk_ite
    | apply sOk_bind
    | intro _

theorem sOk_op_ori (c : CPU) (x y : Int) : SOk (c.op_ori x y) := by
  simp only [CPU.op_ori]
  repeat
    first
    | exact sOk_error _
    | exact sOk_ok (sInv_setFlagsAdd _ _ _ _ _)
    | exact sOk_ok (sInv_setFlagsSub _ _ _ _ _)
    | exact sOk_ok (sInv_setFlagsLogical _ _)
    | exact sOk_ok (sInv_setFlagsInc _ _ _)
    | exact sOk_ok (sInv_setFlagsDec _ _ _)
    | exact sOk_ok (sInv_setFlagsAdd16 _ _ _ _ _)
    | exact sOk_ok (sInv_setFlagsSub16 _ _ _ _ _)
    | apply sOk_ite
    | apply sOk_bind
    | intro _

theorem sOk_op_eori (c : CPU) (x y : Int) : SOk (c.op_eori x y) := by
  simp only [CPU.op_eori]
  repeat
    first
    | exact sOk_error _
    | exact sOk_ok (sInv_setFlagsAdd _ _ _ _ _)
    | exact sOk_ok (sInv_setFlagsSub _ _ _ _ _)
    | exact sOk_ok (sInv_setFlagsLogical _ _)
    | exact sOk_ok (sInv_setFlagsInc _ _ _)
    | exact sOk_ok (sInv_setFlagsDec _ _ _)
    | exact sOk_ok (sInv_setFlagsAdd16 _ _ _ _ _)
    | exact sOk_ok (sInv_setFlagsSub16 _ _ _ _ _)
    | apply sOk_ite
    | apply sOk_bind
    | intro _

theorem sOk_op_cpi (c : CPU) (x y : Int) : SOk (c.op_cpi x y) := by
  simp only [CPU.op_cpi]
  repeat
    first
    | exact sOk_error _
    | exact sOk_ok (sInv_setFlagsAdd _ _ _ _ _)
    | exact sOk_ok (sInv_setFlagsSub _ _ _ _ _)
    | exact sOk_ok (sInv_setFlagsLogical _ _)
    | exact sOk_ok (sInv_setFlagsInc _ _ _)
    | exact sOk_ok (sInv_setFlagsDec _ _ _)
    | exact sOk_ok (sInv_setFlagsAdd16 _ _ _ _ _)
    | exact sOk_ok (sInv_setFlagsSub16 _ _ _ _ _)
    | apply sOk_ite
    | apply sOk_bind
    | intro _

theorem sOk_op_adiw (c : CPU) (x y : Int) : SOk (c.op_adiw x y) := by
  simp only [CPU.op_adiw]
  repeat
    first
    | exact sOk_error _
    | exact sOk_ok (sInv_setFlagsAdd _ _ _ _ _)
    | exact sOk_ok (sInv_setFlagsSub _ _ _ _ _)
    | exact sOk_ok (sInv_setFlagsLogical _ _)
    | exact sOk_ok (sInv_setFlagsInc _ _ _)
    | exact sOk_ok (sInv_setFlagsDec _ _ _)
    | exact sOk_ok (sInv_setFlagsAdd16 _ _ _ _ _)
    | exact sOk_ok (sInv_setFlagsSub16 _ _ _ _ _)
    | apply sOk_ite
    | apply sOk_bind
    | intro _

theorem sOk_op_sbiw (c : CPU) (x y : Int) : SOk (c.op_sbiw x y) := by
  simp only [CPU.op_sbiw]
  repeat
    first
    | exact sOk_error _
    | exact sOk_ok (sInv_setFlagsAdd _ _ _ _ _)
    | exact sOk_ok (sInv_setFlagsSub _ _ _ _ _)
    | exact sOk_ok (sInv_setFlagsLogical _ _)
    | exact sOk_ok (sInv_setFlagsInc _ _ _)
    | exact sOk_ok (sInv_setFlagsDec _ _ _)
    | exact sOk_ok (sInv_setFlagsAdd16 _ _ _ _ _)
    | exact sOk_ok (sInv_setFlagsSub16 _ _ _ _ _)
    | apply sOk_ite
    | apply sOk_bind
    | intro _

theorem sOk_op_inc (c : CPU) (x : Int) : SOk (c.op_inc x) := by
  simp only [CPU.op_inc]
  repeat
    first
    | exact sOk_error _
    | exact sOk_ok (sInv_setFlagsAdd _ _ _ _ _)
    | exact sOk_ok (sInv_setFlagsSub _ _ _ _ _)
    | exact sOk_ok (sInv_setFlagsLogical _ _)
    | exact sOk_ok (sInv_setFlagsInc _ _ _)
    | exact sOk_ok (sInv_setFlagsDec _ _ _)
    | exact sOk_ok (sInv_setFlagsAdd16 _ _ _ _ _)
    | exact sOk_ok (sInv_setFlagsSub16 _ _ _ _ _)
    | apply sOk_ite
    | apply sOk_bind
    | intro _

theorem sOk_op_dec (c : CPU) (x : Int) : SOk (c.op_dec x) := by
  simp only [CPU.op_dec]
  repeat
    first
    | exact sOk_error _
    | exact sOk_ok (sInv_setFlagsAdd _ _ _ _ _)
    | exact sOk_ok (sInv_setFlagsSub _ _ _ _ _)
    | exact sOk_ok (sInv_setFlagsLogical _ _)
    | exact sOk_ok (sInv_setFlagsInc _ _ _)
    | exact sOk_ok (sInv_setFlagsDec _ _ _)
    | exact sOk_ok (sInv_setFlagsAdd16 _ _ _ _ _)
    | exact sOk_ok (sInv_setFlagsSub16 _ _ _ _ _)
    | apply sOk_ite
    | apply sOk_bind
    | intro _

theorem sOk_op_neg (c : CPU) (x : Int) : SOk (c.op_neg x) := by
  simp only [CPU.op_neg]
  repeat
    first
    | exact sOk_error _
    | exact sOk_ok (sInv_setFlagsAdd _ _ _ _ _)
    | exact sOk_ok (sInv_setFlagsSub _ _ _ _ _)
    | exact sOk_ok (sInv_setFlagsLogical _ _)
    | exact sOk_ok (sInv_setFlagsInc _ _ _)
    | exact sOk_ok (sInv_setFlagsDec _ _ _)
    | exact sOk_ok (sInv_setFlagsAdd16 _ _ _ _ _)
    | exact sOk_ok (sInv_setFlagsSub16 _ _ _ _ _)
    | apply sOk_ite
    | apply sOk_bind
    | intro _

theorem sOk_op_tst (c : CPU) (x : Int) : SOk (c.op_tst x) := by
  simp only [CPU.op_tst]
  repeat
    first
    | exact sOk_error _
    | exact sOk_ok (sInv_setFlagsAdd _ _ _ _ _)
    | exact sOk_ok (sInv_setFlagsSub _ _ _ _ _)
    | exact sOk_ok (sInv_setFlagsLogical _ _)
    | exact sOk_ok (sInv_setFlagsInc _ _ _)
    | exact sOk_ok (sInv_setFlagsDec _ _ _)
    | exact sOk_ok (sInv_setFlagsAdd16 _ _ _ _ _)
    | exact sOk_ok (sInv_setFlagsSub16 _ _ _ _ _)
    | apply sOk_ite
    | apply sOk_bind
    | intro _

theorem sOk_op_lsl (c : CPU) (x : Int) : SOk (c.op_lsl x) := by
  simp only [CPU.op_lsl]
  apply sOk_bind
  intro v
  apply sOk_bind
  intro c1
  apply sOk_ok
  simp only [setFlag_sreg]
  simp only [SInv, gfs_ZS, gfs_ZV, gfs_ZN, gfs_SV, gfs_SN, gfs_VN, gfs_NV,
    gfs_HS, gfs_HV, gfs_HN, gfs_CS, gfs_CV, gfs_CN, get_flag_set_flag_self]
  refine sInv_core _ _ ?_ ?_
  · omega
  · omega

theorem sOk_op_lsr (c : CPU) (x : Int) : SOk (c.op_lsr x) := by
  simp only [CPU.op_lsr]
  apply sOk_bind
  intro v
  apply sOk_bind
  intro c1
  apply sOk_ok
  simp only [setFlag_sreg]
  simp only [SInv, gfs_ZS, gfs_ZV, gfs_ZN, gfs_SV, gfs_SN, gfs_VN, gfs_NV,
    gfs_HS, gfs_HV, gfs_HN, gfs_CS, gfs_CV, gfs_CN, get_flag_set_flag_self]
  simp

theorem sOk_op_rol (c : CPU) (x : Int) : SOk (c.op_rol x) := by
  simp only [CPU.op_rol]
  apply sOk_bind
  intro v
  apply sOk_bind
  intro c1
  apply sOk_ok
  simp only [setFlag_sreg]
  simp only [SInv, gfs_ZS, gfs_ZV, gfs_ZN, gfs_SV, gfs_SN, gfs_VN, gfs_NV,
    gfs_HS, gfs_HV, gfs_HN, gfs_CS, gfs_CV, gfs_CN, get_flag_set_flag_self]
  simp

theorem sOk_op_ror (c : CPU) (x : Int) : SOk (c.op_ror x) := by
  simp only [CPU.op_ror]
  apply sOk_bind
  intro v
  apply sOk_bind
  intro c1
  apply sOk_ok
  simp only [setFlag_sreg]
  simp only [SInv, gfs_ZS, gfs_ZV, gfs_ZN, gfs_SV, gfs_SN, gfs_VN, gfs_NV,
    gfs_HS, gfs_HV, gfs_HN, gfs_CS, gfs_CV, gfs_CN, get_flag_set_flag_self]
  simp

theorem sOk_op_com (c : CPU) (x : Int) : SOk (c.op_com x) := by
  simp only [CPU.op_com]
  apply sOk_bind
  intro v
  apply sOk_bind
  intro c1
  apply sOk_ok
  simp only [setFlag_sreg]
  simp only [SInv, gfs_ZS, gfs_ZV, gfs_ZN, gfs_SV, gfs_SN, gfs_VN, gfs_NV,
    gfs_HS, gfs_HV, gfs_HN, gfs_CS, gfs_CV, gfs_CN, get_flag_set_flag_self]
  simp

theorem sOk_op_clr (c : CPU) (x : Int) : SOk (c.op_clr x) := by
  simp only [CPU.op_clr]
  apply sOk_bind
  intro c1
  apply sOk_ok
  simp only [setFlag_sreg]
  simp only [SInv, gfs_ZS, gfs_ZV, gfs_ZN, gfs_SV, gfs_SN, gfs_VN, gfs_NV,
    gfs_HS, gfs_HV, gfs_HN, gfs_CS, gfs_CV, gfs_CN, get_flag_set_flag_self]
  decide

theorem sOk_op_ser (c : CPU) (x : Int) : SOk (c.op_ser x) := by
  simp only [CPU.op_ser]
  apply sOk_bind
  intro c1
  apply sOk_ok
  simp only [setFlag_sreg]
  simp only [SInv, gfs_ZS, gfs_ZV, gfs_ZN, gfs_SV, gfs_SN, gfs_VN, gfs_NV,
    gfs_HS, gfs_HV, gfs_HN, gfs_CS, gfs_CV, gfs_CN, get_flag_set_flag_self]
  decide

end SSec

/-- Claim C6: after every instruction of the instruction set that defines
both the N and V flags (the two-operand and one-operand arithmetic and
logical ops, the compares, the 16-bit ADIW/SBIW, the shifts and rotates,
COM, CLR and SER), the S flag of the resulting SREG equals N xor V; for
the logical group V is forced to 0, so there S equals N. -/
theorem s_flag_invariant (c c' : CPU) (x y : Int) :
    (c.op_add x y = .ok c' →
      get_flag c'.sreg SREG_S = xor (get_flag c'.sreg SREG_N) (get_flag c'.sreg SREG_V)) ∧
    (c.op_adc x y = .ok c' →
      get_flag c'.sreg SREG_S = xor (get_flag c'.sreg SREG_N) (get_flag c'.sreg SREG_V)) ∧
    (c.op_sub x y = .ok c' →
      get_flag c'.sreg SREG_S = xor (get_flag c'.sreg SREG_N) (get_flag c'.sreg SREG_V)) ∧
    (c.op_sbc x y = .ok c' →
      get_flag c'.sreg SREG_S = xor (get_flag c'.sreg SREG_N) (get_flag c'.sreg SREG_V)) ∧
    (c.op_and x y = .ok c' →
      get_flag c'.sreg SREG_S = xor (get_flag c'.sreg SREG_N) (get_flag c'.sreg SREG_V)) ∧
    (c.op_or x y = .ok c' →
      get_flag c'.sreg SREG_S = xor (get_flag c'.sreg SREG_N) (get_flag c'.sreg SREG_V)) ∧
    (c.op_eor x y = .ok c' →
      get_flag c'.sreg SREG_S = xor (get_flag c'.sreg SREG_N) (get_flag c'.sreg SREG_V)) ∧
    (c.op_cp x y = .ok c' →
      get_flag c'.sreg SREG_S = xor (get_flag c'.sreg SREG_N) (get_flag c'.sreg SREG_V)) ∧
    (c.op_cpse x y = .ok c' →
      get_flag c'.sreg SREG_S = xor (get_flag c'.sreg SREG_N) (get_flag c'.sreg SREG_V)) ∧
    (c.op_subi x y = .ok c' →
      get_flag c'.sreg SREG_S = xor (get_flag c'.sreg SREG_N) (get_flag c'.sreg SREG_V)) ∧
    (c.op_sbci x y = .ok c' →
      get_flag c'.sreg SREG_S = xor (get_flag c'.sreg SREG_N) (get_flag c'.sreg SREG_V)) ∧
    (c.op_andi x y = .ok c' →
      get_flag c'.sreg SREG_S = xor (get_flag c'.sreg SREG_N) (get_flag c'.sreg SREG_V)) ∧
    (c.op_ori x y = .ok c' →
      get_flag c'.sreg SREG_S = xor (get_flag c'.sreg SREG_N) (get_flag c'.sreg SREG_V)) ∧
    (c.op_eori x y = .ok c' →
      get_flag c'.sreg SREG_S = xor (get_flag c'.sreg SREG_N) (get_flag c'.sreg SREG_V)) ∧
    (c.op_cpi x y = .ok c' →
      get_flag c'.sreg SREG_S = xor (get_flag c'.sreg SREG_N) (get_flag c'.sreg SREG_V)) ∧
    (c.op_adiw x y = .ok c' →
      get_flag c'.sreg SREG_S = xor (get_flag c'.sreg SREG_N) (get_flag c'.sreg SREG_V)) ∧
    (c.op_sbiw x y = .ok c' →
      get_flag c'.sreg SREG_S = xor (get_flag c'.sreg SREG_N) (get_flag c'.sreg SREG_V)) ∧
    (c.op_inc x = .ok c' →
      get_flag c'.sreg SREG_S = xor (get_flag c'.sreg SREG_N) (get_flag c'.sreg SREG_V)) ∧
    (c.op_dec x = .ok c' →
      get_flag c'.sreg SREG_S = xor (get_flag c'.sreg SREG_N) (get_flag c'.sreg SREG_V)) ∧
    (c.op_neg x = .ok c' →
      get_flag c'.sreg SREG_S = xor (get_flag c'.sreg SREG_N) (get_flag c'.sreg SREG_V)) ∧
    (c.op_tst x = .ok c' →
      get_flag c'.sreg SREG_S = xor (get_flag c'.sreg SREG_N) (get_flag c'.sreg SREG_V)) ∧
    (c.op_lsl x = .ok c' →
      get_flag c'.sreg SREG_S = xor (get_flag c'.sreg SREG_N) (get_flag c'.sreg SREG_V)) ∧
    (c.op_lsr x = .ok c' →
      get_flag c'.sreg SREG_S = xor (get_flag c'.sreg SREG_N) (get_flag c'.sreg SREG_V)) ∧
    (c.op_rol x = .ok c' →
      get_flag c'.sreg SREG_S = xor (get_flag c'.sreg SREG_N) (get_flag c'.sreg SREG_V)) ∧
    (c.op_ror x = .ok c' →
      get_flag c'.sreg SREG_S = xor (get_flag c'.sreg SREG_N) (get_flag c'.sreg SREG_V)) ∧
    (c.op_com x = .ok c' →
      get_flag c'.sreg SREG_S = xor (get_flag c'.sreg SREG_N) (get_flag c'.sreg SREG_V)) ∧
    (c.op_clr x = .ok c' →
      get_flag c'.sreg SREG_S = xor (get_flag c'.sreg SREG_N) (get_flag c'.sreg SREG_V)) ∧
    (c.op_ser x = .ok c' →
      get_flag c'.sreg SREG_S = xor (get_flag c'.sreg SREG_N) (get_flag c'.sreg SREG_V)) := by
  exact ⟨fun h => sOk_op_add c x y c' h,
    fun h => sOk_op_adc c x y c' h,
    fun h => sOk_op_sub c x y c' h,
    fun h => sOk_op_sbc c x y c' h,
    fun h => sOk_op_and c x y c' h,
    fun h => sOk_op_or c x y c' h,
    fun h => sOk_op_eor c x y c' h,
    fun h => sOk_op_cp c x y c' h,
    fun h => sOk_op_cpse c x y c' h,
    fun h => sOk_op_subi c x y c' h,
    fun h => sOk_op_sbci c x y c' h,
    fun h => sOk_op_andi c x y c' h,
    fun h => sOk_op_ori c x y c' h,
    fun h => sOk_op_eori c x y c' h,
    fun h => sOk_op_cpi c x y c' h,
    fun h => sOk_op_adiw c x y c' h,
    fun h => sOk_op_sbiw c x y c' h,
    fun h => sOk_op_inc c x c' h,
    fun h => sOk_op_dec c x c' h,
    fun h => sOk_op_neg c x c' h,
    fun h => sOk_op_tst c x c' h,
    fun h => sOk_op_lsl c x c' h,
    fun h => sOk_op_lsr c x c' h,
    fun h => sOk_op_rol c x c' h,
    fun h => sOk_op_ror c x c' h,
    fun h => sOk_op_com c x c' h,
    fun h => sOk_op_clr c x c' h,
    fun h => sOk_op_ser c x c' h⟩

/-- The state after `ADD r0, r1` on a fresh CPU over the small test memory. -/
def addC6 : CPU :=
  match (CPU.init memW).op_add 0 1 with
  | .ok cr => cr
  | .error _ => CPU.init memW

/-- Witness for C6: the `op_add` conjunct applied to the concrete
`ADD r0, r1` execution on a fresh CPU. -/
theorem s_flag_invariant_witness :
    get_flag addC6.sreg SREG_S =
      xor (get_flag addC6.sreg SREG_N) (get_flag addC6.sreg SREG_V) :=
  (s_flag_invariant (CPU.init memW) addC6 0 1).1 (by decide)

/-! ## Claim C5: PUSH/POP stack discipline -/

/-- Characterization of a successful `op_push`: the register byte is
stored at RAM[sp] and then sp is decremented; registers and the RAM shape
are otherwise untouched. -/
theorem push_spec (c : CPU) (r : Int) (h0 : 0 ≤ r) (h1 : r < 32)
    (hregs : c.regs.length = 32)
    (hsp0 : 0 ≤ c.sp) (hsp1 : c.sp < (c.mem.ram_size : Int)) :
    ∃ c', c.op_push r = .ok c' ∧
      c'.sp = c.sp - 1 ∧
      c'.regs = c.regs ∧
      c'.mem.ram = c.mem.ram.set c.sp.toNat (c.regs.getD r.toNat 0 % 256) ∧
      c'.mem.ram_size = c.mem.ram_size ∧
      c'.mem.ram.length = c.mem.ram.length := by
  unfold CPU.op_push
  rw [read_reg_valid c r h0 (by omega), ok_bind]
  obtain ⟨c2, hw, _, hsp, hregs2, _, hsize, _, _, _, _, _, hram⟩ :=
    write_ram_ok c c.sp (c.regs.getD r.toNat 0 % 256 : Nat) hsp0 hsp1
  rw [hw, ok_bind]
  refine ⟨_, rfl, by rw [hsp], hregs2, ?_, hsize, ?_⟩
  · rw [hram, mask8_coe, Nat.mod_mod_of_dvd _ (dvd_refl 256)]
  · rw [hram, mask8_coe, Nat.mod_mod_of_dvd _ (dvd_refl 256),
      List.length_set]

/-- Characterization of a successful `op_pop`: sp is incremented first,
then RAM[sp] is loaded into the destination register; memory is untouched
and the destination register afterwards holds the loaded byte. -/
theorem pop_spec (c : CPU) (rd : Int) (h0 : 0 ≤ rd) (h1 : rd < 32)
    (hregs : c.regs.length = 32)
    (hsp0 : 0 ≤ c.sp + 1) (hsp1 : c.sp + 1 < (c.mem.ram_size : Int)) :
    ∃ c', c.op_pop rd = .ok c' ∧
      c'.sp = c.sp + 1 ∧
      c'.mem = c.mem ∧
      c'.regs.length = 32 ∧
      c'.regs.getD rd.toNat 0 = c.mem.ram.getD (c.sp + 1).toNat 0 % 256 := by
  simp only [CPU.op_pop]
  unfold CPU.read_ram Memory.read_ram
  dsimp only
  rw [if_neg (by omega), ok_bind]
  rw [write_reg_valid _ rd _ h0 (by dsimp only; omega)]
  dsimp only
  by_cases hv : c.regs.getD rd.toNat 0 = mask8 (c.mem.ram.getD (c.sp + 1).toNat 0 : Nat)
  · rw [if_pos hv]
    exact ⟨_, rfl, rfl, rfl, hregs, by rw [hv, mask8_coe]⟩
  · rw [if_neg hv]
    refine ⟨_, rfl, rfl, rfl, by simp [hregs], ?_⟩
    rw [getD_set_self _ _ _ (by omega), mask8_coe]

/-- Execute a sequence of PUSHes of the given source registers. -/
def pushMany (c : CPU) (rs : List Int) : Except Err CPU :=
  match rs with
  | [] => .ok c
  | r :: rest => c.op_push r >>= fun c1 => pushMany c1 rest

/-- Execute `n` POPs into register `rd`, recording the value observed in
`rd` right after each POP. -/
def popManyV (c : CPU) (rd : Int) (n : Nat) : Except Err (CPU × List Nat) :=
  match n with
  | 0 => .ok (c, [])
  | Nat.succ m =>
    c.op_pop rd >>= fun c1 =>
      popManyV c1 rd m >>= fun p =>
        .ok (p.1, c1.regs.getD rd.toNat 0 :: p.2)

/-- Effect of a sequence of PUSHes: sp drops by the number of pushes, the
pushed register bytes sit at RAM[sp], RAM[sp-1], ..., registers are
untouched, and RAM outside the written window is untouched. -/
theorem pushMany_spec (rs : List Int) (c : CPU)
    (hregs : c.regs.length = 32)
    (hrs : ∀ r ∈ rs, 0 ≤ r ∧ r < 32)
    (hsp1 : c.sp < (c.mem.ram_size : Int))
    (hroom : (rs.length : Int) ≤ c.sp + 1)
    (hlen : c.mem.ram.length = c.mem.ram_size) :
    ∃ c1, pushMany c rs = .ok c1 ∧
      c1.sp = c.sp - rs.length ∧
      c1.regs = c.regs ∧
      c1.mem.ram_size = c.mem.ram_size ∧
      c1.mem.ram.length = c.mem.ram.length ∧
      (∀ i : Nat, i < rs.length →
        c1.mem.ram.getD (c.sp - i).toNat 0 =
          c.regs.getD (rs.getD i 0).toNat 0 % 256) ∧
      (∀ a : Nat, ((c.sp : Int) < a ∨ (a : Int) ≤ c.sp - rs.length) →
        c1.mem.ram.getD a 0 = c.mem.ram.getD a 0) := by
  induction rs generalizing c with
  | nil =>
    exact ⟨c, rfl, by simp, rfl, rfl, rfl,
      fun i hi => absurd hi (by simp), fun a _ => rfl⟩
  | cons r rest ih =>
    obtain ⟨hr0, hr1⟩ := hrs r (by simp)
    have hsp0 : 0 ≤ c.sp := by
      simp only [List.length_cons] at hroom; push_cast at hroom; omega
    obtain ⟨c', hpush, hsp', hregs', hram', hsize', hlen2⟩ :=
      push_spec c r hr0 hr1 hregs hsp0 hsp1
    have ihregs : c'.regs.length = 32 := by rw [hregs']; exact hregs
    have ihrs : ∀ x ∈ rest, 0 ≤ x ∧ x < 32 := fun x hx => hrs x (by simp [hx])
    have ihsp1 : c'.sp < (c'.mem.ram_size : Int) := by
      rw [hsp', hsize']; omega
    have ihroom : (rest.length : Int) ≤ c'.sp + 1 := by
      rw [hsp']
      simp only [List.length_cons] at hroom; push_cast at hroom; omega
    have ihlen : c'.mem.ram.length = c'.mem.ram_size := by
      rw [hlen2, hsize', hlen]
    obtain ⟨c1, hrun, ih_sp, ih_regs, ih_size, ih_len, ih_vals, ih_un⟩ :=
      ih c' ihregs ihrs ihsp1 ihroom ihlen
    refine ⟨c1, ?_, ?_, ?_, ?_, ?_, ?_, ?_⟩
    · show (c.op_push r >>= fun c2 => pushMany c2 rest) = .ok c1
      rw [hpush, ok_bind]; exact hrun
    · rw [ih_sp, hsp']
      simp only [List.length_cons]; push_cast; ring
    · rw [ih_regs, hregs']
    · rw [ih_size, hsize']
    · rw [ih_len, hlen2]
    · intro i hi
      cases i with
      | zero =>
        have ha : c1.mem.ram.getD c.sp.toNat 0 = c'.mem.ram.getD c.sp.toNat 0 := by
          apply ih_un
          left
          rw [hsp']; omega
        simp only [Nat.cast_zero, sub_zero, List.getD_cons_zero]
        rw [ha, hram', getD_set_self]
        omega
      | succ j =>
        have hj : j < rest.length := by
          simp only [List.length_cons] at hi; omega
        have hv := ih_vals j hj
        rw [hregs'] at hv
        simp only [List.getD_cons_succ]
        rw [show ((c.sp - ((j + 1 : Nat) : Int)).toNat) = (c'.sp - (j : Int)).toNat by
          rw [hsp']; omega]
        exact hv
    · intro a ha
      have h1 : c1.mem.ram.getD a 0 = c'.mem.ram.getD a 0 := by
        apply ih_un
        rcases ha with h | h
        · left; rw [hsp']; omega
        · right
          rw [hsp']
          simp only [List.length_cons] at h; push_cast at h ⊢; omega
      rw [h1, hram', getD_set_ne]
      rcases ha with h | h
      · omega
      · simp only [List.length_cons] at h; push_cast at h; omega

/-- Effect of a sequence of POPs: sp rises by the number of pops, memory
is untouched, and the observed values are the RAM bytes at sp+1, sp+2,
... in order. -/
theorem popManyV_spec (n : Nat) (c : CPU) (rd : Int)
    (h0 : 0 ≤ rd) (h1 : rd < 32) (hregs : c.regs.length = 32)
    (hsp0 : 0 ≤ c.sp + 1)
    (hsp1 : c.sp + n < (c.mem.ram_size : Int)) :
    ∃ c2 vs, popManyV c rd n = .ok (c2, vs) ∧
      c2.sp = c.sp + n ∧
      c2.mem = c.mem ∧
      vs = (List.range n).map
        (fun j : Nat => c.mem.ram.getD (c.sp + 1 + (j : Int)).toNat 0 % 256) := by
  induction n generalizing c with
  | zero => exact ⟨c, [], rfl, by simp, rfl, by simp⟩
  | succ m ih =>
    obtain ⟨c', hpop, hsp', hmem', hregs', hval⟩ :=
      pop_spec c rd h0 h1 hregs hsp0 (by push_cast at hsp1; omega)
    obtain ⟨c2, vs, hrun, hsp2, hmem2, hvs⟩ :=
      ih c' hregs' (by rw [hsp']; omega)
        (by rw [hsp', hmem']; push_cast at hsp1 ⊢; omega)
    refine ⟨c2, c'.regs.getD rd.toNat 0 :: vs, ?_, ?_, ?_, ?_⟩
    · show (c.op_pop rd >>= fun c1 => popManyV c1 rd m >>= fun p =>
        .ok (p.1, c1.regs.getD rd.toNat 0 :: p.2)) = .ok (c2, _)
      rw [hpop, ok_bind, hrun, ok_bind]
    · rw [hsp2, hsp']; push_cast; ring
    · rw [hmem2, hmem']
    · rw [List.range_succ_eq_map, List.map_cons, List.map_map]
      congr 1
      · rw [hval]; simp
      · rw [hvs, hmem', hsp']
        apply List.map_congr_left
        intro j hj
        show c.mem.ram.getD (c.sp + 1 + 1 + (j : Int)).toNat 0 % 256 =
          c.mem.ram.getD (c.sp + 1 + ((j + 1 : Nat) : Int)).toNat 0 % 256
        rw [show ((c.sp + 1 + 1 + (j : Int)).toNat) =
          ((c.sp + 1 + ((j + 1 : Nat) : Int)).toNat) by omega]

/-- Claim C5: for any sequence of `PUSH r_i` followed by as many POPs
(with the stack inside RAM and valid register operands), the popped
values are exactly the pushed register bytes in reverse order and sp
returns to its pre-sequence value; PUSH stores at RAM[sp] then decrements
sp, POP increments sp then loads RAM[sp]. -/
theorem push_pop_lifo (c : CPU) (rs : List Int) (rd : Int)
    (hregs : c.regs.length = 32)
    (hrd0 : 0 ≤ rd) (hrd1 : rd < 32)
    (hrs : ∀ r ∈ rs, 0 ≤ r ∧ r < 32)
    (hsp1 : c.sp < (c.mem.ram_size : Int))
    (hroom : (rs.length : Int) ≤ c.sp + 1)
    (hlen : c.mem.ram.length = c.mem.ram_size) :
    ∃ c1 c2 vs,
      pushMany c rs = .ok c1 ∧
      popManyV c1 rd rs.length = .ok (c2, vs) ∧
      c2.sp = c.sp ∧
      vs = (rs.map (fun r => c.regs.getD r.toNat 0 % 256)).reverse := by
  obtain ⟨c1, hpush, hsp1', hregs1, hsize1, hlen1, hvals, _⟩ :=
    pushMany_spec rs c hregs hrs hsp1 hroom hlen
  obtain ⟨c2, vs, hpop, hsp2, _, hvs⟩ :=
    popManyV_spec rs.length c1 rd hrd0 hrd1 (by rw [hregs1]; exact hregs)
      (by rw [hsp1']; omega)
      (by rw [hsp1', hsize1]; omega)
  refine ⟨c1, c2, vs, hpush, hpop, ?_, ?_⟩
  · rw [hsp2, hsp1']; omega
  · rw [hvs]
    apply List.ext_getElem
    · simp
    · intro i h1 h2
      have hi : i < rs.length := by simpa using h1
      have hk : rs.length - 1 - i < rs.length := by omega
      simp only [List.getElem_map, List.getElem_range, List.getElem_reverse,
        List.length_map]
      have haddr : (c1.sp + 1 + (i : Int)).toNat =
          (c.sp - ((rs.length - 1 - i : Nat) : Int)).toNat := by
        rw [hsp1']; omega
      rw [haddr, hvals _ hk, List.getD_eq_getElem _ _ hk,
        Nat.mod_mod_of_dvd _ (dvd_refl 256)]

/-- A CPU over the small test memory with r0 = 11 and r1 = 22. -/
def cpuC5 : CPU :=
  { CPU.init memW with regs := ((List.replicate 32 0).set 0 11).set 1 22 }

/-- Witness for C5: pushing r0 = 11 and r1 = 22 then popping twice into
r2 yields the bytes in reverse order and restores sp. -/
theorem push_pop_lifo_witness :
    ∃ c1 c2 vs,
      pushMany cpuC5 [0, 1] = .ok c1 ∧
      popManyV c1 2 ([0, 1] : List Int).length = .ok (c2, vs) ∧
      c2.sp = cpuC5.sp ∧
      vs = (([0, 1] : List Int).map
        (fun r => cpuC5.regs.getD r.toNat 0 % 256)).reverse :=
  push_pop_lifo cpuC5 [0, 1] 2 (by decide) (by decide) (by decide)
    (by decide) (by decide) (by decide) (by decide)

end Tiny8
